import Mathlib

/-!
# Kismet data source IPC: framed codec and source instance

A shallow embedding of `kis_datasource.cc` (the parent side of the simple
capture protocol) together with the properties of the specification that
concern it.

Conventions of the embedding

* A byte is a `Nat`; a buffer or a `std::string` is a `List Nat`.
* A 32-bit field is read and written in network byte order
  (`kis_ntoh32`, `kis_hton32`).
* Memory that the C++ code reads without having written it (a buffer
  returned by `new char[n]`, an object member no constructor assigns, bytes
  past the end of the peeked copy of the ring buffer) is supplied from
  outside as a parameter (`heap`, `past`, `junk`): the results proved hold
  for every content of that memory.
* Calls into code that lives outside `kis_datasource.cc` (callbacks, the IPC
  child, the packet chain, the message bus) are recorded, in order, in the
  `trace` of the source.
-/

namespace Kismet

/-! ## Wire layout and helpers declared outside `kis_datasource.cc` -/

/-- Modelled from the spec: `sizeof(simple_cap_proto_t)`, the frame header
declared in `simple_datasource_proto.h`: signature 4, checksum 4, total size 4,
type 16, num_kv 4; the records start at offset 32. -/
def sizeof_simple_cap_proto_t : Nat := 32

/-- Modelled from the spec: `sizeof(simple_cap_proto_kv_h_t)`, the record
header declared in `simple_datasource_proto.h`: key 16, object size 4; the
object bytes start at offset 20 of the record. -/
def sizeof_simple_cap_proto_kv_h_t : Nat := 20

/-- Modelled from the spec: `kis_hton32` of `endian_magic.h`; the four bytes,
most significant first, that a 32-bit field holds for the value `x`
(a `uint32_t`, so `x` is taken modulo `2^32`). -/
def kis_hton32 (x : Nat) : List Nat :=
  [x / 16777216 % 256, x / 65536 % 256, x / 256 % 256, x % 256]

/-- Modelled from the spec: `kis_ntoh32` of `endian_magic.h`; the value of a
32-bit field holding the bytes `b0 b1 b2 b3`, most significant first. -/
def kis_ntoh32 (b0 b1 b2 b3 : Nat) : Nat :=
  ((b0 * 256 + b1) * 256 + b2) * 256 + b3

/-- One step of Adler-32 on the pair of running sums. -/
def adlerStep (ab : Nat × Nat) (x : Nat) : Nat × Nat :=
  ((ab.1 + x) % 65521, (ab.2 + (ab.1 + x) % 65521) % 65521)

/-- Modelled from the spec: `Adler32Checksum(buf, len)` of `util.cc`, called
on the first `len` bytes of a buffer; the spec names the checksum Adler-32:
sums `a` (from 1) and `b` (from 0) modulo 65521, result `b * 2^16 + a`. -/
def Adler32Checksum (buf : List Nat) : Nat :=
  let ab := buf.foldl adlerStep (1, 0)
  ab.2 * 65536 + ab.1

/-- Lower-case form of one byte of ASCII. -/
def toLowerByte (c : Nat) : Nat :=
  if 65 ≤ c ∧ c ≤ 90 then c + 32 else c

/-- Modelled from the spec: `StrLower` of `util.cc`; the string with every
ASCII capital replaced by its small letter. -/
def StrLower (s : List Nat) : List Nat :=
  s.map toLowerByte

/-- The characters of a C string: the bytes before the first NUL. -/
def c_str (s : List Nat) : List Nat :=
  s.takeWhile (fun c => c != 0)

/-- The bytes `snprintf(dst, n, "%s", src)` stores at `dst`: at most `n - 1`
characters of the C string `src`, then a NUL. -/
def snprintf_s (n : Nat) (src : List Nat) : List Nat :=
  (c_str src).take (n - 1) ++ [0]

/-- Store `bytes` into `buf` from offset `off` on (a `memcpy` or a field
assignment inside an allocated buffer); bytes that would fall past the end of
`buf` are not stored. -/
def writeAt (buf : List Nat) (off : Nat) (bytes : List Nat) : List Nat :=
  buf.take off ++ (bytes.take (buf.length - off)) ++ buf.drop (off + bytes.length)

/-- The byte at address `i` of a heap copy `buf` followed in memory by the
bytes `past 0, past 1, ...`. -/
def peekAt (buf : List Nat) (past : Nat → Nat) (i : Nat) : Nat :=
  buf.getD i (past (i - buf.length))

/-- The `n` bytes at addresses `off, off + 1, ...` of a memory. -/
def readBytes (mem : Nat → Nat) (off n : Nat) : List Nat :=
  (List.range n).map (fun j => mem (off + j))

/-- A 32-bit field at address `off`, converted with `kis_ntoh32`. -/
def readU32 (mem : Nat → Nat) (off : Nat) : Nat :=
  kis_ntoh32 (mem off) (mem (off + 1)) (mem (off + 2)) (mem (off + 3))

/-! ## Keyed objects and the key/value map -/

/-- `KisDataSource_CapKeyedObject`: a key, the declared size and the object
bytes. -/
structure KisDataSource_CapKeyedObject where
  key : List Nat
  size : Nat
  object : List Nat
deriving DecidableEq, Repr

/-- `KisDataSource_CapKeyedObject(simple_cap_proto_kv *in_kp)`: the record at
address `in_kp`; the key is printed with `snprintf(ckey, 17, "%s", ...)` from
the 16-byte key field, the object is `size` bytes copied from offset 20. -/
def KisDataSource_CapKeyedObject.ofProto (mem : Nat → Nat) (in_kp : Nat) :
    KisDataSource_CapKeyedObject :=
  let size := readU32 mem (in_kp + 16)
  { key := c_str (readBytes mem in_kp 16)
    size := size
    object := readBytes mem (in_kp + sizeof_simple_cap_proto_kv_h_t) size }

/-- `KisDataSource_CapKeyedObject(string in_key, const char *in_object,
ssize_t in_len)`: the constructor assigns `key` and `object` and never assigns
`size`, which keeps the indeterminate value `junk`. -/
def KisDataSource_CapKeyedObject.ofBytes (junk : Nat) (in_key in_object : List Nat)
    (in_len : Nat) : KisDataSource_CapKeyedObject :=
  { key := in_key.take 16
    size := junk
    object := in_object.take in_len }

/-- `KVmap`, a `std::map<string, KisDataSource_CapKeyedObject *>`: the entries
in increasing key order, one per key. -/
abbrev KVmap := List (List Nat × KisDataSource_CapKeyedObject)

/-- `kv_map[k] = v` and `insert` on a fresh key: replaces the entry of `k` or
adds one at its place in key order. -/
def KVmap.assign : KVmap → List Nat → KisDataSource_CapKeyedObject → KVmap
  | [], k, v => [(k, v)]
  | (k', v') :: rest, k, v =>
    if k = k' then (k, v) :: rest
    else if k < k' then (k, v) :: (k', v') :: rest
    else (k', v') :: KVmap.assign rest k v

/-- `kv_map.find(k)`: the object stored under `k`, if any. -/
def KVmap.find (m : KVmap) (k : List Nat) : Option KisDataSource_CapKeyedObject :=
  (List.lookup k m)

/-! ## The encoder: `KisDataSource::write_ipc_packet` -/

/-- The record `kvt` that the first loop of `write_ipc_packet` allocates for
one entry: a fresh block of `20 + size` bytes with the key printed by
`snprintf(kvt->header.key, 16, "%s", ...)`, the object size and the object. -/
def write_ipc_packet.kvt (heap : Nat → Nat) (obj : KisDataSource_CapKeyedObject) :
    List Nat :=
  let k0 := readBytes heap 0 (sizeof_simple_cap_proto_kv_h_t + obj.size)
  let k1 := writeAt k0 0 (snprintf_s 16 obj.key)
  let k2 := writeAt k1 16 (kis_hton32 obj.size)
  writeAt k2 sizeof_simple_cap_proto_kv_h_t (obj.object.take obj.size)

/-- The first loop of `write_ipc_packet` over the entries of the map, on the
locals `proto_kvpairs` and `kvpair_len`: each turn builds `kvt` and adds its
length to `kvpair_len`; the loop body has no `proto_kvpairs.push_back`, so the
vector is handed on as it was. -/
def write_ipc_packet.measure (heap : Nat → Nat) :
    KVmap → List (List Nat) → Nat → List (List Nat) × Nat
  | [], proto_kvpairs, kvpair_len => (proto_kvpairs, kvpair_len)
  | (_, obj) :: rest, proto_kvpairs, kvpair_len =>
    let _kvt := write_ipc_packet.kvt heap obj
    write_ipc_packet.measure heap rest proto_kvpairs
      (kvpair_len + (sizeof_simple_cap_proto_kv_h_t + obj.size))

/-- The second loop of `write_ipc_packet`: copies each record of
`proto_kvpairs` to `ret->data[kvpair_offt]` and advances `kvpair_offt` by the
record length `obj_sz + 20`. -/
def write_ipc_packet.pack : List Nat → List (List Nat) → Nat → List Nat
  | ret, [], _ => ret
  | ret, kvt :: rest, kvpair_offt =>
    let len := readU32 (fun i => kvt.getD i 0) 16 + sizeof_simple_cap_proto_kv_h_t
    write_ipc_packet.pack
      (writeAt ret (sizeof_simple_cap_proto_t + kvpair_offt) (kvt.take len)) rest
      (kvpair_offt + len)

/-- The length `pack_len` of the buffer `write_ipc_packet` allocates. -/
def write_ipc_packet.pack_len (heap : Nat → Nat) (in_kvpairs : KVmap) : Nat :=
  sizeof_simple_cap_proto_t + (write_ipc_packet.measure heap in_kvpairs [] 0).2

/-- The buffer `ret` of `write_ipc_packet(in_type, in_kvpairs)` when every
field but the checksum has been stored (the checksum field holds 0); `sig` is
`KIS_CAP_SIMPLE_PROTO_SIG` and `heap` the content of the memory returned by
`new char[pack_len]`. -/
def write_ipc_packet.assembled (sig : Nat) (heap : Nat → Nat) (in_type : List Nat)
    (in_kvpairs : KVmap) : List Nat :=
  let proto_kvpairs := (write_ipc_packet.measure heap in_kvpairs [] 0).1
  let pack_len := write_ipc_packet.pack_len heap in_kvpairs
  let r0 := readBytes heap 0 pack_len
  let r1 := writeAt r0 0 (kis_hton32 sig)
  let r2 := writeAt r1 4 [0, 0, 0, 0]
  let r3 := writeAt r2 8 (kis_hton32 pack_len)
  let r4 := writeAt r3 12 (snprintf_s 16 in_type)
  let r5 := writeAt r4 28 (kis_hton32 proto_kvpairs.length)
  write_ipc_packet.pack r5 proto_kvpairs 0

/-- The buffer `ret` that `write_ipc_packet(in_type, in_kvpairs)` hands to
`PutWriteBufferData`: the assembled buffer with its Adler-32 stored in the
checksum field. -/
def write_ipc_packet.ret (sig : Nat) (heap : Nat → Nat) (in_type : List Nat)
    (in_kvpairs : KVmap) : List Nat :=
  let ret := write_ipc_packet.assembled sig heap in_type in_kvpairs
  let calc_checksum :=
    Adler32Checksum (ret.take (write_ipc_packet.pack_len heap in_kvpairs))
  writeAt ret 4 (kis_hton32 calc_checksum)

/-! ## The decoder: `KisDataSource::BufferAvailable` -/

/-- The `for` loop of `BufferAvailable` over the records: `n` turns are left,
the next record is read at `frame_header->data[data_offt]`, and `data_offt` is
then assigned (not advanced by) the length of that record. -/
def BufferAvailable.kv_loop (mem : Nat → Nat) : Nat → Nat → KVmap → KVmap
  | 0, _, kv_map => kv_map
  | n + 1, data_offt, kv_map =>
    let pkv := sizeof_simple_cap_proto_t + data_offt
    let data_offt' := sizeof_simple_cap_proto_kv_h_t + readU32 mem (pkv + 16)
    let kv := KisDataSource_CapKeyedObject.ofProto mem pkv
    BufferAvailable.kv_loop mem n data_offt' (KVmap.assign kv_map (StrLower kv.key) kv)

/-- The ways `BufferAvailable` leaves: one per `return` before the frame is
consumed, and the call of `handle_packet(ctype, kv_map)` after `frame_sz`
bytes were consumed. -/
inductive Decoded where
  | tooShort
  | badSignature
  | incomplete
  | badChecksum
  | frame (frame_sz : Nat) (ctype : List Nat) (kv_map : KVmap)
deriving DecidableEq, Repr

/-- The decoding part of `BufferAvailable(in_amt)`: `buf` is the copy of the
`in_amt` buffered bytes made by `PeekReadBufferData`, `past` the memory behind
that copy, `sig` is `KIS_CAP_SIMPLE_PROTO_SIG`. -/
def BufferAvailable.decode (sig : Nat) (buf : List Nat) (past : Nat → Nat) : Decoded :=
  let in_amt := buf.length
  if in_amt < sizeof_simple_cap_proto_t then Decoded.tooShort
  else if readU32 (peekAt buf past) 0 ≠ sig then Decoded.badSignature
  else
    let frame_sz := readU32 (peekAt buf past) 8
    if frame_sz > in_amt then Decoded.incomplete
    else
      let frame_checksum := readU32 (peekAt buf past) 4
      let buf0 := writeAt buf 4 [0, 0, 0, 0]
      let calc_checksum := Adler32Checksum (buf0.take frame_sz)
      if calc_checksum ≠ frame_checksum then Decoded.badChecksum
      else
        let mem := peekAt buf0 past
        let kv_map := BufferAvailable.kv_loop mem (readU32 mem 28) 0 []
        Decoded.frame frame_sz (c_str (readBytes mem 12 16)) kv_map

/-- Whether the `n` turns the record loop of `BufferAvailable` has left, the
next one reading at `data_offt`, stay within the first `len` bytes of the
memory `mem`: each record read, its header of 20 bytes and its object of the
declared size, ends at or before `len`. -/
def BufferAvailable.kv_loop_within (mem : Nat → Nat) (len : Nat) : Nat → Nat → Bool
  | 0, _ => true
  | n + 1, data_offt =>
    decide (sizeof_simple_cap_proto_t + data_offt + sizeof_simple_cap_proto_kv_h_t
        + readU32 mem (sizeof_simple_cap_proto_t + data_offt + 16) ≤ len)
    && BufferAvailable.kv_loop_within mem len n
        (sizeof_simple_cap_proto_kv_h_t
          + readU32 mem (sizeof_simple_cap_proto_t + data_offt + 16))

/-! ## Frames as the specification lays them out -/

/-- A 16-byte field holding `s`, cut or NUL-padded to 16 bytes. -/
def field16 (s : List Nat) : List Nat :=
  s.take 16 ++ List.replicate (16 - s.length) 0

/-- One key/value record as the spec lays it out: the key NUL-padded to 16
bytes, the object size in network byte order, the object bytes. -/
def specRecord (key object : List Nat) : List Nat :=
  field16 key ++ kis_hton32 object.length ++ object

/-- The bytes of a frame with the given header fields and body, as the spec
lays them out. -/
def rawFrame (sig ck total_size : Nat) (t : List Nat) (num_kv : Nat) (body : List Nat) :
    List Nat :=
  kis_hton32 sig ++ kis_hton32 ck ++ kis_hton32 total_size ++ field16 t
    ++ kis_hton32 num_kv ++ body

/-- Store in the checksum field the Adler-32 of the frame with that field
zeroed. -/
def sealFrame (frame : List Nat) : List Nat :=
  writeAt frame 4 (kis_hton32 (Adler32Checksum (writeAt frame 4 [0, 0, 0, 0])))

/-- A valid frame as the spec lays it out, for the type `t` and the records
`recs` in order, laid out back to back. -/
def specFrame (sig : Nat) (t : List Nat) (recs : List (List Nat × List Nat)) : List Nat :=
  let body := (recs.map (fun r => specRecord r.1 r.2)).flatten
  sealFrame (rawFrame sig 0 (32 + body.length) t recs.length body)

/-- The byte `b` with bit `k` flipped. -/
def flipBit (b k : Nat) : Nat :=
  if b / 2 ^ k % 2 = 1 then b - 2 ^ k else b + 2 ^ k

/-- The buffer `f` with bit `k` of the byte at offset `i` flipped. -/
def flipBitAt (f : List Nat) (i k : Nat) : List Nat :=
  f.set i (flipBit (f.getD i 0) k)

/-! ## Payload objects -/

/-- The bytes of a string literal of the source. -/
def bytes (s : String) : List Nat :=
  s.toList.map Char.toNat

/-- A C `double`, kept symbolic: given by its IEEE 754 bits, or the result of
converting an integer. -/
inductive CDouble where
  | ofBits (bits : Nat)
  | ofInt (i : Int)
deriving DecidableEq, Repr

/-- Modelled from the spec: a `msgpack::object` that is not a container (the
msgpack library is not part of the repository); §4.2 of the spec names the
payload field types: unsigned and signed integers, float64, string, bytes. -/
inductive MsgpackAtom where
  | nil
  | boolean (b : Bool)
  | uint (n : Nat)
  | int (i : Int)
  | float (bits : Nat)
  | str (s : List Nat)
  | bin (b : List Nat)
  | other
deriving DecidableEq, Repr

/-- Modelled from the spec: a `msgpack::object` found as a value of a payload
map: an atom or an array (`channels: [string, ...]`). -/
inductive MsgpackObject where
  | atom (a : MsgpackAtom)
  | array (l : List MsgpackAtom)
deriving DecidableEq, Repr

/-- `MsgpackAdapter::MsgpackStrMap`, a `std::map<string, msgpack::object>`. -/
abbrev MsgpackStrMap := List (List Nat × MsgpackObject)

/-- `dict.find(k)`. -/
def MsgpackStrMap.find (dict : MsgpackStrMap) (k : List Nat) : Option MsgpackObject :=
  List.lookup k dict

/-- Modelled from the spec: `as<string>()`; `none` stands for the exception
thrown on another type. -/
def MsgpackObject.as_string : MsgpackObject → Option (List Nat)
  | .atom (.str s) => some s
  | .atom (.bin b) => some b
  | _ => none

/-- Modelled from the spec: `as<uint64_t>()`. -/
def MsgpackObject.as_uint64 : MsgpackObject → Option Nat
  | .atom (.uint n) => if n < 2 ^ 64 then some n else none
  | _ => none

/-- Modelled from the spec: `as<unsigned int>()`. -/
def MsgpackObject.as_uint : MsgpackObject → Option Nat
  | .atom (.uint n) => if n < 2 ^ 32 then some n else none
  | _ => none

/-- Modelled from the spec: `as<int32_t>()`. -/
def MsgpackObject.as_int32 : MsgpackObject → Option Int
  | .atom (.uint n) => if n < 2 ^ 31 then some (Int.ofNat n) else none
  | .atom (.int i) => if -(2 ^ 31) ≤ i ∧ i < 2 ^ 31 then some i else none
  | _ => none

/-- Modelled from the spec: `as<double>()`. -/
def MsgpackObject.as_double : MsgpackObject → Option CDouble
  | .atom (.float bits) => some (CDouble.ofBits bits)
  | .atom (.uint n) => some (CDouble.ofInt (Int.ofNat n))
  | .atom (.int i) => some (CDouble.ofInt i)
  | _ => none

/-- Modelled from the spec: `MsgpackAdapter::AsStringVector` of
`msgpack_adapter.h`: the elements of an array as strings. -/
def MsgpackAdapter.AsStringVector : MsgpackObject → Option (List (List Nat))
  | .array l => l.mapM (fun a => (MsgpackObject.atom a).as_string)
  | _ => none

/-- The member `via.bin` of a `msgpack::object`, read without a look at the
type: the bytes of a `bin` or `str` object (which share the layout), and
whatever the union holds, `junk`, for another object. -/
def MsgpackObject.via_bin (junk : List Nat) : MsgpackObject → List Nat
  | .atom (.bin b) => b
  | .atom (.str s) => s
  | _ => junk

/-! ## Packets handed to the packet chain -/

/-- `kis_datachunk`: the link type and the frame bytes. -/
structure kis_datachunk where
  dlt : Nat
  data : List Nat
deriving DecidableEq, Repr

/-- The two values of `signal_type` that `handle_kv_signal` assigns, and the
value the constructor of `kis_layer1_packinfo` leaves. -/
inductive kis_l1_signal_type where
  | kis_l1_signal_type_none
  | kis_l1_signal_type_dbm
  | kis_l1_signal_type_rssi
deriving DecidableEq, Repr

/-- `kis_layer1_packinfo`, the fields `handle_kv_signal` assigns. -/
structure kis_layer1_packinfo where
  signal_type : kis_l1_signal_type
  signal_dbm : Int
  noise_dbm : Int
  signal_rssi : Int
  noise_rssi : Int
  freq_khz : CDouble
  channel : List Nat
  datarate : CDouble
deriving DecidableEq, Repr

/-- `kis_gps_packinfo`, the fields `handle_kv_gps` may assign. -/
structure kis_gps_packinfo where
  lat : CDouble
  lon : CDouble
  alt : CDouble
  speed : CDouble
  heading : CDouble
  precision : CDouble
  fix : Int
  time : Nat
  gpsname : List Nat
deriving DecidableEq, Repr

/-- `kis_packet`: the timestamp and the components `kis_datasource.cc`
inserts. -/
structure kis_packet where
  tv_sec : Nat
  tv_usec : Nat
  linkframe : Option kis_datachunk
  l1info : Option kis_layer1_packinfo
  gps : Option kis_gps_packinfo
deriving DecidableEq, Repr

/-! ## The source instance -/

/-- What a source does to its surroundings: each call that leaves
`kis_datasource.cc`. -/
inductive Event where
  | probe_callback (cb : Nat) (aux : Option Nat) (success : Bool)
  | open_callback (cb : Nat) (aux : Option Nat) (success : Bool)
  | error_callback (cb : Nat) (aux : Option Nat)
  | null_deref
  | msg (text : List Nat) (flags : Nat)
  | msg_error
  | msg_info
  | close_ipc
  | soft_kill
  | launch_kis_binary (bin : List Nat)
  | ProcessPacket (packet : kis_packet)
  | DestroyPacket
deriving DecidableEq, Repr

/-- Modelled from the spec: `RingbufferHandler` (not part of the sources at
hand): the bytes waiting in the read buffer, the bytes accepted into the
write buffer and the size of the latter. -/
structure RingbufferHandler where
  rbuf : List Nat
  wbuf : List Nat
  wsize : Nat
deriving DecidableEq, Repr

/-- Modelled from the spec: `PutWriteBufferData(data, len, true)`: the whole
of `data` is accepted, or nothing; the result is the number of bytes taken. -/
def RingbufferHandler.PutWriteBufferData (h : RingbufferHandler) (data : List Nat) :
    Nat × RingbufferHandler :=
  if h.wbuf.length + data.length ≤ h.wsize then
    (data.length, { h with wbuf := h.wbuf ++ data })
  else (0, h)

/-- Modelled from the spec: `IPCRemoteV2` (not part of the sources at hand):
the PID it reports, and whether `close_ipc` and `soft_kill` were called. -/
structure IPCRemoteV2 where
  pid : Int
  closed : Bool
  killed : Bool
deriving DecidableEq, Repr

/-- `KisDataSource_QueuedCommand`. -/
structure KisDataSource_QueuedCommand where
  command : List Nat
  kv : KVmap
  insert_time : Nat
deriving DecidableEq, Repr

/-- What a call obtains from outside `kis_datasource.cc`. -/
structure Env where
  /-- `KIS_CAP_SIMPLE_PROTO_SIG` of `simple_datasource_proto.h`. -/
  sig : Nat
  /-- The content of memory returned by `new char[n]`. -/
  heap : Nat → Nat
  /-- The memory behind the peeked copy of the read buffer. -/
  past : Nat → Nat
  /-- The value of a `size` member that no constructor assigned. -/
  junk : Nat
  /-- The bytes a `via.bin` access finds in an object that is no `bin`. -/
  junk_bin : List Nat
  /-- The result of `launch_kis_binary`. -/
  launch_ret : Int
  /-- What `get_pid()` of a new `IPCRemoteV2` gives before a launch. -/
  fresh_pid : Int
  /-- What `get_pid()` gives after a launch. -/
  launch_pid : Int
  /-- The clock `globalreg->timestamp.tv_sec`. -/
  now : Nat
  /-- `msgpack::unpack` followed by `as<MsgpackStrMap>()`; `none` when either
  throws. -/
  unpack : List Nat → Option MsgpackStrMap
  /-- A `kis_layer1_packinfo` as its constructor leaves it. -/
  l1_new : kis_layer1_packinfo
  /-- A `kis_gps_packinfo` as its constructor leaves it. -/
  gps_new : kis_gps_packinfo

/-- The members of `KisDataSource` used by `kis_datasource.cc`, and the `trace`
of its calls to the outside. A callback is named by a number, `none` is
`NULL`. -/
structure KisDataSource where
  probe_callback : Option Nat
  probe_aux : Option Nat
  error_callback : Option Nat
  error_aux : Option Nat
  open_callback : Option Nat
  open_aux : Option Nat
  source_running : Bool
  child_pid : Int
  ipc_errors : Nat
  num_reports : Nat
  last_report_time : Nat
  source_definition : List Nat
  source_ipc_bin : List Nat
  source_channels_vec : List (List Nat)
  ipchandler : Option RingbufferHandler
  source_ipc : Option IPCRemoteV2
  pending_commands : List KisDataSource_QueuedCommand
  trace : List Event
deriving DecidableEq, Repr

namespace KisDataSource

/-- `KisDataSource::KisDataSource`: no callbacks, not running, no handler and
no IPC; a driver sets `source_ipc_bin` afterwards. -/
def new (source_ipc_bin : List Nat) : KisDataSource :=
  { probe_callback := none, probe_aux := none
    error_callback := none, error_aux := none
    open_callback := none, open_aux := none
    source_running := false
    child_pid := 0
    ipc_errors := 0
    num_reports := 0
    last_report_time := 0
    source_definition := []
    source_ipc_bin := source_ipc_bin
    source_channels_vec := []
    ipchandler := none
    source_ipc := none
    pending_commands := []
    trace := [] }

/-- Record a call to the outside. -/
def emit (s : KisDataSource) (e : Event) : KisDataSource :=
  { s with trace := s.trace ++ [e] }

/-- `inc_ipc_errors(n)`. -/
def inc_ipc_errors (s : KisDataSource) (n : Nat) : KisDataSource :=
  { s with ipc_errors := s.ipc_errors + n }

/-- `if (error_callback != NULL) (*error_callback)(this, error_aux)`. -/
def call_error_callback (s : KisDataSource) : KisDataSource :=
  match s.error_callback with
  | some cb => s.emit (Event.error_callback cb s.error_aux)
  | none => s

/-- `source_ipc->soft_kill()`. -/
def ipc_soft_kill (s : KisDataSource) : KisDataSource :=
  match s.source_ipc with
  | some ipc => { s with source_ipc := some { ipc with killed := true } }.emit Event.soft_kill
  | none => s.emit Event.null_deref

/-- `source_ipc->close_ipc()`. -/
def ipc_close_ipc (s : KisDataSource) : KisDataSource :=
  match s.source_ipc with
  | some ipc => { s with source_ipc := some { ipc with closed := true } }.emit Event.close_ipc
  | none => s.emit Event.null_deref

/-- `KisDataSource::cancel_probe_source`. -/
def cancel_probe_source (s : KisDataSource) : KisDataSource :=
  { s with probe_callback := none, probe_aux := none }

/-- `KisDataSource::cancel_open_source`. -/
def cancel_open_source (s : KisDataSource) : KisDataSource :=
  { s with open_callback := none, open_aux := none }

/-- `KisDataSource::close_source`. -/
def close_source (s : KisDataSource) : KisDataSource :=
  let s := s.cancel_probe_source
  let s := s.cancel_open_source
  let s := match s.source_ipc with
    | some _ => s.ipc_close_ipc.ipc_soft_kill
    | none => s
  { s with source_running := false, child_pid := -1 }

/-- The destructor `KisDataSource::~KisDataSource`. -/
def destroy (s : KisDataSource) : KisDataSource :=
  s.close_source

/-- `KisDataSource::set_error_handler`. -/
def set_error_handler (s : KisDataSource) (in_cb in_aux : Option Nat) : KisDataSource :=
  { s with error_callback := in_cb, error_aux := in_aux }

/-- `KisDataSource::cancel_error_handler`. -/
def cancel_error_handler (s : KisDataSource) : KisDataSource :=
  { s with error_callback := none, error_aux := none }

/-- The `catch` block shared by the payload decoders: a message to the bus and
`inc_ipc_errors(1)`. -/
def unpack_failed (s : KisDataSource) : KisDataSource :=
  (s.emit Event.msg_error).inc_ipc_errors 1

/-- `KisDataSource::handle_kv_success`: a payload of one byte; any other size
counts an IPC error and gives `false`. -/
def handle_kv_success (s : KisDataSource) (in_obj : KisDataSource_CapKeyedObject) :
    Bool × KisDataSource :=
  if in_obj.size ≠ 1 then (false, s.inc_ipc_errors 1)
  else (in_obj.object.getD 0 0 != 0, s)

/-- `KisDataSource::handle_kv_message`. -/
def handle_kv_message (env : Env) (s : KisDataSource)
    (in_obj : KisDataSource_CapKeyedObject) : Bool × KisDataSource :=
  let r : Option (List Nat × Nat) := do
    let dict ← env.unpack in_obj.object
    let msg ← (← MsgpackStrMap.find dict (bytes "msg")).as_string
    let flags ← (← MsgpackStrMap.find dict (bytes "flags")).as_uint
    pure (msg, flags)
  match r with
  | some (msg, flags) => (true, s.emit (Event.msg msg flags))
  | none => (false, s.unpack_failed)

/-- `KisDataSource::handle_kv_channels`. -/
def handle_kv_channels (env : Env) (s : KisDataSource)
    (in_obj : KisDataSource_CapKeyedObject) : Bool × KisDataSource :=
  let r : Option (Option (List (List Nat))) := do
    let dict ← env.unpack in_obj.object
    match MsgpackStrMap.find dict (bytes "channels") with
    | some o => do
      let channel_vec ← MsgpackAdapter.AsStringVector o
      pure (some channel_vec)
    | none => pure none
  match r with
  | some (some channel_vec) => (true, { s with source_channels_vec := channel_vec })
  | some none => (true, s)
  | none => (false, s.unpack_failed)

/-- One optional field of a payload map: absent leaves `x`, present converts
with `conv` (which may throw) and stores with `store`. -/
def opt_field {α β : Type} (dict : MsgpackStrMap) (k : String)
    (conv : MsgpackObject → Option β) (store : α → β → α) (x : α) : Option α :=
  match MsgpackStrMap.find dict (bytes k) with
  | some o => (conv o).map (store x)
  | none => some x

/-- `KisDataSource::handle_kv_signal`. -/
def handle_kv_signal (env : Env) (s : KisDataSource)
    (in_obj : KisDataSource_CapKeyedObject) : Option kis_layer1_packinfo × KisDataSource :=
  let r : Option kis_layer1_packinfo := do
    let dict ← env.unpack in_obj.object
    let si := env.l1_new
    let si ← opt_field dict "signal_dbm" MsgpackObject.as_int32
      (fun si v => { si with
        signal_type := kis_l1_signal_type.kis_l1_signal_type_dbm, signal_dbm := v }) si
    let si ← opt_field dict "noise_dbm" MsgpackObject.as_int32
      (fun si v => { si with
        signal_type := kis_l1_signal_type.kis_l1_signal_type_dbm, noise_dbm := v }) si
    let si ← opt_field dict "signal_rssi" MsgpackObject.as_int32
      (fun si v => { si with
        signal_type := kis_l1_signal_type.kis_l1_signal_type_rssi, signal_rssi := v }) si
    let si ← opt_field dict "noise_rssi" MsgpackObject.as_int32
      (fun si v => { si with
        signal_type := kis_l1_signal_type.kis_l1_signal_type_rssi, noise_rssi := v }) si
    let si ← opt_field dict "freq_khz" MsgpackObject.as_double
      (fun si v => { si with freq_khz := v }) si
    let si ← opt_field dict "channel" MsgpackObject.as_string
      (fun si v => { si with channel := v }) si
    opt_field dict "datarate" MsgpackObject.as_double
      (fun si v => { si with datarate := v }) si
  match r with
  | some siginfo => (some siginfo, s)
  | none => (none, s.unpack_failed)

/-- `KisDataSource::handle_kv_gps`; the value of `fix` is assigned to
`gpsinfo->precision`. -/
def handle_kv_gps (env : Env) (s : KisDataSource)
    (in_obj : KisDataSource_CapKeyedObject) : Option kis_gps_packinfo × KisDataSource :=
  let r : Option kis_gps_packinfo := do
    let dict ← env.unpack in_obj.object
    let g := env.gps_new
    let g ← opt_field dict "lat" MsgpackObject.as_double (fun g v => { g with lat := v }) g
    let g ← opt_field dict "lon" MsgpackObject.as_double (fun g v => { g with lon := v }) g
    let g ← opt_field dict "alt" MsgpackObject.as_double (fun g v => { g with alt := v }) g
    let g ← opt_field dict "speed" MsgpackObject.as_double
      (fun g v => { g with speed := v }) g
    let g ← opt_field dict "heading" MsgpackObject.as_double
      (fun g v => { g with heading := v }) g
    let g ← opt_field dict "precision" MsgpackObject.as_double
      (fun g v => { g with precision := v }) g
    let g ← opt_field dict "fix" MsgpackObject.as_int32
      (fun g v => { g with precision := CDouble.ofInt v }) g
    let g ← opt_field dict "time" MsgpackObject.as_uint64 (fun g v => { g with time := v }) g
    opt_field dict "name" MsgpackObject.as_string (fun g v => { g with gpsname := v }) g
  match r with
  | some gpsinfo => (some gpsinfo, s)
  | none => (none, s.unpack_failed)

/-- `KisDataSource::handle_kv_packet`: every one of `tv_sec`, `tv_usec`, `dlt`,
`size` and `packet` must be there, and `size` must be the length of the packet
bytes; otherwise the `catch` block runs and the packet is destroyed. -/
def handle_kv_packet (env : Env) (s : KisDataSource)
    (in_obj : KisDataSource_CapKeyedObject) : Option kis_packet × KisDataSource :=
  let r : Option kis_packet := do
    let dict ← env.unpack in_obj.object
    let tv_sec ← (← MsgpackStrMap.find dict (bytes "tv_sec")).as_uint64
    let tv_usec ← (← MsgpackStrMap.find dict (bytes "tv_usec")).as_uint64
    let dlt ← (← MsgpackStrMap.find dict (bytes "dlt")).as_uint64
    let size ← (← MsgpackStrMap.find dict (bytes "size")).as_uint64
    let rawdata ← MsgpackStrMap.find dict (bytes "packet")
    let bin := rawdata.via_bin env.junk_bin
    if bin.length ≠ size then none
    else
      pure { tv_sec := tv_sec, tv_usec := tv_usec
             linkframe := some { dlt := dlt, data := bin }
             l1info := none, gps := none }
  match r with
  | some packet => (some packet, s)
  | none => (none, s.unpack_failed.emit Event.DestroyPacket)

/-- The step every frame handler starts with:
`if ((i = in_kvpairs.find("message")) != in_kvpairs.end()) handle_kv_message(i->second)`. -/
def handle_message_kv (env : Env) (s : KisDataSource) (in_kvpairs : KVmap) : KisDataSource :=
  match KVmap.find in_kvpairs (bytes "message") with
  | some obj => (s.handle_kv_message env obj).2
  | none => s

/-- `KisDataSource::handle_packet_status`: the message, and nothing else. -/
def handle_packet_status (env : Env) (s : KisDataSource) (in_kvpairs : KVmap) :
    KisDataSource :=
  s.handle_message_kv env in_kvpairs

/-- `KisDataSource::handle_packet_probe_resp`. -/
def handle_packet_probe_resp (env : Env) (s : KisDataSource) (in_kvpairs : KVmap) :
    KisDataSource :=
  let s := s.handle_message_kv env in_kvpairs
  let (ok, s) := match KVmap.find in_kvpairs (bytes "channels") with
    | some obj => s.handle_kv_channels env obj
    | none => (true, s)
  if !ok then s
  else
    match KVmap.find in_kvpairs (bytes "success") with
    | some obj =>
      let s := match s.probe_callback with
        | some cb =>
          let (success, s) := s.handle_kv_success obj
          s.emit (Event.probe_callback cb s.probe_aux success)
        | none => s
      s.ipc_close_ipc
    | none => s.inc_ipc_errors 1

/-- `KisDataSource::handle_packet_open_resp`. -/
def handle_packet_open_resp (env : Env) (s : KisDataSource) (in_kvpairs : KVmap) :
    KisDataSource :=
  let s := s.handle_message_kv env in_kvpairs
  let (ok, s) := match KVmap.find in_kvpairs (bytes "channels") with
    | some obj => s.handle_kv_channels env obj
    | none => (true, s)
  if !ok then s
  else
    match KVmap.find in_kvpairs (bytes "success") with
    | some obj =>
      match s.open_callback with
      | some cb =>
        let (success, s) := s.handle_kv_success obj
        s.emit (Event.open_callback cb s.open_aux success)
      | none => s
    | none => s.inc_ipc_errors 1

/-- `KisDataSource::handle_packet_error`. -/
def handle_packet_error (env : Env) (s : KisDataSource) (in_kvpairs : KVmap) :
    KisDataSource :=
  let s := s.handle_message_kv env in_kvpairs
  match s.source_ipc with
  | none => s.emit Event.null_deref
  | some _ =>
    let s := s.ipc_soft_kill
    let s := { s with source_running := false, child_pid := 0 }
    s.call_error_callback

/-- `KisDataSource::handle_packet_message`. -/
def handle_packet_message (env : Env) (s : KisDataSource) (in_kvpairs : KVmap) :
    KisDataSource :=
  s.handle_message_kv env in_kvpairs

/-- `KisDataSource::handle_packet_data`. -/
def handle_packet_data (env : Env) (s : KisDataSource) (in_kvpairs : KVmap) :
    KisDataSource :=
  let s := s.handle_message_kv env in_kvpairs
  let (packet, s) := match KVmap.find in_kvpairs (bytes "packet") with
    | some obj => s.handle_kv_packet env obj
    | none => (none, s)
  match packet with
  | none => s
  | some packet =>
    let (siginfo, s) := match KVmap.find in_kvpairs (bytes "signal") with
      | some obj => s.handle_kv_signal env obj
      | none => (none, s)
    let (gpsinfo, s) := match KVmap.find in_kvpairs (bytes "gps") with
      | some obj => s.handle_kv_gps env obj
      | none => (none, s)
    let packet := match siginfo with
      | some si => { packet with l1info := some si }
      | none => packet
    let packet := match gpsinfo with
      | some g => { packet with gps := some g }
      | none => packet
    let s := { s with num_reports := s.num_reports + 1, last_report_time := env.now }
    s.emit (Event.ProcessPacket packet)

/-- `KisDataSource::handle_packet`: the handler is chosen by the lower-cased
type; a type that is none of the six is passed over. -/
def handle_packet (env : Env) (s : KisDataSource) (in_type : List Nat) (in_kvmap : KVmap) :
    KisDataSource :=
  let ltype := StrLower in_type
  if ltype = bytes "status" then s.handle_packet_status env in_kvmap
  else if ltype = bytes "proberesp" then s.handle_packet_probe_resp env in_kvmap
  else if ltype = bytes "openresp" then s.handle_packet_open_resp env in_kvmap
  else if ltype = bytes "error" then s.handle_packet_error env in_kvmap
  else if ltype = bytes "message" then s.handle_packet_message env in_kvmap
  else if ltype = bytes "data" then s.handle_packet_data env in_kvmap
  else s

/-- `KisDataSource::BufferAvailable(in_amt)`: `buf` is a fresh block of
`in_amt` bytes filled by `PeekReadBufferData` with what the read buffer holds;
a decoded frame is consumed from the read buffer (`GetReadBufferData(NULL,
frame_sz)`) and handed to `handle_packet`; every other way out leaves the
source as it was. -/
def BufferAvailable (env : Env) (s : KisDataSource) (in_amt : Nat) : KisDataSource :=
  if in_amt < sizeof_simple_cap_proto_t then s
  else
    match s.ipchandler with
    | none => s.emit Event.null_deref
    | some h =>
      let buf := readBytes (peekAt (h.rbuf.take in_amt) env.heap) 0 in_amt
      match BufferAvailable.decode env.sig buf env.past with
      | Decoded.frame frame_sz ctype kv_map =>
        let s := { s with ipchandler := some { h with rbuf := h.rbuf.drop frame_sz } }
        s.handle_packet env ctype kv_map
      | _ => s

/-- The end of `BufferError`: the error callback, `source_ipc->soft_kill()`,
and the source is marked as not running with PID 0. -/
def BufferError.finish (s : KisDataSource) : KisDataSource :=
  let s := s.call_error_callback
  match s.source_ipc with
  | none => s.emit Event.null_deref
  | some _ =>
    let s := s.ipc_soft_kill
    { s with source_running := false, child_pid := 0 }

/-- `KisDataSource::BufferError`: the second test looks at `open_callback`
and calls through `probe_callback`, which may be `NULL`. -/
def BufferError (s : KisDataSource) (_in_error : List Nat) : KisDataSource :=
  let s := s.emit Event.msg_error
  let s := match s.probe_callback with
    | some cb => s.emit (Event.probe_callback cb s.probe_aux false)
    | none => s
  match s.open_callback with
  | some _ =>
    match s.probe_callback with
    | some cb => BufferError.finish (s.emit (Event.probe_callback cb s.probe_aux false))
    | none => s.emit Event.null_deref
  | none => BufferError.finish s

/-- `KisDataSource::write_ipc_packet`: the buffer is put into the write
buffer of the handler; the result tells whether all of it was taken. -/
def write_ipc_packet (env : Env) (s : KisDataSource) (in_type : List Nat)
    (in_kvpairs : KVmap) : Bool × KisDataSource :=
  let ret := write_ipc_packet.ret env.sig env.heap in_type in_kvpairs
  match s.ipchandler with
  | none => (false, s.emit Event.null_deref)
  | some h =>
    let (ret_sz, h) := h.PutWriteBufferData ret
    (ret_sz == write_ipc_packet.pack_len env.heap in_kvpairs, { s with ipchandler := some h })

/-- `KisDataSource::queue_ipc_command`: written at once when the IPC reports
a PID, put at the end of `pending_commands` otherwise or when the write
fails. -/
def queue_ipc_command (env : Env) (s : KisDataSource) (in_cmd : List Nat)
    (in_kvpairs : KVmap) : Bool × KisDataSource :=
  let (done, s) :=
    match s.source_ipc with
    | some ipc =>
      if ipc.pid > 0 then s.write_ipc_packet env in_cmd in_kvpairs else (false, s)
    | none => (false, s)
  if done then (true, s)
  else
    (true, { s with pending_commands :=
      s.pending_commands ++ [{ command := in_cmd, kv := in_kvpairs, insert_time := env.now }] })

/-- `KisDataSource::spawn_ipc`. -/
def spawn_ipc (env : Env) (s : KisDataSource) : Bool × KisDataSource :=
  let s := { s with source_running := false, child_pid := 0 }
  if s.source_ipc_bin = [] then
    (false, (s.emit Event.msg_error).call_error_callback)
  else
    let s := match s.source_ipc with
      | some _ => (s.emit Event.msg_info).ipc_soft_kill
      | none => s
    let s := { s with
      ipchandler := some { rbuf := [], wbuf := [], wsize := 32 * 1024 }
      source_ipc := some { pid := env.fresh_pid, closed := false, killed := false } }
    let s := s.emit (Event.launch_kis_binary s.source_ipc_bin)
    if env.launch_ret < 0 then
      (false, (s.emit Event.msg_error).call_error_callback)
    else
      (true, { s with
        source_ipc := some { pid := env.launch_pid, closed := false, killed := false }
        source_running := true
        child_pid := env.launch_pid })

/-- `KisDataSource::probe_source`: an earlier callback is failed out, the
child is launched; no statement stores `in_cb` or `in_aux`. -/
def probe_source (env : Env) (s : KisDataSource) (_in_source : List Nat)
    (in_cb in_aux : Option Nat) : Bool × KisDataSource :=
  let s := match s.probe_callback with
    | some cb => s.emit (Event.probe_callback cb s.probe_aux false)
    | none => s
  let (ok, s) := s.spawn_ipc env
  if !ok then
    let s := match in_cb with
      | some cb => s.emit (Event.probe_callback cb in_aux false)
      | none => s
    (false, s.call_error_callback)
  else (true, s)

/-- `KisDataSource::open_source`: an earlier callback is failed out (with the
new `in_aux`), the new one is stored, the child is launched and the
`OPENDEVICE` command with the `DEFINITION` is queued. -/
def open_source (env : Env) (s : KisDataSource) (in_definition : List Nat)
    (in_cb in_aux : Option Nat) : Bool × KisDataSource :=
  let s := match s.open_callback with
    | some cb => s.emit (Event.open_callback cb in_aux false)
    | none => s
  let s := { s with open_callback := in_cb, open_aux := in_aux }
  let s := { s with source_definition := in_definition }
  let (ok, s) := s.spawn_ipc env
  if !ok then
    let s := match in_cb with
      | some cb => s.emit (Event.open_callback cb in_aux false)
      | none => s
    (false, s.call_error_callback)
  else
    let definition := KisDataSource_CapKeyedObject.ofBytes env.junk (bytes "DEFINITION")
      in_definition in_definition.length
    let kvmap := KVmap.assign [] (bytes "DEFINITION") definition
    (true, (s.queue_ipc_command env (bytes "OPENDEVICE") kvmap).2)

/-- `KisDataSource::set_channel`. -/
def set_channel (env : Env) (s : KisDataSource) (in_channel : List Nat) : KisDataSource :=
  match s.source_ipc with
  | none => s.emit Event.msg_error
  | some ipc =>
    if ipc.pid ≤ 0 then s.emit Event.msg_error
    else
      let chanset := KisDataSource_CapKeyedObject.ofBytes env.junk (bytes "CHANSET")
        in_channel in_channel.length
      (s.queue_ipc_command env (bytes "CONFIGURE") (KVmap.assign [] (bytes "CHANSET") chanset)).2

/-- Modelled from the spec: bytes sent by the child arrive in the read buffer
and the handler calls `BufferAvailable` with the number of bytes that wait
there (`on_readable` of §4.3). -/
def receive (env : Env) (s : KisDataSource) (data : List Nat) : KisDataSource :=
  match s.ipchandler with
  | none => s
  | some h =>
    let s := { s with ipchandler := some { h with rbuf := h.rbuf ++ data } }
    s.BufferAvailable env (h.rbuf ++ data).length

/-- The bytes waiting in the read buffer of the source. -/
def read_buffer (s : KisDataSource) : List Nat :=
  match s.ipchandler with
  | none => []
  | some h => h.rbuf

end KisDataSource

/-- Whether an event is a completion (success or failure) delivered to the
open callback `cb`. -/
def Event.is_open_completion (cb : Nat) : Event → Bool
  | Event.open_callback c _ _ => c == cb
  | _ => false

/-- The number of completions the open callback `cb` received in a trace. -/
def open_completions (cb : Nat) (tr : List Event) : Nat :=
  (tr.filter (Event.is_open_completion cb)).length

/-- A `kis_layer1_packinfo` with every field empty. -/
def kis_layer1_packinfo.empty : kis_layer1_packinfo :=
  { signal_type := kis_l1_signal_type.kis_l1_signal_type_none
    signal_dbm := 0, noise_dbm := 0, signal_rssi := 0, noise_rssi := 0
    freq_khz := CDouble.ofInt 0, channel := [], datarate := CDouble.ofInt 0 }

/-- A `kis_gps_packinfo` with every field empty. -/
def kis_gps_packinfo.empty : kis_gps_packinfo :=
  { lat := CDouble.ofInt 0, lon := CDouble.ofInt 0, alt := CDouble.ofInt 0
    speed := CDouble.ofInt 0, heading := CDouble.ofInt 0, precision := CDouble.ofInt 0
    fix := 0, time := 0, gpsname := [] }

/-- A concrete surrounding for the examples: signature `0xDECAFBAD`, fresh
memory filled with `0xAA`, a launch that succeeds with PID 4242, and a payload
decoder that knows no payload. -/
def exampleEnv : Env :=
  { sig := 3737844653
    heap := fun _ => 170
    past := fun _ => 0
    junk := 5
    junk_bin := []
    launch_ret := 0
    fresh_pid := 0
    launch_pid := 4242
    now := 1000
    unpack := fun _ => none
    l1_new := kis_layer1_packinfo.empty
    gps_new := kis_gps_packinfo.empty }

/-- A source opened with `open_source("wlan0", 7, 1)` in `exampleEnv`: the
child runs, callback 7 waits for the answer. -/
def exampleOpened : KisDataSource :=
  ((KisDataSource.new (bytes "kismet_cap")).open_source exampleEnv (bytes "wlan0")
    (some 7) (some 1)).2

/-- A valid `OPENRESP` frame with the one record `success` = 1. -/
def exampleOpenResp : List Nat :=
  specFrame 3737844653 (bytes "OPENRESP") [(bytes "success", [1])]

/-- The 460 bytes of a packet payload, for the stream example. -/
def exampleStreamPayload : List Nat :=
  [197, 158, 138] ++ List.replicate 43 137 ++ [136] ++ List.replicate 258 137
    ++ List.replicate 153 136 ++ [115, 76]

/-- A read buffer holding a whole valid frame followed by three more bytes. -/
def exampleHandler : RingbufferHandler :=
  { rbuf := exampleOpenResp ++ [1, 2, 3], wbuf := [], wsize := 32 * 1024 }

/-- The opened source with `exampleHandler` as its buffers. -/
def exampleBuffered : KisDataSource :=
  { exampleOpened with ipchandler := some exampleHandler }

/-- Whether an event is a completion (success or failure) delivered to the
probe callback `cb`. -/
def Event.is_probe_completion (cb : Nat) : Event → Bool
  | Event.probe_callback c _ _ => c == cb
  | _ => false

/-- The number of completions the probe callback `cb` received in a trace. -/
def probe_completions (cb : Nat) (tr : List Event) : Nat :=
  (tr.filter (Event.is_probe_completion cb)).length

/-- Whether an event is a call of the error callback. -/
def Event.is_error_call : Event → Bool
  | Event.error_callback _ _ => true
  | _ => false

/-- The number of calls of the error callback in a trace. -/
def error_calls (tr : List Event) : Nat :=
  (tr.filter Event.is_error_call).length

/-- Whether an event hands a packet to the packet chain. -/
def Event.is_ProcessPacket : Event → Bool
  | Event.ProcessPacket _ => true
  | _ => false

/-- The bytes accepted into the write buffer of the source. -/
def KisDataSource.write_buffer (s : KisDataSource) : List Nat :=
  match s.ipchandler with
  | none => []
  | some h => h.wbuf

/-- A valid `PROBERESP` frame with the one record `success` holding the byte
`b`. -/
def exampleProbeResp (b : Nat) : List Nat :=
  specFrame 3737844653 (bytes "PROBERESP") [(bytes "success", [b])]

/-- A new source on which `probe_source("wlan0", 1, 10)` was called in
`exampleEnv`: the child runs. -/
def exampleProbed : KisDataSource :=
  ((KisDataSource.new (bytes "kismet_cap")).probe_source exampleEnv (bytes "wlan0")
    (some 1) (some 10)).2

/-- The surrounding `exampleEnv` with a launch that fails. -/
def exampleEnvNoLaunch : Env :=
  { exampleEnv with launch_ret := -1 }

/-- The surrounding `exampleEnv` with a payload decoder that unpacks every
payload to the map `dict`. -/
def exampleEnvDict (dict : MsgpackStrMap) : Env :=
  { exampleEnv with unpack := fun _ => some dict }

/-- A record whose payload bytes stand for a packed map (what the map is, the
payload decoder of the surrounding says). -/
def examplePayloadObj (key : String) : KisDataSource_CapKeyedObject :=
  { key := bytes key, size := 1, object := [128] }

/-- A `packet` payload without `tv_sec`: `tv_usec` 5, `dlt` 127, `size` 2 and
two packet bytes. -/
def examplePacketDictNoTvSec : MsgpackStrMap :=
  [(bytes "dlt", MsgpackObject.atom (MsgpackAtom.uint 127)),
   (bytes "packet", MsgpackObject.atom (MsgpackAtom.bin [1, 2])),
   (bytes "size", MsgpackObject.atom (MsgpackAtom.uint 2)),
   (bytes "tv_usec", MsgpackObject.atom (MsgpackAtom.uint 5))]

/-- A `signal` payload with `signal_dbm` -40 and `signal_rssi` 17. -/
def exampleSignalDict : MsgpackStrMap :=
  [(bytes "signal_dbm", MsgpackObject.atom (MsgpackAtom.int (-40))),
   (bytes "signal_rssi", MsgpackObject.atom (MsgpackAtom.uint 17))]

/-- A `gps` payload with `fix` 3 and `precision` 2.5 (the float64 with the
bits `0x4004000000000000`). -/
def exampleGpsDict : MsgpackStrMap :=
  [(bytes "fix", MsgpackObject.atom (MsgpackAtom.uint 3)),
   (bytes "precision", MsgpackObject.atom (MsgpackAtom.float 4612811918334230528))]

/-- A `channels` payload listing the channels "1", "6" and "11". -/
def exampleChannelsDict : MsgpackStrMap :=
  [(bytes "channels", MsgpackObject.array
      [MsgpackAtom.str (bytes "1"), MsgpackAtom.str (bytes "6"), MsgpackAtom.str (bytes "11")])]

/-- Whether the child transport of a source is attached and open: an IPC
object is there, and neither `close_ipc` nor `soft_kill` was called on it. -/
def KisDataSource.transport_open (s : KisDataSource) : Bool :=
  match s.source_ipc with
  | some ipc => !ipc.closed && !ipc.killed
  | none => false

/-- A valid `ERROR` frame without records. -/
def exampleErrorFrame : List Nat :=
  specFrame 3737844653 (bytes "ERROR") []

/-- A header of 32 bytes that declares the total size 0: signature
`0xDECAFBAD`, checksum field 1, type `ERROR`, no records. -/
def exampleEmptyFrame : List Nat :=
  rawFrame 3737844653 1 0 (bytes "ERROR") 0 []

/-! ## The menu of `kis_panel_components.cc` -/

/-- The value an `int` holds for the mathematical value `x`: 32 bits, two's
complement. -/
def c_int (x : Int) : Int :=
  (x + 2147483648) % 4294967296 - 2147483648

/-- `KEY_DOWN` of `curses.h`. -/
def KEY_DOWN : Int := 258

/-- `KEY_UP` of `curses.h`. -/
def KEY_UP : Int := 259

/-- `KEY_LEFT` of `curses.h`. -/
def KEY_LEFT : Int := 260

/-- `KEY_RIGHT` of `curses.h`. -/
def KEY_RIGHT : Int := 261

/-- `KEY_ENTER` of `curses.h`. -/
def KEY_ENTER : Int := 343

/-- `v[i]` on a `std::vector` with an `int` index: the element, or `none` when
the index lies outside the vector. -/
def vec_at {α : Type} (v : List α) (i : Int) : Option α :=
  if i < 0 then none else v[i.toNat]?

/-- `Kis_Menu::_menuitem`, with the members `kis_panel_components.cc` uses. -/
structure Kis_Menu._menuitem where
  parentmenu : Int
  text : List Nat
  extrachar : Int
  id : Int
deriving DecidableEq, Repr

/-- `Kis_Menu::_menu`, with the members `kis_panel_components.cc` uses. -/
structure Kis_Menu._menu where
  text : List Nat
  targchar : Int
  width : Int
  id : Int
  items : List Kis_Menu._menuitem
deriving DecidableEq, Repr

/-- `Kis_Menu`: the selection and the menu bar. -/
structure Kis_Menu where
  cur_menu : Int
  cur_item : Int
  menubar : List Kis_Menu._menu
deriving DecidableEq, Repr

namespace Kis_Menu

/-- `Kis_Menu::Kis_Menu`. -/
def new : Kis_Menu :=
  { cur_menu := 0, cur_item := 0, menubar := [] }

/-- `Kis_Menu::AddMenu`: the new menu goes to the end of the menu bar, its id
is its index. -/
def AddMenu (m : Kis_Menu) (in_text : List Nat) (targ_char : Int) : Int × Kis_Menu :=
  let menu : _menu :=
    { text := in_text
      targchar :=
        if targ_char < 0 ∨ targ_char > c_int (c_int in_text.length - 1) then -1 else targ_char
      width := 0
      id := c_int m.menubar.length
      items := [] }
  (menu.id, { m with menubar := m.menubar ++ [menu] })

/-- `Kis_Menu::AddMenuItem`: -1 for a menu id outside the menu bar; otherwise
the item goes to the end of the menu and the result is
`(menuid * 100) + item->id + 1`. `none` stands for an index outside the
vector. -/
def AddMenuItem (m : Kis_Menu) (in_text : List Nat) (menuid : Int) (extra : Int) :
    Option (Int × Kis_Menu) :=
  if menuid < 0 ∨ menuid > c_int (c_int m.menubar.length - 1) then some (-1, m)
  else do
    let mn ← vec_at m.menubar menuid
    let item : _menuitem :=
      { parentmenu := menuid, text := in_text, extrachar := extra
        id := c_int mn.items.length }
    let mn := { mn with items := mn.items ++ [item] }
    let mn :=
      if c_int in_text.length > mn.width then { mn with width := c_int in_text.length } else mn
    some (c_int (c_int (c_int (menuid * 100) + item.id) + 1),
      { m with menubar := m.menubar.set menuid.toNat mn })

/-- `Kis_Menu::Activate`: `subcomponent / 100` is the menu and
`(subcomponent % 100) - 1` the item; when either is outside the menu bar or
the menu, nothing changes. -/
def Activate (m : Kis_Menu) (subcomponent : Int) : Option Kis_Menu :=
  let menu := Int.tdiv subcomponent 100
  let item := c_int (Int.tmod subcomponent 100 - 1)
  if menu < 0 ∨ menu > c_int (c_int m.menubar.length - 1) then some m
  else do
    let mn ← vec_at m.menubar menu
    if item < 0 ∨ item > c_int (c_int mn.items.length - 1) then some m
    else some { m with cur_menu := menu, cur_item := item }

/-- `Kis_Menu::Deactivate`. -/
def Deactivate (m : Kis_Menu) : Kis_Menu :=
  { m with cur_menu := -1, cur_item := -1 }

/-- The shortcut loop at the end of `KeyPress`: the first `x` with
`in_key == items[x]->extrachar`. -/
def KeyPress.shortcut (in_key : Int) : List _menuitem → Nat → Option Nat
  | [], _ => none
  | it :: rest, x => if in_key = it.extrachar then some x else KeyPress.shortcut in_key rest (x + 1)

/-- `Kis_Menu::KeyPress`: the result and the menu afterwards; `none` stands
for an index outside the menu bar or outside a menu. The conditions are
evaluated from left to right, as `&&` does. -/
def KeyPress (m : Kis_Menu) (in_key : Int) : Option (Int × Kis_Menu) :=
  if in_key = KEY_RIGHT ∧ m.cur_menu < c_int (c_int m.menubar.length - 1) ∧ m.cur_menu ≥ 0 then
    some (0, { m with cur_menu := c_int (m.cur_menu + 1) })
  else if in_key = KEY_LEFT ∧ m.cur_menu > 0 then
    some (0, { m with cur_menu := c_int (m.cur_menu - 1) })
  else do
    let down ←
      if in_key = KEY_DOWN ∧ m.cur_menu ≥ 0 then do
        let mn ← vec_at m.menubar m.cur_menu
        pure (decide (m.cur_item < c_int (c_int mn.items.length - 1)))
      else pure false
    if down then do
      let cur_item := c_int (m.cur_item + 1)
      let mn ← vec_at m.menubar m.cur_menu
      let it ← vec_at mn.items cur_item
      if it.text.getD 0 0 = 45 ∧ cur_item < c_int (c_int mn.items.length - 1) then
        some (0, { m with cur_item := c_int (cur_item + 1) })
      else some (0, { m with cur_item := cur_item })
    else if in_key = KEY_UP ∧ m.cur_item > 0 then do
      let cur_item := c_int (m.cur_item - 1)
      let mn ← vec_at m.menubar m.cur_menu
      let it ← vec_at mn.items cur_item
      if it.text.getD 0 0 = 45 ∧ cur_item > 0 then
        some (0, { m with cur_item := c_int (cur_item - 1) })
      else some (0, { m with cur_item := cur_item })
    else if (in_key = 32 ∨ in_key = 10 ∨ in_key = KEY_ENTER) ∧ m.cur_menu ≥ 0 then
      some (c_int (c_int (c_int (m.cur_menu * 100) + m.cur_item) + 1), m)
    else if m.cur_menu ≥ 0 then do
      let mn ← vec_at m.menubar m.cur_menu
      match KeyPress.shortcut in_key mn.items 0 with
      | some x => some (c_int (m.cur_menu * 100 + x + 1), m)
      | none => some (0, m)
    else some (0, m)

/-- Whether the selection is valid: no selection (`cur_menu` = `cur_item` =
-1), or `cur_menu` is the index of a menu and `cur_item` the index of an item
of that menu. -/
def valid_selection (m : Kis_Menu) : Bool :=
  (m.cur_menu == -1 && m.cur_item == -1) ||
    (match vec_at m.menubar m.cur_menu with
     | some mn => (vec_at mn.items m.cur_item).isSome
     | none => false)

/-- A call of one of the operations of a `Kis_Menu`. -/
inductive Call where
  | AddMenu (in_text : List Nat) (targ_char : Int)
  | AddMenuItem (in_text : List Nat) (menuid : Int) (extra : Int)
  | Activate (subcomponent : Int)
  | Deactivate
  | KeyPress (in_key : Int)
deriving DecidableEq, Repr

/-- One call on a menu; `none` when it indexes outside a vector. -/
def call (m : Kis_Menu) : Call → Option Kis_Menu
  | Call.AddMenu in_text targ_char => some (m.AddMenu in_text targ_char).2
  | Call.AddMenuItem in_text menuid extra => (m.AddMenuItem in_text menuid extra).map Prod.snd
  | Call.Activate subcomponent => m.Activate subcomponent
  | Call.Deactivate => some m.Deactivate
  | Call.KeyPress in_key => (m.KeyPress in_key).map Prod.snd

/-- A sequence of calls on a menu, first to last. -/
def calls (m : Kis_Menu) : List Call → Option Kis_Menu
  | [] => some m
  | c :: cs => (m.call c).bind (fun m1 => calls m1 cs)

end Kis_Menu

/-- The calls that build two menus, "File" with the items "Open", "Save",
"Quit" and "View" with the item "Zoom". -/
def exampleMenuCalls : List Kis_Menu.Call :=
  [Kis_Menu.Call.AddMenu (bytes "File") 0,
   Kis_Menu.Call.AddMenu (bytes "View") 0,
   Kis_Menu.Call.AddMenuItem (bytes "Open") 0 111,
   Kis_Menu.Call.AddMenuItem (bytes "Save") 0 115,
   Kis_Menu.Call.AddMenuItem (bytes "Quit") 0 113,
   Kis_Menu.Call.AddMenuItem (bytes "Zoom") 1 122]

/-- The menu "File" with the items "Open" and "Save". -/
def exampleFileMenu : Kis_Menu._menu :=
  { text := bytes "File", targchar := 0, width := 4, id := 0
    items := [{ parentmenu := 0, text := bytes "Open", extrachar := 111, id := 0 },
              { parentmenu := 0, text := bytes "Save", extrachar := 115, id := 1 }] }

/-- A menu bar with `exampleFileMenu` and an empty menu "View", nothing
selected. -/
def exampleMenu : Kis_Menu :=
  { cur_menu := -1, cur_item := -1
    menubar := [exampleFileMenu,
                { text := bytes "View", targchar := 0, width := 0, id := 1, items := [] }] }

/-! ## The probe race -/

/-- Modelled from the spec: what a probe race completes with (§4.5): the
winning prototype, or `NoDriverMatched`. A prototype is named by a number. -/
inductive ProbeResult where
  | winner (proto : Nat)
  | NoDriverMatched
deriving DecidableEq, Repr

/-- Modelled from the spec: `DST_DataSourceProbe`, of which
`datasourcetracker.h` has the declaration only. `protosrc_vec` holds the
prototypes still waited for, `protosrc` the source found; next to
`start_time` and `definition` stand the optional `deadline` of §4.5, the
`result` the race completed with (the race is resolved when there is one) and
the prototypes whose probe the race `cancelled`. -/
structure DST_DataSourceProbe where
  protosrc_vec : List Nat
  protosrc : Option Nat
  start_time : Nat
  definition : List Nat
  deadline : Option Nat
  result : Option ProbeResult
  cancelled : List Nat
deriving DecidableEq, Repr

/-- Modelled from the spec: what reaches a probe race: the completion
`(proto, success)` of a prototype, or the clock showing `now`. -/
inductive ProbeEvent where
  | completion (proto : Nat) (success : Bool)
  | clock (now : Nat)
deriving DecidableEq, Repr

namespace DST_DataSourceProbe

/-- Modelled from the spec: the constructor
`DST_DataSourceProbe(in_time, in_definition, in_tracker, in_protovec)`, step 1
of §4.5: every prototype is waited for, no source is found. -/
def new (in_time : Nat) (in_definition : List Nat) (in_protovec : List Nat)
    (deadline : Option Nat) : DST_DataSourceProbe :=
  { protosrc_vec := in_protovec
    protosrc := none
    start_time := in_time
    definition := in_definition
    deadline := deadline
    result := none
    cancelled := [] }

/-- Modelled from the spec: `get_proto`. -/
def get_proto (r : DST_DataSourceProbe) : Option Nat :=
  r.protosrc

/-- Modelled from the spec: `set_proto`, which records the source found. -/
def set_proto (r : DST_DataSourceProbe) (in_proto : Nat) : DST_DataSourceProbe :=
  { r with protosrc := some in_proto }

/-- Modelled from the spec: `remove_failed_proto`: the source leaves the list
of prototypes waited for; the result is the number of sources left. -/
def remove_failed_proto (r : DST_DataSourceProbe) (in_src : Nat) : Nat × DST_DataSourceProbe :=
  let left := r.protosrc_vec.filter (fun q => q ≠ in_src)
  (left.length, { r with protosrc_vec := left })

/-- Modelled from the spec: `cancel`: the probes of all prototypes still
waited for are cancelled. -/
def cancel (r : DST_DataSourceProbe) : DST_DataSourceProbe :=
  { r with cancelled := r.cancelled ++ r.protosrc_vec, protosrc_vec := [] }

/-- Modelled from the spec: the shared continuation of step 2 of §4.5
(`Datasourcetracker::probe_handler`, declared in `datasourcetracker.h`), run
under the lock of the race for the completion `(in_src, in_success)`. A
resolved race makes it a no-op; the first success is recorded as the winner
and the other prototypes in flight are cancelled; a later success is
discarded; a failure removes the prototype, and when none is left and no
winner was recorded the race completes with `NoDriverMatched`. -/
def probe_handler (r : DST_DataSourceProbe) (in_src : Nat) (in_success : Bool) :
    DST_DataSourceProbe :=
  if r.result.isSome then r
  else if in_success then
    match r.protosrc with
    | none =>
      let r := r.set_proto in_src
      let r := { r with protosrc_vec := r.protosrc_vec.filter (fun q => q ≠ in_src) }
      let r := r.cancel
      { r with result := some (ProbeResult.winner in_src) }
    | some _ => r
  else
    let (left, r) := r.remove_failed_proto in_src
    if left = 0 ∧ r.protosrc = none then { r with result := some ProbeResult.NoDriverMatched }
    else r

/-- Modelled from the spec: step 3 of §4.5 at the time `now`: a race that is
not resolved and has reached its deadline completes with `NoDriverMatched` and
cancels the remaining prototypes. -/
def on_deadline (r : DST_DataSourceProbe) (now : Nat) : DST_DataSourceProbe :=
  if r.result.isSome then r
  else
    match r.deadline with
    | some d =>
      if d ≤ now then { r.cancel with result := some ProbeResult.NoDriverMatched } else r
    | none => r

/-- One event on a race. -/
def step (r : DST_DataSourceProbe) : ProbeEvent → DST_DataSourceProbe
  | ProbeEvent.completion proto success => r.probe_handler proto success
  | ProbeEvent.clock now => r.on_deadline now

/-- The events of a race, in the order in which the lock of the race admits
them. -/
def run (r : DST_DataSourceProbe) (evs : List ProbeEvent) : DST_DataSourceProbe :=
  evs.foldl step r

end DST_DataSourceProbe

/-- What ends a race with `NoDriverMatched` after the events `pre`: the
failure of the last prototype that had not reported failure, or a clock event
at or past the deadline. -/
def ProbeEvent.exhausts (protos : List Nat) (deadline : Option Nat) (pre : List ProbeEvent)
    (e : ProbeEvent) : Prop :=
  (∃ p, e = ProbeEvent.completion p false
      ∧ ∀ q ∈ protos, q = p ∨ ProbeEvent.completion q false ∈ pre)
  ∨ (∃ now d, e = ProbeEvent.clock now ∧ deadline = some d ∧ d ≤ now)

/-- What holds of a race after the events `evs`, by what it completed with. -/
def DST_DataSourceProbe.Inv (in_time : Nat) (in_definition protos : List Nat) (deadline : Option Nat)
    (evs : List ProbeEvent) (r : DST_DataSourceProbe) : Prop :=
  r.deadline = deadline
  ∧ (r.result = none →
      r.protosrc = none ∧ r.cancelled = []
      ∧ ∀ q, q ∈ r.protosrc_vec ↔ q ∈ protos ∧ ProbeEvent.completion q false ∉ evs)
  ∧ (∀ w, r.result = some (ProbeResult.winner w) →
      r.protosrc = some w ∧ ProbeEvent.completion w true ∈ evs
      ∧ ∀ q ∈ protos, q ≠ w → ProbeEvent.completion q false ∈ evs ∨ q ∈ r.cancelled)
  ∧ (r.result = some ProbeResult.NoDriverMatched →
      ∃ pre e post, evs = pre ++ e :: post
        ∧ ((DST_DataSourceProbe.new in_time in_definition protos deadline).run pre).result = none
        ∧ ProbeEvent.exhausts protos deadline pre e)

/-- A race over the prototypes 1 and 2 with the deadline 10. -/
def exampleRace : DST_DataSourceProbe :=
  DST_DataSourceProbe.new 0 (bytes "eth0:type=auto") [1, 2] (some 10)

/-- A frame that declares 32 bytes in all and one record, with a valid
checksum, followed in the buffer by the record `PACKET` with the object 7. -/
def exampleTruncated : List Nat :=
  sealFrame (rawFrame 3737844653 0 32 (bytes "DATA") 1 []) ++ specRecord (bytes "PACKET") [7]

/-- The `DEFINITION` object as `open_source("wlan0", ...)` builds it, the
member `size` holding 0. -/
def exampleDefinition : KisDataSource_CapKeyedObject :=
  KisDataSource_CapKeyedObject.ofBytes 0 (bytes "DEFINITION") (bytes "wlan0") 5

/-- A `message` payload map: the text "ready" with the flags 2. -/
def exampleMessageDict : MsgpackStrMap :=
  [(bytes "flags", MsgpackObject.atom (MsgpackAtom.uint 2)),
   (bytes "msg", MsgpackObject.atom (MsgpackAtom.str (bytes "ready")))]

/-- The surrounding `exampleEnv` with a payload decoder that unpacks the
payload byte 161 to `exampleMessageDict`, the payload byte 162 to
`exampleChannelsDict` and nothing else. -/
def exampleEnvOpenResp : Env :=
  { exampleEnv with unpack := fun b =>
      if b = [161] then some exampleMessageDict
      else if b = [162] then some exampleChannelsDict
      else none }

/-- A valid `OPENRESP` frame with the two records `channels` and `success`. -/
def exampleOpenRespChannels : List Nat :=
  specFrame 3737844653 (bytes "OPENRESP") [(bytes "channels", [162]), (bytes "success", [1])]

/-- A valid `OPENRESP` frame with the three records `message`, `channels` and
`success`, laid out back to back. -/
def exampleOpenRespFull : List Nat :=
  specFrame 3737844653 (bytes "OPENRESP")
    [(bytes "message", [161]), (bytes "channels", [162]), (bytes "success", [1])]

/-- A valid `DATA` frame with a `message` record and a `packet` record. -/
def exampleDataFrame : List Nat :=
  specFrame 3737844653 (bytes "DATA") [(bytes "message", [128]), (bytes "packet", [128])]

/-- The buffers of the probed source: nothing read, nothing written. -/
def exampleProbedHandler : RingbufferHandler :=
  { rbuf := [], wbuf := [], wsize := 32 * 1024 }

/-! ## Bytes, fields and buffers -/

theorem kis_ntoh32_hton32 (x : Nat) (h : x < 4294967296) :
    kis_ntoh32 (x / 16777216 % 256) (x / 65536 % 256) (x / 256 % 256) (x % 256) = x := by
  unfold kis_ntoh32; omega

theorem writeAt_length (buf : List Nat) (off : Nat) (bs : List Nat) :
    (writeAt buf off bs).length = buf.length := by
  simp only [writeAt, List.length_append, List.length_take, List.length_drop]
  omega

theorem writeAt_getElem? (buf : List Nat) (off : Nat) (bs : List Nat) (i : Nat) :
    (writeAt buf off bs)[i]? =
      if off ≤ i ∧ i < off + bs.length ∧ i < buf.length then bs[i - off]? else buf[i]? := by
  unfold writeAt
  by_cases h1 : i < off
  · have : ¬ (off ≤ i ∧ i < off + bs.length ∧ i < buf.length) := by omega
    rw [if_neg this]
    by_cases h2 : i < buf.length
    · rw [List.append_assoc, List.getElem?_append_left (by simp; omega)]
      simp [List.getElem?_take, h1]
    · have hl : (List.take off buf ++ List.take (buf.length - off) bs
          ++ List.drop (off + bs.length) buf).length ≤ i := by
        simp only [List.length_append, List.length_take, List.length_drop]; omega
      rw [List.getElem?_eq_none hl, List.getElem?_eq_none (by omega)]
  · have h1' : off ≤ i := by omega
    by_cases h2 : i < buf.length
    · have hto : (List.take off buf).length = off := by
        simp only [List.length_take]; omega
      rw [List.append_assoc, List.getElem?_append_right (by omega), hto]
      by_cases h3 : i < off + bs.length
      · rw [if_pos ⟨h1', h3, h2⟩]
        rw [List.getElem?_append_left (by simp only [List.length_take]; omega)]
        rw [List.getElem?_take_of_lt (by omega)]
      · have : ¬ (off ≤ i ∧ i < off + bs.length ∧ i < buf.length) := by omega
        rw [if_neg this]
        have htb : (List.take (buf.length - off) bs).length = bs.length := by
          simp only [List.length_take]; omega
        rw [List.getElem?_append_right (by omega), htb, List.getElem?_drop]
        congr 1; omega
    · have : ¬ (off ≤ i ∧ i < off + bs.length ∧ i < buf.length) := by omega
      rw [if_neg this]
      have hl : (List.take off buf ++ List.take (buf.length - off) bs
          ++ List.drop (off + bs.length) buf).length ≤ i := by
        simp only [List.length_append, List.length_take, List.length_drop]; omega
      rw [List.getElem?_eq_none hl, List.getElem?_eq_none (by omega)]

theorem peekAt_of_getElem? {buf : List Nat} {past : Nat → Nat} {i v : Nat}
    (h : buf[i]? = some v) : peekAt buf past i = v := by
  unfold peekAt
  rw [List.getD_eq_getElem?_getD, h]; rfl

theorem readBytes_length (mem : Nat → Nat) (off n : Nat) :
    (readBytes mem off n).length = n := by
  simp [readBytes]

theorem readBytes_getElem? (mem : Nat → Nat) (off n i : Nat) :
    (readBytes mem off n)[i]? = if i < n then some (mem (off + i)) else none := by
  unfold readBytes
  by_cases h : i < n
  · simp [h, List.getElem?_map, List.getElem?_range h]
  · simp only [if_neg h, List.getElem?_eq_none_iff, List.length_map, List.length_range]
    omega

theorem readBytes_peekAt (buf : List Nat) (past : Nat → Nat) (off n : Nat)
    (h : off + n ≤ buf.length) :
    readBytes (peekAt buf past) off n = (buf.drop off).take n := by
  apply List.ext_getElem?
  intro i
  rw [readBytes_getElem?]
  by_cases hi : i < n
  · rw [if_pos hi, List.getElem?_take_of_lt hi, List.getElem?_drop]
    have hlt : off + i < buf.length := by omega
    rw [List.getElem?_eq_getElem hlt]
    congr 1
    exact peekAt_of_getElem? (List.getElem?_eq_getElem hlt)
  · rw [if_neg hi]
    symm
    apply List.getElem?_eq_none
    simp only [List.length_take, List.length_drop]; omega

theorem readU32_of_hton32 (buf : List Nat) (past : Nat → Nat) (off x : Nat)
    (hx : x < 4294967296)
    (h : ∀ j, j < 4 → buf[off + j]? = (kis_hton32 x)[j]?) :
    readU32 (peekAt buf past) off = x := by
  have h0 := h 0 (by omega)
  have h1 := h 1 (by omega)
  have h2 := h 2 (by omega)
  have h3 := h 3 (by omega)
  simp only [kis_hton32, List.getElem?_cons_zero, List.getElem?_cons_succ, Nat.add_zero] at h0 h1 h2 h3
  unfold readU32
  rw [peekAt_of_getElem? h0, peekAt_of_getElem? h1, peekAt_of_getElem? h2,
    peekAt_of_getElem? h3]
  exact kis_ntoh32_hton32 x hx

/-! ## The encoder -/

theorem write_ipc_packet.measure_eq (heap : Nat → Nat) (kv : KVmap)
    (pk : List (List Nat)) (len : Nat) :
    write_ipc_packet.measure heap kv pk len =
      (pk, len + (kv.map (fun e => sizeof_simple_cap_proto_kv_h_t + e.2.size)).sum) := by
  induction kv generalizing len with
  | nil => simp [write_ipc_packet.measure]
  | cons e rest ih =>
    obtain ⟨k, o⟩ := e
    simp only [write_ipc_packet.measure, ih, List.map_cons, List.sum_cons, Prod.mk.injEq,
      true_and]
    omega

theorem write_ipc_packet.pack_len_eq (heap : Nat → Nat) (kv : KVmap) :
    write_ipc_packet.pack_len heap kv =
      32 + (kv.map (fun e => 20 + e.2.size)).sum := by
  simp [write_ipc_packet.pack_len, write_ipc_packet.measure_eq, sizeof_simple_cap_proto_t,
    sizeof_simple_cap_proto_kv_h_t]

theorem write_ipc_packet.assembled_eq (sig : Nat) (heap : Nat → Nat) (t : List Nat)
    (kv : KVmap) :
    write_ipc_packet.assembled sig heap t kv =
      writeAt (writeAt (writeAt (writeAt (writeAt
        (readBytes heap 0 (write_ipc_packet.pack_len heap kv)) 0 (kis_hton32 sig))
        4 [0, 0, 0, 0]) 8 (kis_hton32 (write_ipc_packet.pack_len heap kv)))
        12 (snprintf_s 16 t)) 28 (kis_hton32 0) := by
  simp [write_ipc_packet.assembled, write_ipc_packet.measure_eq, write_ipc_packet.pack]

theorem write_ipc_packet.assembled_length (sig : Nat) (heap : Nat → Nat) (t : List Nat)
    (kv : KVmap) :
    (write_ipc_packet.assembled sig heap t kv).length = write_ipc_packet.pack_len heap kv := by
  rw [write_ipc_packet.assembled_eq]
  simp only [writeAt_length, readBytes_length]

theorem write_ipc_packet.ret_length (sig : Nat) (heap : Nat → Nat) (t : List Nat)
    (kv : KVmap) :
    (write_ipc_packet.ret sig heap t kv).length = write_ipc_packet.pack_len heap kv := by
  simp only [write_ipc_packet.ret, writeAt_length, write_ipc_packet.assembled_length]

theorem write_ipc_packet.pack_len_ge (heap : Nat → Nat) (kv : KVmap) :
    32 ≤ write_ipc_packet.pack_len heap kv := by
  rw [write_ipc_packet.pack_len_eq]; omega

theorem snprintf_s_length (n : Nat) (src : List Nat) :
    (snprintf_s n src).length = min (n - 1) (c_str src).length + 1 := by
  simp [snprintf_s]

theorem write_ipc_packet.ret_zeroed (sig : Nat) (heap : Nat → Nat) (t : List Nat)
    (kv : KVmap) :
    writeAt (write_ipc_packet.ret sig heap t kv) 4 [0, 0, 0, 0] =
      write_ipc_packet.assembled sig heap t kv := by
  apply List.ext_getElem?
  intro i
  have hl := snprintf_s_length 16 t
  have hL := write_ipc_packet.pack_len_ge heap kv
  simp only [write_ipc_packet.ret, write_ipc_packet.assembled_eq, writeAt_getElem?,
    writeAt_length, readBytes_length, kis_hton32, List.length_cons, List.length_nil]
  split_ifs <;> first | rfl | omega

theorem writeAt_append (buf rest : List Nat) (off : Nat) (bs : List Nat)
    (h : off + bs.length ≤ buf.length) :
    writeAt (buf ++ rest) off bs = writeAt buf off bs ++ rest := by
  apply List.ext_getElem?
  intro i
  simp only [writeAt_getElem?, List.getElem?_append, writeAt_length, List.length_append]
  split_ifs <;> first | rfl | omega

theorem adlerStep_foldl_lt (l : List Nat) (ab : Nat × Nat)
    (h : ab.1 < 65521 ∧ ab.2 < 65521) :
    (l.foldl adlerStep ab).1 < 65521 ∧ (l.foldl adlerStep ab).2 < 65521 := by
  induction l generalizing ab with
  | nil => exact h
  | cons x rest ih =>
    rw [List.foldl_cons]
    apply ih
    constructor
    · exact Nat.mod_lt _ (by decide)
    · exact Nat.mod_lt _ (by decide)

theorem Adler32Checksum_lt (l : List Nat) : Adler32Checksum l < 4294967296 := by
  have h := adlerStep_foldl_lt l (1, 0) ⟨by decide, by decide⟩
  unfold Adler32Checksum
  simp only
  omega

theorem write_ipc_packet.ret_sig (sig : Nat) (heap : Nat → Nat) (t : List Nat) (kv : KVmap)
    (j : Nat) (hj : j < 4) :
    (write_ipc_packet.ret sig heap t kv)[0 + j]? = (kis_hton32 sig)[j]? := by
  have hl := snprintf_s_length 16 t
  have hL := write_ipc_packet.pack_len_ge heap kv
  simp only [write_ipc_packet.ret, write_ipc_packet.assembled_eq, writeAt_getElem?,
    writeAt_length, readBytes_length, kis_hton32, List.length_cons, List.length_nil]
  split_ifs <;> first | rfl | omega | (congr 1; omega)

theorem write_ipc_packet.ret_checksum (sig : Nat) (heap : Nat → Nat) (t : List Nat)
    (kv : KVmap) (j : Nat) (hj : j < 4) :
    (write_ipc_packet.ret sig heap t kv)[4 + j]? =
      (kis_hton32 (Adler32Checksum (write_ipc_packet.assembled sig heap t kv)))[j]? := by
  have hl := snprintf_s_length 16 t
  have hL := write_ipc_packet.pack_len_ge heap kv
  have ht : (write_ipc_packet.assembled sig heap t kv).take
      (write_ipc_packet.pack_len heap kv) = write_ipc_packet.assembled sig heap t kv := by
    rw [← write_ipc_packet.assembled_length sig heap t kv]; exact List.take_length _
  simp only [write_ipc_packet.ret, ht]
  simp only [writeAt_getElem?, write_ipc_packet.assembled_length, kis_hton32,
    List.length_cons, List.length_nil]
  split_ifs <;> first | rfl | omega | (congr 1; omega)

theorem write_ipc_packet.ret_packet_sz (sig : Nat) (heap : Nat → Nat) (t : List Nat)
    (kv : KVmap) (j : Nat) (hj : j < 4) :
    (write_ipc_packet.ret sig heap t kv)[8 + j]? =
      (kis_hton32 (write_ipc_packet.pack_len heap kv))[j]? := by
  have hl := snprintf_s_length 16 t
  have hL := write_ipc_packet.pack_len_ge heap kv
  simp only [write_ipc_packet.ret, write_ipc_packet.assembled_eq, writeAt_getElem?,
    writeAt_length, readBytes_length, kis_hton32, List.length_cons, List.length_nil]
  split_ifs <;> first | rfl | omega | (congr 1; omega)

theorem write_ipc_packet.assembled_num_kv (sig : Nat) (heap : Nat → Nat) (t : List Nat)
    (kv : KVmap) (j : Nat) (hj : j < 4) :
    (write_ipc_packet.assembled sig heap t kv)[28 + j]? = (kis_hton32 0)[j]? := by
  have hl := snprintf_s_length 16 t
  have hL := write_ipc_packet.pack_len_ge heap kv
  simp only [write_ipc_packet.assembled_eq, writeAt_getElem?,
    writeAt_length, readBytes_length, kis_hton32, List.length_cons, List.length_nil]
  split_ifs <;> first | rfl | omega | (congr 1; omega)

theorem write_ipc_packet.assembled_type (sig : Nat) (heap : Nat → Nat) (t : List Nat)
    (kv : KVmap) (j : Nat) (hj : j < (snprintf_s 16 t).length) :
    (write_ipc_packet.assembled sig heap t kv)[12 + j]? = (snprintf_s 16 t)[j]? := by
  have hl := snprintf_s_length 16 t
  have hL := write_ipc_packet.pack_len_ge heap kv
  simp only [write_ipc_packet.assembled_eq, writeAt_getElem?,
    writeAt_length, readBytes_length, kis_hton32, List.length_cons, List.length_nil]
  split_ifs <;> first | rfl | omega | (congr 1; omega)

theorem c_str_snprintf_s_append (n : Nat) (src rest : List Nat) :
    c_str (snprintf_s n src ++ rest) = (c_str src).take (n - 1) := by
  unfold snprintf_s
  rw [List.append_assoc]
  unfold c_str
  rw [List.takeWhile_append_of_pos]
  · simp
  · intro a ha
    have h1 := List.mem_of_mem_take ha
    have h2 := List.mem_takeWhile_imp h1
    simpa using h2

theorem write_ipc_packet.type_field (sig : Nat) (heap : Nat → Nat) (t : List Nat)
    (kv : KVmap) (rest : List Nat) (past : Nat → Nat) :
    c_str (readBytes (peekAt (write_ipc_packet.assembled sig heap t kv ++ rest) past) 12 16)
      = (c_str t).take 15 := by
  have hl := snprintf_s_length 16 t
  have hL := write_ipc_packet.pack_len_ge heap kv
  have hlen := write_ipc_packet.assembled_length sig heap t kv
  rw [readBytes_peekAt _ _ _ _ (by simp only [List.length_append]; omega)]
  have hsplit : List.take 16 (List.drop 12 (write_ipc_packet.assembled sig heap t kv ++ rest))
      = snprintf_s 16 t ++ List.drop (snprintf_s 16 t).length
          (List.take 16 (List.drop 12 (write_ipc_packet.assembled sig heap t kv ++ rest))) := by
    conv_lhs => rw [← List.take_append_drop (snprintf_s 16 t).length
      (List.take 16 (List.drop 12 (write_ipc_packet.assembled sig heap t kv ++ rest)))]
    congr 1
    apply List.ext_getElem?
    intro j
    by_cases hj : j < (snprintf_s 16 t).length
    · rw [List.getElem?_take_of_lt hj, List.getElem?_take_of_lt (by omega),
        List.getElem?_drop, List.getElem?_append_left (by omega)]
      exact write_ipc_packet.assembled_type sig heap t kv j hj
    · rw [List.getElem?_eq_none (by simp only [List.length_take]; omega),
        List.getElem?_eq_none (by omega)]
  rw [hsplit, c_str_snprintf_s_append]

/-- What the decoder makes of a buffer that starts with a frame built by
`write_ipc_packet`: the frame is accepted, its length is consumed, the type
is the C string of `in_type` cut to 15 characters, and the map is empty. -/
theorem BufferAvailable.decode_ret (sig : Nat) (heap : Nat → Nat) (t : List Nat)
    (kv : KVmap) (rest : List Nat) (past : Nat → Nat)
    (hsig : sig < 4294967296) (hlen : write_ipc_packet.pack_len heap kv < 4294967296) :
    BufferAvailable.decode sig (write_ipc_packet.ret sig heap t kv ++ rest) past =
      Decoded.frame (write_ipc_packet.pack_len heap kv) ((c_str t).take 15) [] := by
  have hL := write_ipc_packet.pack_len_ge heap kv
  have hrl := write_ipc_packet.ret_length sig heap t kv
  have hal := write_ipc_packet.assembled_length sig heap t kv
  have h0 : readU32 (peekAt (write_ipc_packet.ret sig heap t kv ++ rest) past) 0 = sig := by
    apply readU32_of_hton32 _ _ _ _ hsig
    intro j hj
    rw [List.getElem?_append_left (by omega)]
    exact write_ipc_packet.ret_sig sig heap t kv j hj
  have h8 : readU32 (peekAt (write_ipc_packet.ret sig heap t kv ++ rest) past) 8 =
      write_ipc_packet.pack_len heap kv := by
    apply readU32_of_hton32 _ _ _ _ hlen
    intro j hj
    rw [List.getElem?_append_left (by omega)]
    exact write_ipc_packet.ret_packet_sz sig heap t kv j hj
  have h4 : readU32 (peekAt (write_ipc_packet.ret sig heap t kv ++ rest) past) 4 =
      Adler32Checksum (write_ipc_packet.assembled sig heap t kv) := by
    apply readU32_of_hton32 _ _ _ _ (Adler32Checksum_lt _)
    intro j hj
    rw [List.getElem?_append_left (by omega)]
    exact write_ipc_packet.ret_checksum sig heap t kv j hj
  have hz : writeAt (write_ipc_packet.ret sig heap t kv ++ rest) 4 [0, 0, 0, 0] =
      write_ipc_packet.assembled sig heap t kv ++ rest := by
    rw [writeAt_append _ _ _ _ (by simp only [List.length_cons, List.length_nil]; omega),
      write_ipc_packet.ret_zeroed]
  have htk : List.take (write_ipc_packet.pack_len heap kv)
      (write_ipc_packet.assembled sig heap t kv ++ rest) =
      write_ipc_packet.assembled sig heap t kv := by
    rw [← hal]; exact List.take_left' rfl
  have h28 : readU32 (peekAt (write_ipc_packet.assembled sig heap t kv ++ rest) past) 28
      = 0 := by
    apply readU32_of_hton32 _ _ _ _ (by decide)
    intro j hj
    rw [List.getElem?_append_left (by omega)]
    exact write_ipc_packet.assembled_num_kv sig heap t kv j hj
  unfold BufferAvailable.decode
  simp only [h0, h8, h4, hz, htk, h28, write_ipc_packet.type_field, List.length_append, hrl,
    sizeof_simple_cap_proto_t, BufferAvailable.kv_loop]
  rw [if_neg (by omega), if_neg (by simp), if_neg (by omega), if_neg (by simp)]

theorem slice_eq_of_getElem? (l : List Nat) (off : Nat) (bs : List Nat)
    (h : ∀ j, j < bs.length → l[off + j]? = bs[j]?) :
    (l.drop off).take bs.length = bs := by
  apply List.ext_getElem?
  intro j
  by_cases hj : j < bs.length
  · rw [List.getElem?_take_of_lt hj, List.getElem?_drop, h j hj]
  · rw [List.getElem?_eq_none (by simp only [List.length_take]; omega),
      List.getElem?_eq_none (by omega)]

/-! ## Claims on the codec -/

/-- C1 (the code departs from it): the round trip loses the records. For the
command `OPENDEVICE` with the one entry `DEFINITION` (payload `x`), whatever the
fresh memory holds, the decoder accepts the frame built by `write_ipc_packet`
and hands over the type with an empty map instead of the entry `definition`. -/
theorem C1_roundtrip_loses_records (sig : Nat) (heap past : Nat → Nat)
    (hsig : sig < 4294967296) :
    BufferAvailable.decode sig
      (write_ipc_packet.ret sig heap (bytes "OPENDEVICE")
        [(bytes "DEFINITION", { key := bytes "DEFINITION", size := 1, object := [120] })])
      past
      = Decoded.frame 53 (bytes "OPENDEVICE") [] := by
  have h := BufferAvailable.decode_ret sig heap (bytes "OPENDEVICE")
    [(bytes "DEFINITION", { key := bytes "DEFINITION", size := 1, object := [120] })]
    [] past hsig (by rw [write_ipc_packet.pack_len_eq]; decide)
  rw [List.append_nil] at h
  rw [h, write_ipc_packet.pack_len_eq]
  rfl

/-- Witness of C1 at the signature `0xDECAFBAD` and memory filled with `0xAA`. -/
theorem C1_roundtrip_loses_records_witness :
    (3737844653 < 4294967296) ∧
    BufferAvailable.decode 3737844653
      (write_ipc_packet.ret 3737844653 (fun _ => 170) (bytes "OPENDEVICE")
        [(bytes "DEFINITION", { key := bytes "DEFINITION", size := 1, object := [120] })])
      (fun _ => 0)
      = Decoded.frame 53 (bytes "OPENDEVICE") [] :=
  ⟨by decide, C1_roundtrip_loses_records 3737844653 (fun _ => 170) (fun _ => 0) (by decide)⟩

/-- C8 (the code departs from it): for every type and every map, the `num_kv`
field of the frame built by `write_ipc_packet` holds 0, whatever the number of
entries, and the body after the header is the fresh memory as it was found:
no record is stored in it. -/
theorem C8_num_kv_always_zero (sig : Nat) (heap : Nat → Nat) (t : List Nat) (kv : KVmap) :
    ((write_ipc_packet.ret sig heap t kv).drop 28).take 4 = [0, 0, 0, 0]
    ∧ (write_ipc_packet.ret sig heap t kv).drop 32 =
        readBytes heap 32 ((kv.map (fun e => 20 + e.2.size)).sum) := by
  have hl := snprintf_s_length 16 t
  have hL := write_ipc_packet.pack_len_ge heap kv
  have hLe := write_ipc_packet.pack_len_eq heap kv
  constructor
  · apply slice_eq_of_getElem? _ 28 [0, 0, 0, 0]
    intro j hj
    simp only [List.length_cons, List.length_nil] at hj
    simp only [write_ipc_packet.ret, write_ipc_packet.assembled_eq, writeAt_getElem?,
      writeAt_length, readBytes_length, kis_hton32, List.length_cons, List.length_nil]
    split_ifs <;> first | rfl | omega | (congr 1; omega)
  · apply List.ext_getElem?
    intro j
    rw [List.getElem?_drop]
    simp only [write_ipc_packet.ret, write_ipc_packet.assembled_eq, writeAt_getElem?,
      writeAt_length, readBytes_length, readBytes_getElem?, kis_hton32, List.length_cons,
      List.length_nil, hLe]
    split_ifs <;> first | rfl | omega | (congr 1; omega) | (simp only [Nat.zero_add])

theorem write_ipc_packet.ret_accepted (sig : Nat) (heap past : Nat → Nat) (t : List Nat)
    (kv : KVmap) (rest : List Nat) (hsig : sig < 4294967296)
    (hlen : 32 + (kv.map (fun e => 20 + e.2.size)).sum < 4294967296) :
    (write_ipc_packet.ret sig heap t kv).take 4 = kis_hton32 sig
    ∧ (write_ipc_packet.ret sig heap t kv).length = 32 + (kv.map (fun e => 20 + e.2.size)).sum
    ∧ readU32 (peekAt (write_ipc_packet.ret sig heap t kv) past) 8 =
        (write_ipc_packet.ret sig heap t kv).length
    ∧ readU32 (peekAt (write_ipc_packet.ret sig heap t kv) past) 4 =
        Adler32Checksum (writeAt (write_ipc_packet.ret sig heap t kv) 4 [0, 0, 0, 0])
    ∧ ∃ ctype kv_map,
        BufferAvailable.decode sig (write_ipc_packet.ret sig heap t kv ++ rest) past =
          Decoded.frame (write_ipc_packet.ret sig heap t kv).length ctype kv_map := by
  have hLe := write_ipc_packet.pack_len_eq heap kv
  have hrl := write_ipc_packet.ret_length sig heap t kv
  have hlen' : write_ipc_packet.pack_len heap kv < 4294967296 := by rw [hLe]; exact hlen
  refine ⟨?_, ?_, ?_, ?_, ?_⟩
  · have h := slice_eq_of_getElem? (write_ipc_packet.ret sig heap t kv) 0 (kis_hton32 sig)
      (fun j hj => write_ipc_packet.ret_sig sig heap t kv j (by simpa [kis_hton32] using hj))
    simpa [kis_hton32] using h
  · rw [hrl, hLe]
  · rw [hrl]
    exact readU32_of_hton32 _ _ _ _ hlen'
      (fun j hj => write_ipc_packet.ret_packet_sz sig heap t kv j hj)
  · rw [write_ipc_packet.ret_zeroed]
    exact readU32_of_hton32 _ _ _ _ (Adler32Checksum_lt _)
      (fun j hj => write_ipc_packet.ret_checksum sig heap t kv j hj)
  · rw [hrl]
    exact ⟨_, _, BufferAvailable.decode_ret sig heap t kv rest past hsig hlen'⟩

/-- C9 (the code departs from it): the `DEFINITION` object of
`open_source("wlan0", ...)` holds the 5 payload bytes "wlan0", and its member
`size`, which the constructor never assigns (the defect of C26), holds 0. The
buffer `write_ipc_packet` builds for `OPENDEVICE` with this entry is 52 = 32 +
(20 + 0) bytes long, not 32 + (20 + 5) = 57: the encoder takes the member
`size` for the payload length. What else the claim says holds of this buffer:
it starts with the signature, its size field is its length, and the decoder
accepts it. -/
theorem C9_length_follows_size_member :
    exampleDefinition.object = bytes "wlan0"
    ∧ exampleDefinition.object.length = 5
    ∧ exampleDefinition.size = 0
    ∧ (write_ipc_packet.ret 3737844653 (fun _ => 170) (bytes "OPENDEVICE")
        [(bytes "DEFINITION", exampleDefinition)]).length = 52
    ∧ 32 + (20 + exampleDefinition.object.length) = 57
    ∧ (write_ipc_packet.ret 3737844653 (fun _ => 170) (bytes "OPENDEVICE")
        [(bytes "DEFINITION", exampleDefinition)]).take 4 = kis_hton32 3737844653
    ∧ readU32 (peekAt (write_ipc_packet.ret 3737844653 (fun _ => 170) (bytes "OPENDEVICE")
        [(bytes "DEFINITION", exampleDefinition)]) (fun _ => 0)) 8 = 52
    ∧ BufferAvailable.decode 3737844653
        (write_ipc_packet.ret 3737844653 (fun _ => 170) (bytes "OPENDEVICE")
          [(bytes "DEFINITION", exampleDefinition)]) (fun _ => 0)
      = Decoded.frame 52 (bytes "OPENDEVICE") [] := by
  refine ⟨by decide!, by decide!, by decide!, by decide!, by decide!, by decide!, by decide!,
    by decide!⟩

/-! ## The decoder -/

theorem peekAt_writeAt_of_ge (buf : List Nat) (past : Nat → Nat) (off : Nat) (bs : List Nat)
    (i : Nat) (h : off + bs.length ≤ i) :
    peekAt (writeAt buf off bs) past i = peekAt buf past i := by
  unfold peekAt
  rw [List.getD_eq_getElem?_getD, List.getD_eq_getElem?_getD, writeAt_getElem?,
    if_neg (by omega), writeAt_length]

theorem readU32_writeAt_of_ge (buf : List Nat) (past : Nat → Nat) (off : Nat) (bs : List Nat)
    (i : Nat) (h : off + bs.length ≤ i) :
    readU32 (peekAt (writeAt buf off bs) past) i = readU32 (peekAt buf past) i := by
  unfold readU32
  rw [peekAt_writeAt_of_ge _ _ _ _ _ h, peekAt_writeAt_of_ge _ _ _ _ _ (by omega),
    peekAt_writeAt_of_ge _ _ _ _ _ (by omega), peekAt_writeAt_of_ge _ _ _ _ _ (by omega)]

theorem drop_writeAt_of_ge (buf : List Nat) (off : Nat) (bs : List Nat) (n : Nat)
    (h : off + bs.length ≤ n) :
    (writeAt buf off bs).drop n = buf.drop n := by
  apply List.ext_getElem?
  intro j
  rw [List.getElem?_drop, List.getElem?_drop, writeAt_getElem?, if_neg (by omega)]

theorem BufferAvailable.decode_valid (sig : Nat) (buf : List Nat) (past : Nat → Nat)
    (h32 : 32 ≤ buf.length) (hs : readU32 (peekAt buf past) 0 = sig)
    (hsz : readU32 (peekAt buf past) 8 ≤ buf.length)
    (hck : Adler32Checksum ((writeAt buf 4 [0, 0, 0, 0]).take (readU32 (peekAt buf past) 8))
      = readU32 (peekAt buf past) 4) :
    BufferAvailable.decode sig buf past =
      Decoded.frame (readU32 (peekAt buf past) 8)
        (c_str (readBytes (peekAt (writeAt buf 4 [0, 0, 0, 0]) past) 12 16))
        (BufferAvailable.kv_loop (peekAt (writeAt buf 4 [0, 0, 0, 0]) past)
          (readU32 (peekAt (writeAt buf 4 [0, 0, 0, 0]) past) 28) 0 []) := by
  unfold BufferAvailable.decode
  simp only [sizeof_simple_cap_proto_t]
  rw [if_neg (by omega), if_neg (by simp [hs]), if_neg (by omega), if_neg (by simp [hck])]

/-- C5 (the code departs from it): a valid frame with three records `A`, `B`
and `C` of one byte each, laid out back to back. The decoder assigns
`data_offt = 20 + size` where it should advance, so its third turn reads the
record at data offset 21 again: the map has the entries `a` and `b` and
none for `c`. -/
theorem C5_third_record_missing :
    specFrame 3737844653 (bytes "DATA")
      [(bytes "A", [1]), (bytes "B", [2]), (bytes "C", [3])] =
      [222, 202, 251, 173, 208, 246, 5, 156, 0, 0, 0, 95, 68, 65, 84, 65,
        0, 0, 0, 0, 0, 0, 0, 0, 0, 0, 0, 0, 0, 0, 0, 3,
        65, 0, 0, 0, 0, 0, 0, 0, 0, 0, 0, 0, 0, 0, 0, 0, 0, 0, 0, 1, 1,
        66, 0, 0, 0, 0, 0, 0, 0, 0, 0, 0, 0, 0, 0, 0, 0, 0, 0, 0, 1, 2,
        67, 0, 0, 0, 0, 0, 0, 0, 0, 0, 0, 0, 0, 0, 0, 0, 0, 0, 0, 1, 3]
    ∧ BufferAvailable.decode 3737844653
        (specFrame 3737844653 (bytes "DATA")
          [(bytes "A", [1]), (bytes "B", [2]), (bytes "C", [3])]) (fun _ => 0) =
      Decoded.frame 95 (bytes "DATA")
        [(bytes "a", { key := bytes "A", size := 1, object := [1] }),
         (bytes "b", { key := bytes "B", size := 1, object := [2] })] := by
  constructor
  · decide!
  · decide!

/-- C6, counterexample: a frame with a valid signature and checksum that
declares 32 bytes in all and one record; the record lies past the declared
size, in the bytes that follow in the read buffer. Decoding does not fail:
32 bytes are consumed and the frame is dispatched with a record built from
the bytes outside the frame. -/
theorem C6_counterexample :
    BufferAvailable.decode 3737844653
      (sealFrame (rawFrame 3737844653 0 32 (bytes "DATA") 1 [])
        ++ specRecord (bytes "PACKET") [7]) (fun _ => 0) =
      Decoded.frame 32 (bytes "DATA")
        [(bytes "packet", { key := bytes "PACKET", size := 1, object := [7] })] := by
  decide!

theorem peekAt_of_lt (buf : List Nat) (past past' : Nat → Nat) (i : Nat)
    (h : i < buf.length) : peekAt buf past i = peekAt buf past' i := by
  unfold peekAt
  rw [List.getD_eq_getElem?_getD, List.getD_eq_getElem?_getD, List.getElem?_eq_getElem h]
  rfl

theorem readU32_congr (mem mem' : Nat → Nat) (len off : Nat)
    (h : ∀ i, i < len → mem i = mem' i) (hoff : off + 4 ≤ len) :
    readU32 mem off = readU32 mem' off := by
  unfold readU32
  rw [h off (by omega), h (off + 1) (by omega), h (off + 2) (by omega), h (off + 3) (by omega)]

theorem readBytes_congr (mem mem' : Nat → Nat) (len off n : Nat)
    (h : ∀ i, i < len → mem i = mem' i) (hoff : off + n ≤ len) :
    readBytes mem off n = readBytes mem' off n := by
  unfold readBytes
  apply List.map_congr_left
  intro j hj
  rw [List.mem_range] at hj
  exact h (off + j) (by omega)

theorem BufferAvailable.kv_loop_congr (mem mem' : Nat → Nat) (len : Nat)
    (h : ∀ i, i < len → mem i = mem' i) (n data_offt : Nat) (kv_map : KVmap)
    (hin : BufferAvailable.kv_loop_within mem len n data_offt = true) :
    BufferAvailable.kv_loop mem n data_offt kv_map
      = BufferAvailable.kv_loop mem' n data_offt kv_map := by
  induction n generalizing data_offt kv_map with
  | zero => rfl
  | succ n ih =>
    simp only [BufferAvailable.kv_loop_within, Bool.and_eq_true, decide_eq_true_eq] at hin
    obtain ⟨hb, hrest⟩ := hin
    simp only [sizeof_simple_cap_proto_t, sizeof_simple_cap_proto_kv_h_t] at hb hrest
    have hsz : readU32 mem (32 + data_offt + 16) = readU32 mem' (32 + data_offt + 16) :=
      readU32_congr mem mem' len _ h (by omega)
    have hkey : readBytes mem (32 + data_offt) 16 = readBytes mem' (32 + data_offt) 16 :=
      readBytes_congr mem mem' len _ _ h (by omega)
    have hobj : readBytes mem (32 + data_offt + 20) (readU32 mem (32 + data_offt + 16))
        = readBytes mem' (32 + data_offt + 20) (readU32 mem (32 + data_offt + 16)) :=
      readBytes_congr mem mem' len _ _ h (by omega)
    simp only [BufferAvailable.kv_loop, KisDataSource_CapKeyedObject.ofProto,
      sizeof_simple_cap_proto_t, sizeof_simple_cap_proto_kv_h_t]
    rw [← hsz, ← hkey, ← hobj]
    exact ih _ _ hrest

/-- C6, as amended: the decoder has no truncation check. A buffered frame with
a valid signature and checksum whose records, as the loop reads them, lie
within the buffered bytes is consumed (`total_size` bytes) and dispatched,
whether or not the records lie within `total_size`, and what is dispatched is
fixed by the buffered bytes alone (it is the same for every memory `past'`
behind the buffer). A frame with one record gets that record from the
`20 + size` bytes at offset 32 of the buffered bytes. -/
theorem C6_no_truncation_check (sig : Nat) (buf : List Nat) (past : Nat → Nat)
    (h32 : 32 ≤ buf.length) (hs : readU32 (peekAt buf past) 0 = sig)
    (hsz : readU32 (peekAt buf past) 8 ≤ buf.length)
    (hck : Adler32Checksum ((writeAt buf 4 [0, 0, 0, 0]).take (readU32 (peekAt buf past) 8))
      = readU32 (peekAt buf past) 4) :
    (BufferAvailable.kv_loop_within (peekAt (writeAt buf 4 [0, 0, 0, 0]) past) buf.length
        (readU32 (peekAt buf past) 28) 0 = true →
      ∃ ctype kv_map, ∀ past', BufferAvailable.decode sig buf past' =
        Decoded.frame (readU32 (peekAt buf past) 8) ctype kv_map)
    ∧ (readU32 (peekAt buf past) 28 = 1 →
        52 + readU32 (peekAt buf past) 48 ≤ buf.length →
        ∃ ctype, ∀ past', BufferAvailable.decode sig buf past' =
          Decoded.frame (readU32 (peekAt buf past) 8) ctype
            [(StrLower (c_str ((buf.drop 32).take 16)),
              { key := c_str ((buf.drop 32).take 16)
                size := readU32 (peekAt buf past) 48
                object := (buf.drop 52).take (readU32 (peekAt buf past) 48) })]) := by
  have hpk : ∀ past' i, i < buf.length → peekAt buf past i = peekAt buf past' i :=
    fun past' i hi => peekAt_of_lt buf past past' i hi
  have hpk0 : ∀ past' i, i < buf.length →
      peekAt (writeAt buf 4 [0, 0, 0, 0]) past i = peekAt (writeAt buf 4 [0, 0, 0, 0]) past' i :=
    fun past' i hi => peekAt_of_lt _ past past' i (by rw [writeAt_length]; exact hi)
  have hdec : ∀ past', BufferAvailable.decode sig buf past' =
      Decoded.frame (readU32 (peekAt buf past) 8)
        (c_str (readBytes (peekAt (writeAt buf 4 [0, 0, 0, 0]) past) 12 16))
        (BufferAvailable.kv_loop (peekAt (writeAt buf 4 [0, 0, 0, 0]) past')
          (readU32 (peekAt buf past) 28) 0 []) := by
    intro past'
    have e0 : readU32 (peekAt buf past') 0 = readU32 (peekAt buf past) 0 :=
      (readU32_congr _ _ buf.length 0 (hpk past') (by omega)).symm
    have e4 : readU32 (peekAt buf past') 4 = readU32 (peekAt buf past) 4 :=
      (readU32_congr _ _ buf.length 4 (hpk past') (by omega)).symm
    have e8 : readU32 (peekAt buf past') 8 = readU32 (peekAt buf past) 8 :=
      (readU32_congr _ _ buf.length 8 (hpk past') (by omega)).symm
    have e28 : readU32 (peekAt (writeAt buf 4 [0, 0, 0, 0]) past') 28
        = readU32 (peekAt buf past) 28 := by
      rw [readU32_writeAt_of_ge _ _ _ _ _ (by simp)]
      exact (readU32_congr _ _ buf.length 28 (hpk past') (by omega)).symm
    have et : readBytes (peekAt (writeAt buf 4 [0, 0, 0, 0]) past') 12 16
        = readBytes (peekAt (writeAt buf 4 [0, 0, 0, 0]) past) 12 16 :=
      (readBytes_congr _ _ buf.length 12 16 (hpk0 past') (by omega)).symm
    have hd := BufferAvailable.decode_valid sig buf past' h32 (by rw [e0]; exact hs)
      (by rw [e8]; exact hsz) (by rw [e8, e4]; exact hck)
    rw [hd, e8, e28, et]
  constructor
  · intro hin
    refine ⟨c_str (readBytes (peekAt (writeAt buf 4 [0, 0, 0, 0]) past) 12 16),
      BufferAvailable.kv_loop (peekAt (writeAt buf 4 [0, 0, 0, 0]) past)
        (readU32 (peekAt buf past) 28) 0 [], ?_⟩
    intro past'
    rw [hdec past']
    rw [BufferAvailable.kv_loop_congr _ _ buf.length (hpk0 past') _ _ _ hin]
  · intro hn hrec
    refine ⟨c_str (readBytes (peekAt (writeAt buf 4 [0, 0, 0, 0]) past) 12 16), ?_⟩
    intro past'
    rw [hdec past', hn]
    have h48 : readU32 (peekAt (writeAt buf 4 [0, 0, 0, 0]) past') 48 =
        readU32 (peekAt buf past) 48 := by
      rw [readU32_writeAt_of_ge _ _ _ _ _ (by simp)]
      exact (readU32_congr _ _ buf.length 48 (hpk past') (by omega)).symm
    have hkey : readBytes (peekAt (writeAt buf 4 [0, 0, 0, 0]) past') 32 16 =
        (buf.drop 32).take 16 := by
      rw [readBytes_peekAt _ _ _ _ (by rw [writeAt_length]; omega),
        drop_writeAt_of_ge _ _ _ _ (by simp)]
    have hobj : readBytes (peekAt (writeAt buf 4 [0, 0, 0, 0]) past') 52
        (readU32 (peekAt buf past) 48) = (buf.drop 52).take (readU32 (peekAt buf past) 48) := by
      rw [readBytes_peekAt _ _ _ _ (by rw [writeAt_length]; omega),
        drop_writeAt_of_ge _ _ _ _ (by simp)]
    simp only [BufferAvailable.kv_loop, KisDataSource_CapKeyedObject.ofProto,
      sizeof_simple_cap_proto_t, sizeof_simple_cap_proto_kv_h_t, Nat.add_zero, h48, hkey, hobj,
      KVmap.assign]

/-- Witness of C6 at the buffer of the counterexample: the record is built
from the 21 bytes that follow the 32 declared ones. -/
theorem C6_no_truncation_check_witness :
    ∃ ctype, ∀ past', BufferAvailable.decode 3737844653 exampleTruncated past' =
      Decoded.frame (readU32 (peekAt exampleTruncated (fun _ => 0)) 8) ctype
        [(StrLower (c_str ((exampleTruncated.drop 32).take 16)),
          { key := c_str ((exampleTruncated.drop 32).take 16)
            size := readU32 (peekAt exampleTruncated (fun _ => 0)) 48
            object := (exampleTruncated.drop 52).take
              (readU32 (peekAt exampleTruncated (fun _ => 0)) 48) })] :=
  (C6_no_truncation_check 3737844653 exampleTruncated (fun _ => 0)
    (by decide!) (by decide!) (by decide!) (by decide!)).2 (by decide!) (by decide!)

/-! ## The key/value map -/

theorem KVmap.find_assign (m : KVmap) (k : List Nat) (v : KisDataSource_CapKeyedObject)
    (k' : List Nat) :
    KVmap.find (KVmap.assign m k v) k' = if k' = k then some v else KVmap.find m k' := by
  induction m with
  | nil =>
    by_cases h : k' = k
    · subst h; simp [KVmap.find, KVmap.assign, List.lookup]
    · have hb : (k' == k) = false := by simpa using h
      simp [KVmap.find, KVmap.assign, List.lookup, hb, h]
  | cons e rest ih =>
    obtain ⟨k0, v0⟩ := e
    unfold KVmap.assign
    by_cases h1 : k = k0
    · subst h1
      rw [if_pos rfl]
      by_cases h : k' = k
      · subst h; simp [KVmap.find, List.lookup]
      · have hb : (k' == k) = false := by simpa using h
        simp [KVmap.find, List.lookup, hb, h]
    · rw [if_neg h1]
      by_cases h2 : k < k0
      · rw [if_pos h2]
        by_cases h : k' = k
        · subst h; simp [KVmap.find, List.lookup]
        · have hb : (k' == k) = false := by simpa using h
          simp [KVmap.find, List.lookup, hb, h]
      · rw [if_neg h2]
        by_cases h : k' = k
        · subst h
          have hb : (k' == k0) = false := by simpa using h1
          have := ih
          simp only [KVmap.find] at this
          simp [KVmap.find, List.lookup, hb, this]
        · by_cases h0 : k' = k0
          · subst h0; simp [KVmap.find, List.lookup, h]
          · have hb : (k' == k0) = false := by simpa using h0
            have := ih
            simp only [KVmap.find] at this
            simp [KVmap.find, List.lookup, hb, this, h]

theorem KVmap.find_foldl_assign (recs : List KisDataSource_CapKeyedObject) (m : KVmap)
    (k : List Nat) :
    KVmap.find (recs.foldl (fun m kv => KVmap.assign m (StrLower kv.key) kv) m) k =
      (recs.reverse.find? (fun r => StrLower r.key == k)).or (KVmap.find m k) := by
  induction recs generalizing m with
  | nil => simp
  | cons r rest ih =>
    rw [List.foldl_cons, ih, List.reverse_cons, List.find?_append, KVmap.find_assign,
      List.find?_singleton]
    cases hrest : List.find? (fun r => StrLower r.key == k) rest.reverse with
    | some x => simp
    | none =>
      by_cases hk : k = StrLower r.key
      · subst hk; simp
      · have hb : (StrLower r.key == k) = false := by
          simpa using (fun h => hk h.symm)
        simp [hk, hb]

theorem toLowerByte_idem (c : Nat) : toLowerByte (toLowerByte c) = toLowerByte c := by
  unfold toLowerByte
  split_ifs <;> omega

theorem StrLower_idem (s : List Nat) : StrLower (StrLower s) = StrLower s := by
  unfold StrLower
  rw [List.map_map]
  apply List.map_congr_left
  intro c _
  exact toLowerByte_idem c

theorem KVmap.keys_assign (m : KVmap) (k : List Nat) (v : KisDataSource_CapKeyedObject)
    (x : List Nat) (hx : x ∈ (KVmap.assign m k v).map Prod.fst) :
    x = k ∨ x ∈ m.map Prod.fst := by
  induction m with
  | nil => simp [KVmap.assign] at hx; exact Or.inl hx
  | cons e rest ih =>
    obtain ⟨k0, v0⟩ := e
    unfold KVmap.assign at hx
    split_ifs at hx with h1 h2
    · simp only [List.map_cons, List.mem_cons] at hx ⊢
      rcases hx with hx | hx
      · exact Or.inl hx
      · exact Or.inr (Or.inr hx)
    · simp only [List.map_cons, List.mem_cons] at hx ⊢
      rcases hx with hx | hx | hx
      · exact Or.inl hx
      · exact Or.inr (Or.inl hx)
      · exact Or.inr (Or.inr hx)
    · simp only [List.map_cons, List.mem_cons] at hx ⊢
      rcases hx with hx | hx
      · exact Or.inr (Or.inl hx)
      · rcases ih hx with h | h
        · exact Or.inl h
        · exact Or.inr (Or.inr h)

theorem KVmap.sorted_assign (m : KVmap) (k : List Nat) (v : KisDataSource_CapKeyedObject)
    (hm : (m.map Prod.fst).Pairwise (· < ·)) :
    ((KVmap.assign m k v).map Prod.fst).Pairwise (· < ·) := by
  induction m with
  | nil => simp [KVmap.assign]
  | cons e rest ih =>
    obtain ⟨k0, v0⟩ := e
    simp only [List.map_cons, List.pairwise_cons] at hm
    unfold KVmap.assign
    split_ifs with h1 h2
    · subst h1
      simp only [List.map_cons, List.pairwise_cons]
      exact hm
    · simp only [List.map_cons, List.pairwise_cons, List.mem_cons]
      refine ⟨?_, hm⟩
      intro a ha
      rcases ha with ha | ha
      · subst ha; exact h2
      · exact lt_trans h2 (hm.1 a ha)
    · simp only [List.map_cons, List.pairwise_cons]
      refine ⟨?_, ih hm.2⟩
      intro a ha
      rcases KVmap.keys_assign rest k v a ha with h | h
      · subst h
        rcases lt_trichotomy a k0 with h3 | h3 | h3
        · exact absurd h3 h2
        · exact absurd h3 h1
        · exact h3
      · exact hm.1 a h

theorem KVmap.sorted_foldl_assign (recs : List KisDataSource_CapKeyedObject) (m : KVmap)
    (hm : (m.map Prod.fst).Pairwise (· < ·)) :
    ((recs.foldl (fun m kv => KVmap.assign m (StrLower kv.key) kv) m).map
      Prod.fst).Pairwise (· < ·) := by
  induction recs generalizing m with
  | nil => exact hm
  | cons r rest ih =>
    rw [List.foldl_cons]
    exact ih _ (KVmap.sorted_assign m _ r hm)

/-- C7 (the code departs from it): a valid frame with the records `Key`, `B`
and `KEY`, one byte each. The decoder assigns `data_offt = 20 + size` where it
should advance (the defect of C5), so its third turn reads the record `B`
again and never reads `KEY`: the map has the lower-case keys `b` and `key`,
and under `key` the object of the earlier record `Key`, not of the later
`KEY`. With the two records `Key` and `KEY` alone both are read and the later
one wins. -/
theorem C7_later_record_is_lost :
    BufferAvailable.decode 3737844653
        (specFrame 3737844653 (bytes "DATA")
          [(bytes "Key", [1]), (bytes "B", [2]), (bytes "KEY", [3])]) (fun _ => 0) =
      Decoded.frame 95 (bytes "DATA")
        [(bytes "b", { key := bytes "B", size := 1, object := [2] }),
         (bytes "key", { key := bytes "Key", size := 1, object := [1] })]
    ∧ KVmap.find
        [(bytes "b", { key := bytes "B", size := 1, object := [2] }),
         (bytes "key", { key := bytes "Key", size := 1, object := [1] })] (bytes "key")
      = some { key := bytes "Key", size := 1, object := [1] }
    ∧ BufferAvailable.decode 3737844653
        (specFrame 3737844653 (bytes "DATA") [(bytes "Key", [1]), (bytes "KEY", [3])])
        (fun _ => 0) =
      Decoded.frame 74 (bytes "DATA")
        [(bytes "key", { key := bytes "KEY", size := 1, object := [3] })] := by
  refine ⟨by decide!, by decide!, by decide!⟩

/-! ## The read buffer is touched by `BufferAvailable` alone -/

namespace KisDataSource

@[simp] theorem emit_ipchandler (s : KisDataSource) (e : Event) :
    (s.emit e).ipchandler = s.ipchandler := rfl

@[simp] theorem inc_ipc_errors_ipchandler (s : KisDataSource) (n : Nat) :
    (s.inc_ipc_errors n).ipchandler = s.ipchandler := rfl

@[simp] theorem unpack_failed_ipchandler (s : KisDataSource) :
    s.unpack_failed.ipchandler = s.ipchandler := rfl

@[simp] theorem call_error_callback_ipchandler (s : KisDataSource) :
    s.call_error_callback.ipchandler = s.ipchandler := by
  unfold call_error_callback; split <;> rfl

@[simp] theorem ipc_soft_kill_ipchandler (s : KisDataSource) :
    s.ipc_soft_kill.ipchandler = s.ipchandler := by
  unfold ipc_soft_kill; split <;> rfl

@[simp] theorem ipc_close_ipc_ipchandler (s : KisDataSource) :
    s.ipc_close_ipc.ipchandler = s.ipchandler := by
  unfold ipc_close_ipc; split <;> rfl

@[simp] theorem handle_kv_success_ipchandler (s : KisDataSource)
    (obj : KisDataSource_CapKeyedObject) :
    (s.handle_kv_success obj).2.ipchandler = s.ipchandler := by
  unfold handle_kv_success; split <;> rfl

@[simp] theorem handle_kv_message_ipchandler (env : Env) (s : KisDataSource)
    (obj : KisDataSource_CapKeyedObject) :
    (s.handle_kv_message env obj).2.ipchandler = s.ipchandler := by
  unfold handle_kv_message; simp only; split <;> rfl

@[simp] theorem handle_kv_channels_ipchandler (env : Env) (s : KisDataSource)
    (obj : KisDataSource_CapKeyedObject) :
    (s.handle_kv_channels env obj).2.ipchandler = s.ipchandler := by
  unfold handle_kv_channels; simp only; split <;> rfl

@[simp] theorem handle_kv_packet_ipchandler (env : Env) (s : KisDataSource)
    (obj : KisDataSource_CapKeyedObject) :
    (s.handle_kv_packet env obj).2.ipchandler = s.ipchandler := by
  unfold handle_kv_packet; simp only; split <;> rfl

@[simp] theorem handle_kv_signal_ipchandler (env : Env) (s : KisDataSource)
    (obj : KisDataSource_CapKeyedObject) :
    (s.handle_kv_signal env obj).2.ipchandler = s.ipchandler := by
  unfold handle_kv_signal; simp only; split <;> rfl

@[simp] theorem handle_kv_gps_ipchandler (env : Env) (s : KisDataSource)
    (obj : KisDataSource_CapKeyedObject) :
    (s.handle_kv_gps env obj).2.ipchandler = s.ipchandler := by
  unfold handle_kv_gps; simp only; split <;> rfl

@[simp] theorem handle_message_kv_ipchandler (env : Env) (s : KisDataSource) (kv : KVmap) :
    (s.handle_message_kv env kv).ipchandler = s.ipchandler := by
  unfold handle_message_kv; split <;> simp

theorem handle_packet_probe_resp_ipchandler (env : Env) (s : KisDataSource) (kv : KVmap) :
    (s.handle_packet_probe_resp env kv).ipchandler = s.ipchandler := by
  unfold handle_packet_probe_resp
  cases KVmap.find kv (bytes "channels") <;> cases KVmap.find kv (bytes "success") <;>
    simp only <;> split_ifs <;> (try split) <;> simp

theorem handle_packet_open_resp_ipchandler (env : Env) (s : KisDataSource) (kv : KVmap) :
    (s.handle_packet_open_resp env kv).ipchandler = s.ipchandler := by
  unfold handle_packet_open_resp
  cases KVmap.find kv (bytes "channels") <;> cases KVmap.find kv (bytes "success") <;>
    simp only <;> split_ifs <;> (try split) <;> simp

theorem handle_packet_error_ipchandler (env : Env) (s : KisDataSource) (kv : KVmap) :
    (s.handle_packet_error env kv).ipchandler = s.ipchandler := by
  unfold handle_packet_error
  simp only
  split <;> simp

theorem handle_packet_data_ipchandler (env : Env) (s : KisDataSource) (kv : KVmap) :
    (s.handle_packet_data env kv).ipchandler = s.ipchandler := by
  unfold handle_packet_data
  cases KVmap.find kv (bytes "packet") <;> cases KVmap.find kv (bytes "signal") <;>
    cases KVmap.find kv (bytes "gps") <;> simp only <;> (try split) <;> simp

theorem handle_packet_ipchandler (env : Env) (s : KisDataSource) (t : List Nat) (kv : KVmap) :
    (s.handle_packet env t kv).ipchandler = s.ipchandler := by
  unfold handle_packet
  simp only
  split_ifs
  · exact handle_message_kv_ipchandler env s kv
  · exact handle_packet_probe_resp_ipchandler env s kv
  · exact handle_packet_open_resp_ipchandler env s kv
  · exact handle_packet_error_ipchandler env s kv
  · exact handle_message_kv_ipchandler env s kv
  · exact handle_packet_data_ipchandler env s kv
  · rfl

end KisDataSource

/-! ## Claims on `BufferAvailable` -/

theorem readBytes_peekAt_all (l : List Nat) (heap : Nat → Nat) :
    readBytes (peekAt (l.take l.length) heap) 0 l.length = l := by
  rw [List.take_length, readBytes_peekAt _ _ _ _ (by omega)]
  simp

/-- C3: with the `n` bytes of the read buffer, `BufferAvailable(n)` leaves the
source as it is (nothing consumed, nothing dispatched) while fewer than 32
bytes, or fewer bytes than the header declares, are buffered; and once a
whole frame with a valid signature and checksum is buffered it hands the frame
to `handle_packet` and takes exactly `total_size` bytes from the read buffer,
which keeps every byte that follows. -/
theorem C3_consumes_exactly_total_size (env : Env) (s : KisDataSource)
    (h : RingbufferHandler) (hh : s.ipchandler = some h) :
    ((h.rbuf.length < 32 ∨ h.rbuf.length < readU32 (peekAt h.rbuf env.past) 8) →
      s.BufferAvailable env h.rbuf.length = s)
    ∧ (32 ≤ h.rbuf.length → readU32 (peekAt h.rbuf env.past) 0 = env.sig →
        readU32 (peekAt h.rbuf env.past) 8 ≤ h.rbuf.length →
        Adler32Checksum ((writeAt h.rbuf 4 [0, 0, 0, 0]).take
          (readU32 (peekAt h.rbuf env.past) 8)) = readU32 (peekAt h.rbuf env.past) 4 →
        (∃ ctype kv_map, s.BufferAvailable env h.rbuf.length =
          KisDataSource.handle_packet env
            { s with ipchandler := some { h with
                rbuf := h.rbuf.drop (readU32 (peekAt h.rbuf env.past) 8) } } ctype kv_map)
        ∧ (s.BufferAvailable env h.rbuf.length).ipchandler =
            some { h with rbuf := h.rbuf.drop (readU32 (peekAt h.rbuf env.past) 8) }) := by
  constructor
  · intro hshort
    unfold KisDataSource.BufferAvailable
    by_cases h32 : h.rbuf.length < 32
    · simp [sizeof_simple_cap_proto_t, h32]
    · have hlt : h.rbuf.length < readU32 (peekAt h.rbuf env.past) 8 := by omega
      simp only [sizeof_simple_cap_proto_t, if_neg h32, hh, readBytes_peekAt_all]
      unfold BufferAvailable.decode
      simp only [sizeof_simple_cap_proto_t, if_neg h32]
      by_cases hsig : readU32 (peekAt h.rbuf env.past) 0 = env.sig
      · simp [hsig, hlt]
      · simp [hsig]
  · intro h32 hs hsz hck
    have hd := BufferAvailable.decode_valid env.sig h.rbuf env.past h32 hs hsz hck
    have hb : s.BufferAvailable env h.rbuf.length =
        KisDataSource.handle_packet env
          { s with ipchandler := some { h with
              rbuf := h.rbuf.drop (readU32 (peekAt h.rbuf env.past) 8) } }
          (c_str (readBytes (peekAt (writeAt h.rbuf 4 [0, 0, 0, 0]) env.past) 12 16))
          (BufferAvailable.kv_loop (peekAt (writeAt h.rbuf 4 [0, 0, 0, 0]) env.past)
            (readU32 (peekAt (writeAt h.rbuf 4 [0, 0, 0, 0]) env.past) 28) 0 []) := by
      unfold KisDataSource.BufferAvailable
      simp only [sizeof_simple_cap_proto_t, if_neg (by omega : ¬ h.rbuf.length < 32), hh,
        readBytes_peekAt_all, hd]
    refine ⟨⟨_, _, hb⟩, ?_⟩
    rw [hb, KisDataSource.handle_packet_ipchandler]

/-- Witness of C3: a valid `OPENRESP` frame of 53 bytes followed by the bytes
1, 2, 3 in the read buffer. -/
theorem C3_consumes_exactly_total_size_witness :
    (exampleBuffered.BufferAvailable exampleEnv exampleHandler.rbuf.length).ipchandler =
      some { exampleHandler with
        rbuf := exampleHandler.rbuf.drop (readU32 (peekAt exampleHandler.rbuf exampleEnv.past) 8) }
    ∧ exampleHandler.rbuf.drop (readU32 (peekAt exampleHandler.rbuf exampleEnv.past) 8)
        = [1, 2, 3] :=
  ⟨((C3_consumes_exactly_total_size exampleEnv exampleBuffered exampleHandler rfl).2
      (by decide!) (by decide!) (by decide!) (by decide!)).2, by decide!⟩

/-- C4 (the code departs from it): the opened source receives a valid
`OPENRESP` frame whose checksum field is XORed with 1, and the same frame with
a bit of the signature flipped. Decoding fails, and `BufferAvailable` returns
at once: the IPC-error counter stays 0, nothing is traced (no `close_ipc`, no
`soft_kill`), the source still counts as running with its child, and the
frame stays, unconsumed, at the head of the read buffer. -/
theorem C4_corrupt_frame_is_ignored :
    BufferAvailable.decode exampleEnv.sig (flipBitAt exampleOpenResp 7 0) exampleEnv.past
      = Decoded.badChecksum
    ∧ (exampleOpened.receive exampleEnv (flipBitAt exampleOpenResp 7 0)).read_buffer =
        flipBitAt exampleOpenResp 7 0
    ∧ (exampleOpened.receive exampleEnv (flipBitAt exampleOpenResp 7 0)).ipc_errors = 0
    ∧ (exampleOpened.receive exampleEnv (flipBitAt exampleOpenResp 7 0)).source_running = true
    ∧ (exampleOpened.receive exampleEnv (flipBitAt exampleOpenResp 7 0)).source_ipc =
        some { pid := 4242, closed := false, killed := false }
    ∧ (exampleOpened.receive exampleEnv (flipBitAt exampleOpenResp 7 0)).trace =
        exampleOpened.trace
    ∧ BufferAvailable.decode exampleEnv.sig (flipBitAt exampleOpenResp 0 0) exampleEnv.past
      = Decoded.badSignature
    ∧ (exampleOpened.receive exampleEnv (flipBitAt exampleOpenResp 0 0)).ipc_errors = 0
    ∧ (exampleOpened.receive exampleEnv (flipBitAt exampleOpenResp 0 0)).source_running = true
    ∧ (exampleOpened.receive exampleEnv (flipBitAt exampleOpenResp 0 0)).trace =
        exampleOpened.trace := by
  refine ⟨by decide!, by decide!, by decide!, by decide!, by decide!, by decide!, by decide!,
    by decide!, by decide!, by decide!⟩

/-! ## Completions of the open callback -/

theorem open_completions_append (cb : Nat) (tr : List Event) (e : Event) :
    open_completions cb (tr ++ [e]) =
      open_completions cb tr + (if e.is_open_completion cb then 1 else 0) := by
  unfold open_completions
  rw [List.filter_append, List.length_append]
  by_cases h : e.is_open_completion cb <;> simp [List.filter, h]

theorem open_completions_append_list (cb : Nat) (tr tr' : List Event) :
    open_completions cb (tr ++ tr') = open_completions cb tr + open_completions cb tr' := by
  unfold open_completions
  rw [List.filter_append, List.length_append]

namespace KisDataSource

theorem handle_kv_message_open (env : Env) (s : KisDataSource)
    (obj : KisDataSource_CapKeyedObject) (cb : Nat) :
    (s.handle_kv_message env obj).2.open_callback = s.open_callback
    ∧ (s.handle_kv_message env obj).2.open_aux = s.open_aux
    ∧ open_completions cb (s.handle_kv_message env obj).2.trace =
        open_completions cb s.trace := by
  unfold handle_kv_message
  simp only
  split
  · refine ⟨rfl, rfl, ?_⟩
    simp [emit, open_completions_append, Event.is_open_completion]
  · refine ⟨rfl, rfl, ?_⟩
    simp [unpack_failed, inc_ipc_errors, emit, open_completions_append,
      Event.is_open_completion]

theorem handle_message_kv_open (env : Env) (s : KisDataSource) (kv : KVmap) (cb : Nat) :
    (s.handle_message_kv env kv).open_callback = s.open_callback
    ∧ (s.handle_message_kv env kv).open_aux = s.open_aux
    ∧ open_completions cb (s.handle_message_kv env kv).trace =
        open_completions cb s.trace := by
  unfold handle_message_kv
  split
  · exact handle_kv_message_open env s _ cb
  · exact ⟨rfl, rfl, rfl⟩

theorem handle_kv_channels_open (env : Env) (s : KisDataSource)
    (obj : KisDataSource_CapKeyedObject) (cb : Nat) :
    (s.handle_kv_channels env obj).2.open_callback = s.open_callback
    ∧ (s.handle_kv_channels env obj).2.open_aux = s.open_aux
    ∧ open_completions cb (s.handle_kv_channels env obj).2.trace =
        open_completions cb s.trace := by
  unfold handle_kv_channels
  simp only
  split
  · exact ⟨rfl, rfl, rfl⟩
  · exact ⟨rfl, rfl, rfl⟩
  · refine ⟨rfl, rfl, ?_⟩
    simp [unpack_failed, inc_ipc_errors, emit, open_completions_append,
      Event.is_open_completion]

theorem handle_kv_success_open (s : KisDataSource) (obj : KisDataSource_CapKeyedObject) :
    (s.handle_kv_success obj).2.open_callback = s.open_callback
    ∧ (s.handle_kv_success obj).2.open_aux = s.open_aux
    ∧ (s.handle_kv_success obj).2.trace = s.trace := by
  unfold handle_kv_success
  split <;> exact ⟨rfl, rfl, rfl⟩

theorem close_source_trace (s : KisDataSource) (cb : Nat) :
    open_completions cb s.close_source.trace = open_completions cb s.trace := by
  unfold close_source
  simp only
  cases hipc : s.source_ipc with
  | none =>
    simp [cancel_open_source, cancel_probe_source, hipc]
  | some ipc =>
    simp only [cancel_open_source, cancel_probe_source, hipc, ipc_close_ipc, ipc_soft_kill,
      emit, List.append_assoc, open_completions_append_list]
    simp [open_completions, Event.is_open_completion]

end KisDataSource

theorem probe_completions_append (cb : Nat) (tr1 tr2 : List Event) :
    probe_completions cb (tr1 ++ tr2) = probe_completions cb tr1 + probe_completions cb tr2 := by
  simp [probe_completions, List.filter_append]

theorem KisDataSource.close_source_probe_trace (s : KisDataSource) (cb : Nat) :
    probe_completions cb s.close_source.trace = probe_completions cb s.trace := by
  unfold KisDataSource.close_source
  simp only
  cases hipc : s.source_ipc with
  | none =>
    simp [KisDataSource.cancel_open_source, KisDataSource.cancel_probe_source, hipc]
  | some ipc =>
    simp only [KisDataSource.cancel_open_source, KisDataSource.cancel_probe_source, hipc,
      KisDataSource.ipc_close_ipc, KisDataSource.ipc_soft_kill, KisDataSource.emit,
      probe_completions_append]
    simp [probe_completions, Event.is_probe_completion]

/-- C10, counterexample: callback 7 is installed by `open_source` and has
received no completion. The source is closed, or destroyed, before the child
answers: no callback is called, none stays installed, and callback 7 ends the
lifetime of the source with zero completions. -/
theorem C10_counterexample :
    exampleOpened.open_callback = some 7
    ∧ open_completions 7 exampleOpened.trace = 0
    ∧ open_completions 7 exampleOpened.close_source.trace = 0
    ∧ exampleOpened.close_source.open_callback = none
    ∧ open_completions 7 exampleOpened.destroy.trace = 0
    ∧ exampleOpened.destroy.open_callback = none := by
  refine ⟨by decide!, by decide!, by decide!, by decide!, by decide!, by decide!⟩

/-- C10, as amended: `close_source`, and with it the destructor, delivers no
completion to any probe or open callback, in whatever state the source is,
and leaves neither a probe nor an open callback installed: a callback that
still waits at that moment keeps the number of completions it had, zero when
none had arrived. -/
theorem C10_teardown_completes_nothing (s : KisDataSource) (cb : Nat) :
    open_completions cb s.close_source.trace = open_completions cb s.trace
    ∧ probe_completions cb s.close_source.trace = probe_completions cb s.trace
    ∧ s.close_source.open_callback = none
    ∧ s.close_source.probe_callback = none
    ∧ open_completions cb s.destroy.trace = open_completions cb s.trace
    ∧ probe_completions cb s.destroy.trace = probe_completions cb s.trace
    ∧ s.destroy.open_callback = none
    ∧ s.destroy.probe_callback = none := by
  have h1 := KisDataSource.close_source_trace s cb
  have h2 := KisDataSource.close_source_probe_trace s cb
  have h3 : s.close_source.open_callback = none := by
    unfold KisDataSource.close_source
    simp only
    cases hipc : s.source_ipc <;>
      simp [KisDataSource.cancel_open_source, KisDataSource.cancel_probe_source, hipc,
        KisDataSource.ipc_close_ipc, KisDataSource.ipc_soft_kill, KisDataSource.emit]
  have h4 : s.close_source.probe_callback = none := by
    unfold KisDataSource.close_source
    simp only
    cases hipc : s.source_ipc <;>
      simp [KisDataSource.cancel_open_source, KisDataSource.cancel_probe_source, hipc,
        KisDataSource.ipc_close_ipc, KisDataSource.ipc_soft_kill, KisDataSource.emit]
  exact ⟨h1, h2, h3, h4, h1, h2, h3, h4⟩

/-! ## Single bit flips and the checksum -/

theorem adlerStep_foldl_fst (l : List Nat) (ab : Nat × Nat) :
    (l.foldl adlerStep ab).1 % 65521 = (ab.1 + l.sum) % 65521 := by
  induction l generalizing ab with
  | nil => simp
  | cons x rest ih =>
    rw [List.foldl_cons, ih, List.sum_cons]
    simp only [adlerStep]
    omega

theorem Adler32Checksum_mod (l : List Nat) :
    Adler32Checksum l % 65536 = (1 + l.sum) % 65521 := by
  have h1 := adlerStep_foldl_lt l (1, 0) ⟨by decide, by decide⟩
  have h2 := adlerStep_foldl_fst l (1, 0)
  unfold Adler32Checksum
  simp only at h2 ⊢
  omega

theorem sum_set_add (l : List Nat) (i v : Nat) (h : i < l.length) :
    (l.set i v).sum + l.getD i 0 = l.sum + v := by
  induction l generalizing i with
  | nil => simp at h
  | cons x rest ih =>
    cases i with
    | zero => simp [List.set]; omega
    | succ j =>
      have hj : j < rest.length := by simpa using h
      have := ih j hj
      simp only [List.set, List.sum_cons, List.getD_cons_succ]
      omega

theorem flipBit_cases (b k : Nat) :
    (flipBit b k + 2 ^ k = b) ∨ (flipBit b k = b + 2 ^ k) := by
  unfold flipBit
  split_ifs with h
  · left
    have hle : 2 ^ k ≤ b := by
      by_contra hlt
      rw [Nat.div_eq_of_lt (by omega)] at h
      simp at h
    omega
  · right; rfl

theorem two_pow_bounds (k : Nat) (hk : k < 8) : 1 ≤ 2 ^ k ∧ 2 ^ k ≤ 128 := by
  interval_cases k <;> simp

theorem Adler32Checksum_flip_ne (l : List Nat) (i k : Nat) (hi : i < l.length) (hk : k < 8) :
    Adler32Checksum (l.set i (flipBit (l.getD i 0) k)) ≠ Adler32Checksum l := by
  intro heq
  have h1 := Adler32Checksum_mod (l.set i (flipBit (l.getD i 0) k))
  have h2 := Adler32Checksum_mod l
  rw [heq] at h1
  have hs := sum_set_add l i (flipBit (l.getD i 0) k) hi
  have hp := two_pow_bounds k hk
  rcases flipBit_cases (l.getD i 0) k with hc | hc <;> omega

theorem writeAt_set_comm (buf : List Nat) (off : Nat) (bs : List Nat) (i v : Nat)
    (h : off + bs.length ≤ i) :
    writeAt (buf.set i v) off bs = (writeAt buf off bs).set i v := by
  apply List.ext_getElem?
  intro j
  simp only [writeAt_getElem?, List.getElem?_set, List.length_set, writeAt_length]
  split_ifs <;> first | rfl | omega

theorem getD_of_getElem? {l : List Nat} {i v : Nat} (h : l[i]? = some v) : l.getD i 0 = v := by
  rw [List.getD_eq_getElem?_getD, h]; rfl

theorem BufferAvailable.decode_flip_body (sig : Nat) (heap past : Nat → Nat) (t : List Nat)
    (kv : KVmap) (rest : List Nat) (i k : Nat) (hsig : sig < 4294967296)
    (hlen : write_ipc_packet.pack_len heap kv < 4294967296) (hk : k < 8)
    (hi : i < write_ipc_packet.pack_len heap kv) (h12 : 12 ≤ i) :
    BufferAvailable.decode sig (flipBitAt (write_ipc_packet.ret sig heap t kv) i k ++ rest) past
      = Decoded.badChecksum := by
  have hL := write_ipc_packet.pack_len_ge heap kv
  have hrl := write_ipc_packet.ret_length sig heap t kv
  have hal := write_ipc_packet.assembled_length sig heap t kv
  have hgd : (write_ipc_packet.ret sig heap t kv).getD i 0 =
      (write_ipc_packet.assembled sig heap t kv).getD i 0 := by
    rw [List.getD_eq_getElem?_getD, List.getD_eq_getElem?_getD]
    congr 1
    simp only [write_ipc_packet.ret, writeAt_getElem?]
    rw [if_neg (by simp only [kis_hton32, List.length_cons, List.length_nil]; omega)]
  unfold flipBitAt
  rw [hgd]
  obtain ⟨v, hv⟩ : ∃ v, v = flipBit ((write_ipc_packet.assembled sig heap t kv).getD i 0) k :=
    ⟨_, rfl⟩
  rw [← hv]
  have hfl : ((write_ipc_packet.ret sig heap t kv).set i v).length =
      write_ipc_packet.pack_len heap kv := by rw [List.length_set, hrl]
  have h0 : readU32 (peekAt ((write_ipc_packet.ret sig heap t kv).set i v ++ rest) past) 0
      = sig := by
    apply readU32_of_hton32 _ _ _ _ hsig
    intro j hj
    rw [List.getElem?_append_left (by omega), List.getElem?_set_ne (by omega)]
    exact write_ipc_packet.ret_sig sig heap t kv j hj
  have h8 : readU32 (peekAt ((write_ipc_packet.ret sig heap t kv).set i v ++ rest) past) 8 =
      write_ipc_packet.pack_len heap kv := by
    apply readU32_of_hton32 _ _ _ _ hlen
    intro j hj
    rw [List.getElem?_append_left (by omega), List.getElem?_set_ne (by omega)]
    exact write_ipc_packet.ret_packet_sz sig heap t kv j hj
  have h4 : readU32 (peekAt ((write_ipc_packet.ret sig heap t kv).set i v ++ rest) past) 4 =
      Adler32Checksum (write_ipc_packet.assembled sig heap t kv) := by
    apply readU32_of_hton32 _ _ _ _ (Adler32Checksum_lt _)
    intro j hj
    rw [List.getElem?_append_left (by omega), List.getElem?_set_ne (by omega)]
    exact write_ipc_packet.ret_checksum sig heap t kv j hj
  have hz : writeAt ((write_ipc_packet.ret sig heap t kv).set i v ++ rest) 4 [0, 0, 0, 0] =
      (write_ipc_packet.assembled sig heap t kv).set i v ++ rest := by
    rw [writeAt_append _ _ _ _ (by simp only [List.length_cons, List.length_nil]; omega),
      writeAt_set_comm _ _ _ _ _ (by simp only [List.length_cons, List.length_nil]; omega),
      write_ipc_packet.ret_zeroed]
  have htk : List.take (write_ipc_packet.pack_len heap kv)
      ((write_ipc_packet.assembled sig heap t kv).set i v ++ rest) =
      (write_ipc_packet.assembled sig heap t kv).set i v := by
    apply List.take_left'
    rw [List.length_set, hal]
  unfold BufferAvailable.decode
  simp only [h0, h8, h4, hz, htk, List.length_append, hfl, sizeof_simple_cap_proto_t]
  rw [if_neg (by omega), if_neg (by simp), if_neg (by omega)]
  rw [if_pos]
  rw [hv]
  exact Adler32Checksum_flip_ne _ i k (by omega) hk

theorem BufferAvailable.decode_flip_sig (sig : Nat) (heap past : Nat → Nat) (t : List Nat)
    (kv : KVmap) (rest : List Nat) (i k : Nat) (hsig : sig < 4294967296) (hk : k < 8)
    (hi : i < 4) :
    BufferAvailable.decode sig (flipBitAt (write_ipc_packet.ret sig heap t kv) i k ++ rest) past
      = Decoded.badSignature := by
  have hL := write_ipc_packet.pack_len_ge heap kv
  have hrl := write_ipc_packet.ret_length sig heap t kv
  have hp := two_pow_bounds k hk
  have hb : ∀ j, j < 4 → (write_ipc_packet.ret sig heap t kv)[j]? = (kis_hton32 sig)[j]? := by
    intro j hj
    have := write_ipc_packet.ret_sig sig heap t kv j hj
    rwa [Nat.zero_add] at this
  have hb0 := hb 0 (by omega)
  have hb1 := hb 1 (by omega)
  have hb2 := hb 2 (by omega)
  have hb3 := hb 3 (by omega)
  simp only [kis_hton32, List.getElem?_cons_zero, List.getElem?_cons_succ] at hb0 hb1 hb2 hb3
  have hn := kis_ntoh32_hton32 sig hsig
  unfold kis_ntoh32 at hn
  have hne : readU32 (peekAt (flipBitAt (write_ipc_packet.ret sig heap t kv) i k ++ rest) past) 0
      ≠ sig := by
    unfold flipBitAt readU32 kis_ntoh32
    interval_cases i
    · rw [getD_of_getElem? hb0]
      have e0 : ((write_ipc_packet.ret sig heap t kv).set 0
          (flipBit (sig / 16777216 % 256) k) ++ rest)[0]? =
          some (flipBit (sig / 16777216 % 256) k) := by
        rw [List.getElem?_append_left (by rw [List.length_set]; omega), List.getElem?_set,
          if_pos rfl, if_pos (by omega)]
      have e1 : ((write_ipc_packet.ret sig heap t kv).set 0
          (flipBit (sig / 16777216 % 256) k) ++ rest)[0 + 1]? = some (sig / 65536 % 256) := by
        rw [List.getElem?_append_left (by rw [List.length_set]; omega),
          List.getElem?_set_ne (by omega)]; exact hb1
      have e2 : ((write_ipc_packet.ret sig heap t kv).set 0
          (flipBit (sig / 16777216 % 256) k) ++ rest)[0 + 2]? = some (sig / 256 % 256) := by
        rw [List.getElem?_append_left (by rw [List.length_set]; omega),
          List.getElem?_set_ne (by omega)]; exact hb2
      have e3 : ((write_ipc_packet.ret sig heap t kv).set 0
          (flipBit (sig / 16777216 % 256) k) ++ rest)[0 + 3]? = some (sig % 256) := by
        rw [List.getElem?_append_left (by rw [List.length_set]; omega),
          List.getElem?_set_ne (by omega)]; exact hb3
      rw [peekAt_of_getElem? e0, peekAt_of_getElem? e1, peekAt_of_getElem? e2,
        peekAt_of_getElem? e3]
      rcases flipBit_cases (sig / 16777216 % 256) k with hc | hc <;> omega
    · rw [getD_of_getElem? hb1]
      have e0 : ((write_ipc_packet.ret sig heap t kv).set 1
          (flipBit (sig / 65536 % 256) k) ++ rest)[0]? = some (sig / 16777216 % 256) := by
        rw [List.getElem?_append_left (by rw [List.length_set]; omega),
          List.getElem?_set_ne (by omega)]; exact hb0
      have e1 : ((write_ipc_packet.ret sig heap t kv).set 1
          (flipBit (sig / 65536 % 256) k) ++ rest)[0 + 1]? =
          some (flipBit (sig / 65536 % 256) k) := by
        rw [List.getElem?_append_left (by rw [List.length_set]; omega), List.getElem?_set,
          if_pos rfl, if_pos (by omega)]
      have e2 : ((write_ipc_packet.ret sig heap t kv).set 1
          (flipBit (sig / 65536 % 256) k) ++ rest)[0 + 2]? = some (sig / 256 % 256) := by
        rw [List.getElem?_append_left (by rw [List.length_set]; omega),
          List.getElem?_set_ne (by omega)]; exact hb2
      have e3 : ((write_ipc_packet.ret sig heap t kv).set 1
          (flipBit (sig / 65536 % 256) k) ++ rest)[0 + 3]? = some (sig % 256) := by
        rw [List.getElem?_append_left (by rw [List.length_set]; omega),
          List.getElem?_set_ne (by omega)]; exact hb3
      rw [peekAt_of_getElem? e0, peekAt_of_getElem? e1, peekAt_of_getElem? e2,
        peekAt_of_getElem? e3]
      rcases flipBit_cases (sig / 65536 % 256) k with hc | hc <;> omega
    · rw [getD_of_getElem? hb2]
      have e0 : ((write_ipc_packet.ret sig heap t kv).set 2
          (flipBit (sig / 256 % 256) k) ++ rest)[0]? = some (sig / 16777216 % 256) := by
        rw [List.getElem?_append_left (by rw [List.length_set]; omega),
          List.getElem?_set_ne (by omega)]; exact hb0
      have e1 : ((write_ipc_packet.ret sig heap t kv).set 2
          (flipBit (sig / 256 % 256) k) ++ rest)[0 + 1]? = some (sig / 65536 % 256) := by
        rw [List.getElem?_append_left (by rw [List.length_set]; omega),
          List.getElem?_set_ne (by omega)]; exact hb1
      have e2 : ((write_ipc_packet.ret sig heap t kv).set 2
          (flipBit (sig / 256 % 256) k) ++ rest)[0 + 2]? =
          some (flipBit (sig / 256 % 256) k) := by
        rw [List.getElem?_append_left (by rw [List.length_set]; omega), List.getElem?_set,
          if_pos rfl, if_pos (by omega)]
      have e3 : ((write_ipc_packet.ret sig heap t kv).set 2
          (flipBit (sig / 256 % 256) k) ++ rest)[0 + 3]? = some (sig % 256) := by
        rw [List.getElem?_append_left (by rw [List.length_set]; omega),
          List.getElem?_set_ne (by omega)]; exact hb3
      rw [peekAt_of_getElem? e0, peekAt_of_getElem? e1, peekAt_of_getElem? e2,
        peekAt_of_getElem? e3]
      rcases flipBit_cases (sig / 256 % 256) k with hc | hc <;> omega
    · rw [getD_of_getElem? hb3]
      have e0 : ((write_ipc_packet.ret sig heap t kv).set 3
          (flipBit (sig % 256) k) ++ rest)[0]? = some (sig / 16777216 % 256) := by
        rw [List.getElem?_append_left (by rw [List.length_set]; omega),
          List.getElem?_set_ne (by omega)]; exact hb0
      have e1 : ((write_ipc_packet.ret sig heap t kv).set 3
          (flipBit (sig % 256) k) ++ rest)[0 + 1]? = some (sig / 65536 % 256) := by
        rw [List.getElem?_append_left (by rw [List.length_set]; omega),
          List.getElem?_set_ne (by omega)]; exact hb1
      have e2 : ((write_ipc_packet.ret sig heap t kv).set 3
          (flipBit (sig % 256) k) ++ rest)[0 + 2]? = some (sig / 256 % 256) := by
        rw [List.getElem?_append_left (by rw [List.length_set]; omega),
          List.getElem?_set_ne (by omega)]; exact hb2
      have e3 : ((write_ipc_packet.ret sig heap t kv).set 3
          (flipBit (sig % 256) k) ++ rest)[0 + 3]? = some (flipBit (sig % 256) k) := by
        rw [List.getElem?_append_left (by rw [List.length_set]; omega), List.getElem?_set,
          if_pos rfl, if_pos (by omega)]
      rw [peekAt_of_getElem? e0, peekAt_of_getElem? e1, peekAt_of_getElem? e2,
        peekAt_of_getElem? e3]
      rcases flipBit_cases (sig % 256) k with hc | hc <;> omega
  have hlen : (flipBitAt (write_ipc_packet.ret sig heap t kv) i k ++ rest).length =
      write_ipc_packet.pack_len heap kv + rest.length := by
    unfold flipBitAt
    rw [List.length_append, List.length_set, hrl]
  unfold BufferAvailable.decode
  simp only [sizeof_simple_cap_proto_t, hlen]
  rw [if_neg (by omega), if_pos hne]

/-- C2, counterexample: the 32-byte frame that `write_ipc_packet` builds for the
type `KISMETDATASOURC` and an empty map, followed in the read buffer by a
valid `DATA` frame of 512 bytes. With bit 1 of the byte at offset 10 (in the
size field) flipped, the first frame declares 544 bytes, the Adler-32 of
those 544 bytes equals the stored checksum, and the decoder dispatches the
altered frame and consumes both frames. Unaltered, the first frame is
decoded alone. -/
theorem C2_counterexample :
    BufferAvailable.decode 3737844653
      (flipBitAt (write_ipc_packet.ret 3737844653 (fun _ => 170) (bytes "KISMETDATASOURC") [])
          10 1
        ++ specFrame 3737844653 (bytes "DATA") [(bytes "packet", exampleStreamPayload)])
      (fun _ => 0) = Decoded.frame 544 (bytes "KISMETDATASOURC") []
    ∧ BufferAvailable.decode 3737844653
      (write_ipc_packet.ret 3737844653 (fun _ => 170) (bytes "KISMETDATASOURC") []
        ++ specFrame 3737844653 (bytes "DATA") [(bytes "packet", exampleStreamPayload)])
      (fun _ => 0) = Decoded.frame 32 (bytes "KISMETDATASOURC") [] := by
  constructor
  · decide!
  · decide!

/-- C2, as the code has it: in a frame built by `write_ipc_packet`, a flipped
bit outside the checksum field and the size field (byte offsets 4 to 11)
keeps the frame from being dispatched, whatever follows it in the buffer: a
bit of the signature (offsets 0 to 3) makes the signature check fail, a bit at
offset 12 or beyond makes the checksum check fail. -/
theorem C2_bit_flip_is_rejected (sig : Nat) (heap past : Nat → Nat) (t : List Nat)
    (kv : KVmap) (rest : List Nat) (i k : Nat) (hsig : sig < 4294967296)
    (hlen : 32 + (kv.map (fun e => 20 + e.2.size)).sum < 4294967296) (hk : k < 8)
    (hi : i < (write_ipc_packet.ret sig heap t kv).length) (hout : i < 4 ∨ 12 ≤ i) :
    BufferAvailable.decode sig (flipBitAt (write_ipc_packet.ret sig heap t kv) i k ++ rest) past
      = if i < 4 then Decoded.badSignature else Decoded.badChecksum := by
  have hLe := write_ipc_packet.pack_len_eq heap kv
  have hrl := write_ipc_packet.ret_length sig heap t kv
  by_cases h4 : i < 4
  · rw [if_pos h4]
    exact BufferAvailable.decode_flip_sig sig heap past t kv rest i k hsig hk h4
  · rw [if_neg h4]
    exact BufferAvailable.decode_flip_body sig heap past t kv rest i k hsig
      (by rw [hLe]; exact hlen) hk (by rw [← hrl]; exact hi) (by omega)

/-- Witness of C2: bit 3 of the byte at offset 20 of the `OPENDEVICE` frame. -/
theorem C2_bit_flip_is_rejected_witness :
    BufferAvailable.decode 3737844653
      (flipBitAt (write_ipc_packet.ret 3737844653 (fun _ => 170) (bytes "OPENDEVICE")
        [(bytes "DEFINITION", { key := bytes "DEFINITION", size := 1, object := [120] })])
        20 3 ++ [])
      (fun _ => 0) = if 20 < 4 then Decoded.badSignature else Decoded.badChecksum :=
  C2_bit_flip_is_rejected 3737844653 (fun _ => 170) (fun _ => 0) (bytes "OPENDEVICE")
    [(bytes "DEFINITION", { key := bytes "DEFINITION", size := 1, object := [120] })]
    [] 20 3 (by decide) (by decide) (by decide) (by decide!) (by decide)

/-! ## Claims on the probe and open callbacks -/

/-- C11 (the code departs from it): `probe_source` is called with callback 1 and
again with callback 2, then the child answers with a `PROBERESP`, `success` = 1.
`probe_source` stores no callback: after the first call none is installed, the
second call fails nothing out and installs nothing, and the answer reaches
neither callback. Had callback 1 been installed, the second call would fail it
out and leave it installed, so the answer would go to callback 1 and not to
callback 2. `open_source` does what the claim says: callback 1 is failed out,
callback 2 is installed and gets the answer. -/
theorem C11_probe_source_installs_nothing :
    exampleProbed.probe_callback = none
    ∧ probe_completions 1
        (exampleProbed.probe_source exampleEnv (bytes "wlan0") (some 2) (some 20)).2.trace = 0
    ∧ (exampleProbed.probe_source exampleEnv (bytes "wlan0") (some 2) (some 20)).2.probe_callback
        = none
    ∧ probe_completions 2
        (((exampleProbed.probe_source exampleEnv (bytes "wlan0") (some 2) (some 20)).2).receive
          exampleEnv (exampleProbeResp 1)).trace = 0
    ∧ (({ exampleProbed with probe_callback := some 1, probe_aux := some 10 } :
          KisDataSource).probe_source exampleEnv (bytes "wlan0") (some 2) (some 20)).2.probe_callback
        = some 1
    ∧ probe_completions 1
        ((({ exampleProbed with probe_callback := some 1, probe_aux := some 10 } :
          KisDataSource).probe_source exampleEnv (bytes "wlan0") (some 2) (some 20)).2.receive
          exampleEnv (exampleProbeResp 1)).trace = 2
    ∧ probe_completions 2
        ((({ exampleProbed with probe_callback := some 1, probe_aux := some 10 } :
          KisDataSource).probe_source exampleEnv (bytes "wlan0") (some 2) (some 20)).2.receive
          exampleEnv (exampleProbeResp 1)).trace = 0
    ∧ (exampleOpened.open_source exampleEnv (bytes "wlan0") (some 8) (some 2)).2.open_callback
        = some 8
    ∧ ((exampleOpened.open_source exampleEnv (bytes "wlan0") (some 8) (some 2)).2.receive
          exampleEnv exampleOpenResp).trace =
        exampleOpened.trace ++
          [Event.open_callback 7 (some 2) false, Event.msg_info, Event.soft_kill,
           Event.launch_kis_binary (bytes "kismet_cap"),
           Event.open_callback 8 (some 2) true] := by
  refine ⟨by decide!, by decide!, by decide!, by decide!, by decide!, by decide!, by decide!,
    by decide!, by decide!⟩

/-- C12 (the code departs from it): after `probe_source("wlan0", 1, 10)` with a
launch that succeeds, no probe callback is installed; a `PROBERESP` frame with
`success` = 1, or with `success` = 0, calls no callback at all: the only thing
traced is `close_ipc`. -/
theorem C12_probe_response_reaches_no_callback :
    exampleProbed.source_running = true
    ∧ exampleProbed.probe_callback = none
    ∧ (exampleProbed.receive exampleEnv (exampleProbeResp 1)).trace =
        exampleProbed.trace ++ [Event.close_ipc]
    ∧ probe_completions 1 (exampleProbed.receive exampleEnv (exampleProbeResp 1)).trace = 0
    ∧ (exampleProbed.receive exampleEnv (exampleProbeResp 0)).trace =
        exampleProbed.trace ++ [Event.close_ipc]
    ∧ probe_completions 1 (exampleProbed.receive exampleEnv (exampleProbeResp 0)).trace = 0 := by
  refine ⟨by decide!, by decide!, by decide!, by decide!, by decide!, by decide!⟩

/-! ## Claims on the command queue and on `close_source` -/

/-- C13, counterexample: `probe_source` has launched the child (PID 4242); no
frame has arrived, nothing was written and nothing is queued.
`set_channel("6HT40")` then submits a `CONFIGURE` command: it is in the write
buffer at once, before any status frame, and the pending queue stays empty. -/
theorem C13_counterexample :
    exampleProbed.read_buffer = []
    ∧ exampleProbed.write_buffer = []
    ∧ exampleProbed.pending_commands = []
    ∧ exampleProbed.source_ipc = some { pid := 4242, closed := false, killed := false }
    ∧ (exampleProbed.set_channel exampleEnv (bytes "6HT40")).pending_commands = []
    ∧ (exampleProbed.set_channel exampleEnv (bytes "6HT40")).write_buffer =
        write_ipc_packet.ret exampleEnv.sig exampleEnv.heap (bytes "CONFIGURE")
          [(bytes "CHANSET",
            { key := bytes "CHANSET", size := 5, object := bytes "6HT40" })] := by
  refine ⟨by decide!, by decide!, by decide!, by decide!, by decide!, by decide!⟩

/-- C13, as amended: a command submitted while the IPC reports a PID above 0
is written at once to the end of the write buffer, whether or not a status
frame has been seen, provided the buffer takes the whole frame; a command
submitted while there is no IPC, or the IPC reports no PID, or whose frame the
buffer does not take, is put at the end of the pending queue. Either way the
order of submission is kept. -/
theorem C13_commands_written_when_child_runs (env : Env) (s : KisDataSource)
    (in_cmd : List Nat) (in_kvpairs : KVmap) :
    (∀ ipc h, s.source_ipc = some ipc → s.ipchandler = some h → ipc.pid > 0 →
      h.wbuf.length + (write_ipc_packet.ret env.sig env.heap in_cmd in_kvpairs).length
        ≤ h.wsize →
      s.queue_ipc_command env in_cmd in_kvpairs =
        (true, { s with ipchandler := some { h with
          wbuf := h.wbuf ++ write_ipc_packet.ret env.sig env.heap in_cmd in_kvpairs } }))
    ∧ (∀ ipc h, s.source_ipc = some ipc → s.ipchandler = some h → ipc.pid > 0 →
      ¬ h.wbuf.length + (write_ipc_packet.ret env.sig env.heap in_cmd in_kvpairs).length
        ≤ h.wsize →
      s.queue_ipc_command env in_cmd in_kvpairs =
        (true, { s with pending_commands := s.pending_commands ++
          [{ command := in_cmd, kv := in_kvpairs, insert_time := env.now }] }))
    ∧ ((s.source_ipc = none ∨ ∃ ipc, s.source_ipc = some ipc ∧ ipc.pid ≤ 0) →
      s.queue_ipc_command env in_cmd in_kvpairs =
        (true, { s with pending_commands := s.pending_commands ++
          [{ command := in_cmd, kv := in_kvpairs, insert_time := env.now }] })) := by
  have hrl := write_ipc_packet.ret_length env.sig env.heap in_cmd in_kvpairs
  have hL := write_ipc_packet.pack_len_ge env.heap in_kvpairs
  refine ⟨?_, ?_, ?_⟩
  · intro ipc h hipc hh hpid hfit
    rw [hrl] at hfit
    unfold KisDataSource.queue_ipc_command KisDataSource.write_ipc_packet
      RingbufferHandler.PutWriteBufferData
    simp only [hipc, hh, if_pos hpid, hrl, if_pos hfit, beq_self_eq_true, if_true]
  · intro ipc h hipc hh hpid hnofit
    rw [hrl] at hnofit
    unfold KisDataSource.queue_ipc_command KisDataSource.write_ipc_packet
      RingbufferHandler.PutWriteBufferData
    have hne : (0 == write_ipc_packet.pack_len env.heap in_kvpairs) = false := by
      simp only [beq_eq_false_iff_ne, ne_eq]; omega
    simp only [hipc, hh, if_pos hpid, hrl, if_neg hnofit, hne, Bool.false_eq_true, if_false]
  · intro hno
    unfold KisDataSource.queue_ipc_command
    rcases hno with hnone | ⟨ipc, hipc, hpid⟩
    · simp only [hnone, Bool.false_eq_true, if_false]
    · have hnp : ¬ ipc.pid > 0 := by omega
      simp only [hipc, if_neg hnp, Bool.false_eq_true, if_false]

/-- Witness of C13: a `CONFIGURE` command submitted on the probed source, whose
child runs with PID 4242 and whose write buffer is empty. -/
theorem C13_commands_written_when_child_runs_witness :
    exampleProbed.queue_ipc_command exampleEnv (bytes "CONFIGURE")
        [(bytes "CHANSET", { key := bytes "CHANSET", size := 1, object := bytes "6" })] =
      (true, { exampleProbed with ipchandler := some { exampleProbedHandler with
        wbuf := exampleProbedHandler.wbuf ++
          write_ipc_packet.ret exampleEnv.sig exampleEnv.heap (bytes "CONFIGURE")
            [(bytes "CHANSET", { key := bytes "CHANSET", size := 1, object := bytes "6" })] } }) :=
  (C13_commands_written_when_child_runs exampleEnv exampleProbed (bytes "CONFIGURE")
    [(bytes "CHANSET", { key := bytes "CHANSET", size := 1, object := bytes "6" })]).1
    { pid := 4242, closed := false, killed := false } exampleProbedHandler
    (by decide!) (by decide!) (by decide) (by decide!)

/-- C14, counterexample: the opened source has callback 7 installed;
`close_source` calls no callback, the trace gains `close_ipc` and `soft_kill`
only. -/
theorem C14_counterexample :
    exampleOpened.open_callback = some 7
    ∧ exampleOpened.close_source.trace =
        exampleOpened.trace ++ [Event.close_ipc, Event.soft_kill]
    ∧ open_completions 7 exampleOpened.close_source.trace = 0 := by
  refine ⟨by decide!, by decide!, by decide!⟩

/-- C14, as the code has it: `close_source` removes a pending probe callback
and a pending open callback without calling them (the trace gains no callback
event, only `close_ipc` and `soft_kill` when an IPC exists); afterwards no
probe and no open callback is installed, the source is not running and its
child PID is -1; the error callback stays as it was. -/
theorem C14_close_source_drops_callbacks (s : KisDataSource) :
    s.close_source.trace =
        s.trace ++ (match s.source_ipc with
          | some _ => [Event.close_ipc, Event.soft_kill]
          | none => [])
    ∧ s.close_source.probe_callback = none
    ∧ s.close_source.probe_aux = none
    ∧ s.close_source.open_callback = none
    ∧ s.close_source.open_aux = none
    ∧ s.close_source.source_running = false
    ∧ s.close_source.child_pid = -1
    ∧ s.close_source.error_callback = s.error_callback := by
  unfold KisDataSource.close_source
  cases hipc : s.source_ipc <;>
    simp [KisDataSource.cancel_open_source, KisDataSource.cancel_probe_source, hipc,
      KisDataSource.ipc_close_ipc, KisDataSource.ipc_soft_kill, KisDataSource.emit]

/-! ## Claims on transport errors, failed launches and unknown frames -/

/-- C15 (the code departs from it): `BufferError` on the opened source, which
has the open callback 7 and no probe callback: the branch for the open
callback calls through `probe_callback`, which is `NULL`; callback 7 is not
called. With a probe callback 3 installed as well, callback 3 is called twice
and callback 7 not at all. -/
theorem C15_buffer_error_calls_probe_callback :
    exampleOpened.open_callback = some 7
    ∧ exampleOpened.probe_callback = none
    ∧ (exampleOpened.BufferError []).trace =
        exampleOpened.trace ++ [Event.msg_error, Event.null_deref]
    ∧ open_completions 7 (exampleOpened.BufferError []).trace = 0
    ∧ (({ exampleOpened with probe_callback := some 3, probe_aux := some 30 } :
          KisDataSource).BufferError []).trace =
        exampleOpened.trace ++
          [Event.msg_error, Event.probe_callback 3 (some 30) false,
           Event.probe_callback 3 (some 30) false, Event.soft_kill]
    ∧ probe_completions 3
        (({ exampleOpened with probe_callback := some 3, probe_aux := some 30 } :
          KisDataSource).BufferError []).trace = 2
    ∧ open_completions 7
        (({ exampleOpened with probe_callback := some 3, probe_aux := some 30 } :
          KisDataSource).BufferError []).trace = 0 := by
  refine ⟨by decide!, by decide!, by decide!, by decide!, by decide!, by decide!, by decide!⟩

/-- C16 (the code departs from it): a new source with the error callback 9
registered. When the launch fails, `open_source("wlan0", 1, 10)` calls
callback 1 with failure and leaves the source not running, and the error
callback is called twice: once by `spawn_ipc` and once more by `open_source`.
The same holds for `probe_source`, and for a source without an IPC binary. -/
theorem C16_error_callback_fired_twice :
    (((KisDataSource.new (bytes "kismet_cap")).set_error_handler (some 9) (some 90)).open_source
        exampleEnvNoLaunch (bytes "wlan0") (some 1) (some 10)).2.trace =
      [Event.launch_kis_binary (bytes "kismet_cap"), Event.msg_error,
       Event.error_callback 9 (some 90), Event.open_callback 1 (some 10) false,
       Event.error_callback 9 (some 90)]
    ∧ error_calls
        (((KisDataSource.new (bytes "kismet_cap")).set_error_handler (some 9) (some 90)).open_source
          exampleEnvNoLaunch (bytes "wlan0") (some 1) (some 10)).2.trace = 2
    ∧ (((KisDataSource.new (bytes "kismet_cap")).set_error_handler (some 9) (some 90)).open_source
        exampleEnvNoLaunch (bytes "wlan0") (some 1) (some 10)).2.source_running = false
    ∧ (((KisDataSource.new (bytes "kismet_cap")).set_error_handler (some 9) (some 90)).probe_source
        exampleEnvNoLaunch (bytes "wlan0") (some 1) (some 10)).2.trace =
      [Event.launch_kis_binary (bytes "kismet_cap"), Event.msg_error,
       Event.error_callback 9 (some 90), Event.probe_callback 1 (some 10) false,
       Event.error_callback 9 (some 90)]
    ∧ (((KisDataSource.new []).set_error_handler (some 9) (some 90)).open_source
        exampleEnv (bytes "wlan0") (some 1) (some 10)).2.trace =
      [Event.msg_error, Event.error_callback 9 (some 90),
       Event.open_callback 1 (some 10) false, Event.error_callback 9 (some 90)] := by
  refine ⟨by decide!, by decide!, by decide!, by decide!, by decide!⟩

/-- C17, counterexample: the opened source receives a valid frame of the type
`BOGUS`; the frame is consumed and the IPC-error counter stays 0. -/
theorem C17_counterexample :
    (exampleOpened.receive exampleEnv (specFrame 3737844653 (bytes "BOGUS") [])).ipc_errors = 0
    ∧ (exampleOpened.receive exampleEnv (specFrame 3737844653 (bytes "BOGUS") [])).read_buffer
        = []
    ∧ (exampleOpened.handle_packet exampleEnv (bytes "BOGUS") []).ipc_errors =
        exampleOpened.ipc_errors := by
  refine ⟨by decide!, by decide!, by decide!⟩

/-- C17, as the code has it: `handle_packet` passes over a frame whose
lower-cased type is none of `status`, `proberesp`, `openresp`, `error`,
`message` and `data`: the source is left exactly as it was, and the IPC-error
counter is not touched. -/
theorem C17_unknown_type_is_passed_over (env : Env) (s : KisDataSource) (in_type : List Nat)
    (in_kvmap : KVmap)
    (h1 : StrLower in_type ≠ bytes "status") (h2 : StrLower in_type ≠ bytes "proberesp")
    (h3 : StrLower in_type ≠ bytes "openresp") (h4 : StrLower in_type ≠ bytes "error")
    (h5 : StrLower in_type ≠ bytes "message") (h6 : StrLower in_type ≠ bytes "data") :
    s.handle_packet env in_type in_kvmap = s
    ∧ (s.handle_packet env in_type in_kvmap).ipc_errors = s.ipc_errors := by
  have h : s.handle_packet env in_type in_kvmap = s := by
    unfold KisDataSource.handle_packet
    simp only [if_neg h1, if_neg h2, if_neg h3, if_neg h4, if_neg h5, if_neg h6]
  exact ⟨h, by rw [h]⟩

/-- Witness of C17: the type `BOGUS` on the opened source. -/
theorem C17_unknown_type_is_passed_over_witness :
    exampleOpened.handle_packet exampleEnv (bytes "BOGUS") [] = exampleOpened
    ∧ (exampleOpened.handle_packet exampleEnv (bytes "BOGUS") []).ipc_errors =
        exampleOpened.ipc_errors :=
  C17_unknown_type_is_passed_over exampleEnv exampleOpened (bytes "BOGUS") []
    (by decide) (by decide) (by decide) (by decide) (by decide) (by decide)

/-! ## Payload decoders: what they leave alone -/

namespace KisDataSource

theorem handle_kv_message_frame (env : Env) (s : KisDataSource)
    (obj : KisDataSource_CapKeyedObject) :
    ∃ tr n, (s.handle_kv_message env obj).2 = { s with trace := tr, ipc_errors := n } := by
  unfold handle_kv_message
  simp only
  split
  · exact ⟨_, s.ipc_errors, rfl⟩
  · exact ⟨_, _, rfl⟩

theorem handle_message_kv_frame (env : Env) (s : KisDataSource) (kv : KVmap) :
    ∃ tr n, s.handle_message_kv env kv = { s with trace := tr, ipc_errors := n } := by
  unfold handle_message_kv
  split
  · exact handle_kv_message_frame env s _
  · exact ⟨s.trace, s.ipc_errors, rfl⟩

theorem handle_message_kv_absent (env : Env) (s : KisDataSource) (kv : KVmap)
    (h : KVmap.find kv (bytes "message") = none) : s.handle_message_kv env kv = s := by
  unfold handle_message_kv
  rw [h]

theorem handle_kv_signal_frame (env : Env) (s : KisDataSource)
    (obj : KisDataSource_CapKeyedObject) :
    ∃ tr n, (s.handle_kv_signal env obj).2 = { s with trace := tr, ipc_errors := n } := by
  unfold handle_kv_signal
  simp only
  split
  · exact ⟨s.trace, s.ipc_errors, rfl⟩
  · exact ⟨_, _, rfl⟩

theorem handle_kv_gps_frame (env : Env) (s : KisDataSource)
    (obj : KisDataSource_CapKeyedObject) :
    ∃ tr n, (s.handle_kv_gps env obj).2 = { s with trace := tr, ipc_errors := n } := by
  unfold handle_kv_gps
  simp only
  split
  · exact ⟨s.trace, s.ipc_errors, rfl⟩
  · exact ⟨_, _, rfl⟩

theorem handle_kv_packet_rejects (env : Env) (s : KisDataSource)
    (obj : KisDataSource_CapKeyedObject) (dict : MsgpackStrMap)
    (hd : env.unpack obj.object = some dict)
    (hbad : MsgpackStrMap.find dict (bytes "tv_sec") = none
      ∨ MsgpackStrMap.find dict (bytes "tv_usec") = none
      ∨ MsgpackStrMap.find dict (bytes "dlt") = none
      ∨ MsgpackStrMap.find dict (bytes "size") = none
      ∨ MsgpackStrMap.find dict (bytes "packet") = none
      ∨ (∃ szobj n raw, MsgpackStrMap.find dict (bytes "size") = some szobj
          ∧ szobj.as_uint64 = some n
          ∧ MsgpackStrMap.find dict (bytes "packet") = some raw
          ∧ (raw.via_bin env.junk_bin).length ≠ n)) :
    s.handle_kv_packet env obj = (none, s.unpack_failed.emit Event.DestroyPacket) := by
  unfold handle_kv_packet
  simp only
  split
  · rename_i packet hr
    exfalso
    simp only [hd, Option.bind_eq_bind, Option.some_bind, Option.bind_eq_some] at hr
    obtain ⟨o1, h1, a1, c1, o2, h2, a2, c2, o3, h3, a3, c3, o4, h4, a4, c4, raw, h5, hif⟩ := hr
    rcases hbad with hb | hb | hb | hb | hb | ⟨szobj, n, raw', hs, hn, hp, hne⟩
    · rw [hb] at h1; cases h1
    · rw [hb] at h2; cases h2
    · rw [hb] at h3; cases h3
    · rw [hb] at h4; cases h4
    · rw [hb] at h5; cases h5
    · rw [hs] at h4; cases h4
      rw [hn] at c4; cases c4
      rw [hp] at h5; cases h5
      simp [hne] at hif
  · rfl

theorem handle_kv_packet_accepts (env : Env) (s : KisDataSource)
    (obj : KisDataSource_CapKeyedObject) (dict : MsgpackStrMap)
    (o1 o2 o3 o4 raw : MsgpackObject) (tv_sec tv_usec dlt size : Nat)
    (hd : env.unpack obj.object = some dict)
    (h1 : MsgpackStrMap.find dict (bytes "tv_sec") = some o1) (c1 : o1.as_uint64 = some tv_sec)
    (h2 : MsgpackStrMap.find dict (bytes "tv_usec") = some o2)
    (c2 : o2.as_uint64 = some tv_usec)
    (h3 : MsgpackStrMap.find dict (bytes "dlt") = some o3) (c3 : o3.as_uint64 = some dlt)
    (h4 : MsgpackStrMap.find dict (bytes "size") = some o4) (c4 : o4.as_uint64 = some size)
    (h5 : MsgpackStrMap.find dict (bytes "packet") = some raw)
    (hlen : (raw.via_bin env.junk_bin).length = size) :
    s.handle_kv_packet env obj =
      (some { tv_sec := tv_sec, tv_usec := tv_usec
              linkframe := some { dlt := dlt, data := raw.via_bin env.junk_bin }
              l1info := none, gps := none }, s) := by
  unfold handle_kv_packet
  simp [hd, h1, c1, h2, c2, h3, c3, h4, c4, h5, hlen]

end KisDataSource

/-! ## Claims on the payloads of a data frame -/

theorem KisDataSource.handle_kv_message_errors (env : Env) (s : KisDataSource)
    (obj : KisDataSource_CapKeyedObject) :
    ((s.handle_kv_message env obj).1 = true →
      (s.handle_kv_message env obj).2.ipc_errors = s.ipc_errors)
    ∧ ((s.handle_kv_message env obj).1 = false →
      (s.handle_kv_message env obj).2.ipc_errors = s.ipc_errors + 1) := by
  unfold KisDataSource.handle_kv_message
  simp only
  split
  · exact ⟨fun _ => rfl, fun h => by cases h⟩
  · exact ⟨fun h => (by cases h), fun _ => rfl⟩

/-- C18, counterexample: a valid `DATA` frame with a `message` record and a
`packet` record reaches the probed source; the `message` payload does not
decode (its map has no `msg`) and the `packet` payload lacks `tv_sec`. No
packet is submitted and the report count stays 0, but the IPC-error counter
rises from 0 to 2: one for each payload. -/
theorem C18_counterexample :
    exampleProbed.ipc_errors = 0
    ∧ (exampleProbed.receive (exampleEnvDict examplePacketDictNoTvSec)
        exampleDataFrame).ipc_errors = 2
    ∧ (exampleProbed.receive (exampleEnvDict examplePacketDictNoTvSec)
        exampleDataFrame).trace =
        exampleProbed.trace ++ [Event.msg_error, Event.msg_error, Event.DestroyPacket]
    ∧ (exampleProbed.receive (exampleEnvDict examplePacketDictNoTvSec)
        exampleDataFrame).num_reports = 0 := by
  refine ⟨by decide!, by decide!, by decide!, by decide!⟩

/-- C18, as amended: a data frame whose `packet` record unpacks to a map. If
the map lacks one of `tv_sec`, `tv_usec`, `dlt`, `size`, `packet`, or `size`
is not the length of the packet bytes, handling the frame submits no packet
(the trace gains the error message and `DestroyPacket` only, behind what the
`message` record of the frame traced), the packet payload adds exactly one to
the IPC-error counter on top of what the `message` record did, so that the
counter rises by one when the frame has no `message` record or one that
decodes, and by two when its `message` record fails to decode as well; the
report count, the IPC, the buffers, the running flag and the child PID stay
as they were. If the five fields are there and fit, the packet is submitted
whatever else the map holds. -/
theorem C18_bad_packet_payload_counts_one_error (env : Env) (s : KisDataSource) (kv : KVmap)
    (obj : KisDataSource_CapKeyedObject) (dict : MsgpackStrMap)
    (hp : KVmap.find kv (bytes "packet") = some obj)
    (hd : env.unpack obj.object = some dict) :
    ((MsgpackStrMap.find dict (bytes "tv_sec") = none
      ∨ MsgpackStrMap.find dict (bytes "tv_usec") = none
      ∨ MsgpackStrMap.find dict (bytes "dlt") = none
      ∨ MsgpackStrMap.find dict (bytes "size") = none
      ∨ MsgpackStrMap.find dict (bytes "packet") = none
      ∨ (∃ szobj n raw, MsgpackStrMap.find dict (bytes "size") = some szobj
          ∧ szobj.as_uint64 = some n
          ∧ MsgpackStrMap.find dict (bytes "packet") = some raw
          ∧ (raw.via_bin env.junk_bin).length ≠ n)) →
      (s.handle_packet_data env kv).trace =
          (s.handle_message_kv env kv).trace ++ [Event.msg_error, Event.DestroyPacket]
      ∧ (s.handle_packet_data env kv).ipc_errors = (s.handle_message_kv env kv).ipc_errors + 1
      ∧ (KVmap.find kv (bytes "message") = none →
          (s.handle_packet_data env kv).ipc_errors = s.ipc_errors + 1
          ∧ (s.handle_packet_data env kv).trace =
              s.trace ++ [Event.msg_error, Event.DestroyPacket])
      ∧ (s.handle_packet_data env kv).num_reports = s.num_reports
      ∧ (s.handle_packet_data env kv).last_report_time = s.last_report_time
      ∧ (s.handle_packet_data env kv).source_ipc = s.source_ipc
      ∧ (s.handle_packet_data env kv).ipchandler = s.ipchandler
      ∧ (s.handle_packet_data env kv).source_running = s.source_running
      ∧ (s.handle_packet_data env kv).child_pid = s.child_pid
      ∧ ((s.handle_packet_data env kv).ipc_errors = s.ipc_errors + 1
          ∨ (s.handle_packet_data env kv).ipc_errors = s.ipc_errors + 2)
      ∧ (∀ mobj, KVmap.find kv (bytes "message") = some mobj →
          ((s.handle_kv_message env mobj).1 = true →
            (s.handle_packet_data env kv).ipc_errors = s.ipc_errors + 1)
          ∧ ((s.handle_kv_message env mobj).1 = false →
            (s.handle_packet_data env kv).ipc_errors = s.ipc_errors + 2)))
    ∧ (∀ (o1 o2 o3 o4 raw : MsgpackObject) (tv_sec tv_usec dlt size : Nat),
        MsgpackStrMap.find dict (bytes "tv_sec") = some o1 → o1.as_uint64 = some tv_sec →
        MsgpackStrMap.find dict (bytes "tv_usec") = some o2 → o2.as_uint64 = some tv_usec →
        MsgpackStrMap.find dict (bytes "dlt") = some o3 → o3.as_uint64 = some dlt →
        MsgpackStrMap.find dict (bytes "size") = some o4 → o4.as_uint64 = some size →
        MsgpackStrMap.find dict (bytes "packet") = some raw →
        (raw.via_bin env.junk_bin).length = size →
        ∃ tr packet, (s.handle_packet_data env kv).trace = tr ++ [Event.ProcessPacket packet]
          ∧ packet.tv_sec = tv_sec ∧ packet.tv_usec = tv_usec
          ∧ packet.linkframe = some { dlt := dlt, data := raw.via_bin env.junk_bin }
          ∧ (s.handle_packet_data env kv).num_reports = s.num_reports + 1) := by
  constructor
  · intro hbad
    have hr : s.handle_packet_data env kv =
        ((s.handle_message_kv env kv).unpack_failed).emit Event.DestroyPacket := by
      unfold KisDataSource.handle_packet_data
      simp only [hp, KisDataSource.handle_kv_packet_rejects env _ obj dict hd hbad]
    obtain ⟨tr, n, hf⟩ := KisDataSource.handle_message_kv_frame env s kv
    have herr : (s.handle_packet_data env kv).ipc_errors =
        (s.handle_message_kv env kv).ipc_errors + 1 := by
      rw [hr]
      simp [KisDataSource.unpack_failed, KisDataSource.emit, KisDataSource.inc_ipc_errors]
    have hmsg : ∀ mobj, KVmap.find kv (bytes "message") = some mobj →
        ((s.handle_kv_message env mobj).1 = true →
          (s.handle_packet_data env kv).ipc_errors = s.ipc_errors + 1)
        ∧ ((s.handle_kv_message env mobj).1 = false →
          (s.handle_packet_data env kv).ipc_errors = s.ipc_errors + 2) := by
      intro mobj hmo
      have hmk : s.handle_message_kv env kv = (s.handle_kv_message env mobj).2 := by
        unfold KisDataSource.handle_message_kv
        rw [hmo]
      obtain ⟨ht, hfl⟩ := KisDataSource.handle_kv_message_errors env s mobj
      constructor
      · intro h1
        rw [herr, hmk, ht h1]
      · intro h1
        rw [herr, hmk, hfl h1]
    refine ⟨?_, herr, ?_, ?_, ?_, ?_, ?_, ?_, ?_, ?_, hmsg⟩
    · rw [hr]
      simp [KisDataSource.unpack_failed, KisDataSource.emit, KisDataSource.inc_ipc_errors]
    · intro hm
      rw [hr, KisDataSource.handle_message_kv_absent env s kv hm]
      simp [KisDataSource.unpack_failed, KisDataSource.emit, KisDataSource.inc_ipc_errors]
    · rw [hr, hf]; rfl
    · rw [hr, hf]; rfl
    · rw [hr, hf]; rfl
    · rw [hr, hf]; rfl
    · rw [hr, hf]; rfl
    · rw [hr, hf]; rfl
    · cases hmo : KVmap.find kv (bytes "message") with
      | none =>
        left
        rw [herr, KisDataSource.handle_message_kv_absent env s kv hmo]
      | some mobj =>
        cases h1 : (s.handle_kv_message env mobj).1 with
        | true => exact Or.inl ((hmsg mobj hmo).1 h1)
        | false => exact Or.inr ((hmsg mobj hmo).2 h1)
  · intro o1 o2 o3 o4 raw tv_sec tv_usec dlt size h1 c1 h2 c2 h3 c3 h4 c4 h5 hlen
    have ha := KisDataSource.handle_kv_packet_accepts env (s.handle_message_kv env kv) obj dict
      o1 o2 o3 o4 raw tv_sec tv_usec dlt size hd h1 c1 h2 c2 h3 c3 h4 c4 h5 hlen
    obtain ⟨tr, n, hf⟩ := KisDataSource.handle_message_kv_frame env s kv
    unfold KisDataSource.handle_packet_data
    simp only [hp, ha]
    cases hsig : KVmap.find kv (bytes "signal") with
    | none =>
      cases hgps : KVmap.find kv (bytes "gps") with
      | none =>
        refine ⟨_, _, rfl, rfl, rfl, rfl, ?_⟩
        simp only [KisDataSource.emit]
        rw [hf]
      | some og =>
        simp only
        obtain ⟨tr2, n2, hf2⟩ := KisDataSource.handle_kv_gps_frame env
          (s.handle_message_kv env kv) og
        rcases hg : KisDataSource.handle_kv_gps env (s.handle_message_kv env kv) og with ⟨g, s2⟩
        rw [hg] at hf2
        simp only at hf2
        cases g <;>
        · refine ⟨_, _, rfl, rfl, rfl, rfl, ?_⟩
          simp only [KisDataSource.emit]
          rw [hf2, hf]
    | some os =>
      cases hgps : KVmap.find kv (bytes "gps") with
      | none =>
        simp only
        obtain ⟨tr1, n1, hf1⟩ := KisDataSource.handle_kv_signal_frame env
          (s.handle_message_kv env kv) os
        rcases hs : KisDataSource.handle_kv_signal env (s.handle_message_kv env kv) os
          with ⟨si, s1⟩
        rw [hs] at hf1
        simp only at hf1
        cases si <;>
        · refine ⟨_, _, rfl, rfl, rfl, rfl, ?_⟩
          simp only [KisDataSource.emit]
          rw [hf1, hf]
      | some og =>
        simp only
        obtain ⟨tr1, n1, hf1⟩ := KisDataSource.handle_kv_signal_frame env
          (s.handle_message_kv env kv) os
        rcases hs : KisDataSource.handle_kv_signal env (s.handle_message_kv env kv) os
          with ⟨si, s1⟩
        rw [hs] at hf1
        simp only at hf1 ⊢
        obtain ⟨tr2, n2, hf2⟩ := KisDataSource.handle_kv_gps_frame env s1 og
        rcases hg : KisDataSource.handle_kv_gps env s1 og with ⟨g, s2⟩
        rw [hg] at hf2
        simp only at hf2
        cases si <;> cases g <;>
        · refine ⟨_, _, rfl, rfl, rfl, rfl, ?_⟩
          simp only [KisDataSource.emit]
          rw [hf2, hf1, hf]

/-- Witness of C18: the opened source handles a data frame whose `packet`
record unpacks to a map without `tv_sec`. -/
theorem C18_bad_packet_payload_counts_one_error_witness :
    (exampleOpened.handle_packet_data (exampleEnvDict examplePacketDictNoTvSec)
        [(bytes "packet", examplePayloadObj "packet")]).ipc_errors = exampleOpened.ipc_errors + 1
    ∧ (exampleOpened.handle_packet_data (exampleEnvDict examplePacketDictNoTvSec)
        [(bytes "packet", examplePayloadObj "packet")]).trace =
        exampleOpened.trace ++ [Event.msg_error, Event.DestroyPacket] :=
  ((C18_bad_packet_payload_counts_one_error (exampleEnvDict examplePacketDictNoTvSec)
    exampleOpened [(bytes "packet", examplePayloadObj "packet")] (examplePayloadObj "packet")
    examplePacketDictNoTvSec (by decide) rfl).1 (Or.inl (by decide))).2.2.1 (by decide)

theorem MsgpackStrMap.find_cases {β : Type} (dict : MsgpackStrMap) (k : List Nat)
    (conv : MsgpackObject → Option β)
    (hw : ∀ o, MsgpackStrMap.find dict k = some o → conv o ≠ none) :
    MsgpackStrMap.find dict k = none ∨
      ∃ o v, MsgpackStrMap.find dict k = some o ∧ conv o = some v := by
  cases h : MsgpackStrMap.find dict k with
  | none => exact Or.inl rfl
  | some o =>
    right
    cases hc : conv o with
    | none => exact absurd hc (hw o h)
    | some v => exact ⟨o, v, rfl, hc⟩

theorem KisDataSource.opt_field_absent {α β : Type} (dict : MsgpackStrMap) (k : String)
    (conv : MsgpackObject → Option β) (store : α → β → α) (x : α)
    (h : MsgpackStrMap.find dict (bytes k) = none) :
    KisDataSource.opt_field dict k conv store x = some x := by
  unfold KisDataSource.opt_field; rw [h]

theorem KisDataSource.opt_field_present {α β : Type} (dict : MsgpackStrMap) (k : String)
    (conv : MsgpackObject → Option β) (store : α → β → α) (x : α) (o : MsgpackObject) (v : β)
    (h : MsgpackStrMap.find dict (bytes k) = some o) (hc : conv o = some v) :
    KisDataSource.opt_field dict k conv store x = some (store x v) := by
  unfold KisDataSource.opt_field; rw [h]; simp [hc]

/-- C19: a `signal` payload that unpacks to a map whose fields, where present,
have the types of the schema. The decoder gives a record in which each of
`signal_dbm`, `noise_dbm`, `signal_rssi` and `noise_rssi` holds the value of
its own field if that is present and the value the constructor left
otherwise; the signal type is RSSI as soon as one of the two RSSI fields is
present, dBm when only dBm fields are present, and otherwise as the
constructor left it. -/
theorem C19_signal_fields_are_independent (env : Env) (s : KisDataSource)
    (obj : KisDataSource_CapKeyedObject) (dict : MsgpackStrMap)
    (hd : env.unpack obj.object = some dict)
    (w1 : ∀ o, MsgpackStrMap.find dict (bytes "signal_dbm") = some o → o.as_int32 ≠ none)
    (w2 : ∀ o, MsgpackStrMap.find dict (bytes "noise_dbm") = some o → o.as_int32 ≠ none)
    (w3 : ∀ o, MsgpackStrMap.find dict (bytes "signal_rssi") = some o → o.as_int32 ≠ none)
    (w4 : ∀ o, MsgpackStrMap.find dict (bytes "noise_rssi") = some o → o.as_int32 ≠ none)
    (w5 : ∀ o, MsgpackStrMap.find dict (bytes "freq_khz") = some o → o.as_double ≠ none)
    (w6 : ∀ o, MsgpackStrMap.find dict (bytes "channel") = some o → o.as_string ≠ none)
    (w7 : ∀ o, MsgpackStrMap.find dict (bytes "datarate") = some o → o.as_double ≠ none) :
    ∃ si, s.handle_kv_signal env obj = (some si, s)
      ∧ si.signal_dbm = ((MsgpackStrMap.find dict (bytes "signal_dbm")).bind
          MsgpackObject.as_int32).getD env.l1_new.signal_dbm
      ∧ si.noise_dbm = ((MsgpackStrMap.find dict (bytes "noise_dbm")).bind
          MsgpackObject.as_int32).getD env.l1_new.noise_dbm
      ∧ si.signal_rssi = ((MsgpackStrMap.find dict (bytes "signal_rssi")).bind
          MsgpackObject.as_int32).getD env.l1_new.signal_rssi
      ∧ si.noise_rssi = ((MsgpackStrMap.find dict (bytes "noise_rssi")).bind
          MsgpackObject.as_int32).getD env.l1_new.noise_rssi
      ∧ si.signal_type =
          (if (MsgpackStrMap.find dict (bytes "signal_rssi")).isSome
              ∨ (MsgpackStrMap.find dict (bytes "noise_rssi")).isSome then
            kis_l1_signal_type.kis_l1_signal_type_rssi
          else if (MsgpackStrMap.find dict (bytes "signal_dbm")).isSome
              ∨ (MsgpackStrMap.find dict (bytes "noise_dbm")).isSome then
            kis_l1_signal_type.kis_l1_signal_type_dbm
          else env.l1_new.signal_type) := by
  have d1 := MsgpackStrMap.find_cases dict _ _ w1
  have d2 := MsgpackStrMap.find_cases dict _ _ w2
  have d3 := MsgpackStrMap.find_cases dict _ _ w3
  have d4 := MsgpackStrMap.find_cases dict _ _ w4
  have d5 := MsgpackStrMap.find_cases dict _ _ w5
  have d6 := MsgpackStrMap.find_cases dict _ _ w6
  have d7 := MsgpackStrMap.find_cases dict _ _ w7
  clear w1 w2 w3 w4 w5 w6 w7
  unfold KisDataSource.handle_kv_signal
  simp only [hd, Option.bind_eq_bind, Option.some_bind]
  rcases d5 with h5 | ⟨o5, v5, h5, c5⟩ <;>
  rcases d6 with h6 | ⟨o6, v6, h6, c6⟩ <;>
  rcases d7 with h7 | ⟨o7, v7, h7, c7⟩ <;>
  rcases d1 with h1 | ⟨o1, v1, h1, c1⟩ <;>
  rcases d2 with h2 | ⟨o2, v2, h2, c2⟩ <;>
  rcases d3 with h3 | ⟨o3, v3, h3, c3⟩ <;>
  rcases d4 with h4 | ⟨o4, v4, h4, c4⟩ <;>
  (simp only [KisDataSource.opt_field, *, Option.map_some', Option.some_bind,
    Option.bind_eq_bind, Option.none_bind, Option.getD_some, Option.getD_none,
    Option.isSome_some, Option.isSome_none, Bool.false_eq_true, or_self, or_true, true_or,
    or_false, false_or, if_true, if_false]
   exact ⟨_, rfl, rfl, rfl, rfl, rfl, rfl⟩)

/-- Witness of C19: a payload with `signal_dbm` -40 and `signal_rssi` 17: both
values are stored and the type is RSSI. -/
theorem C19_signal_fields_are_independent_witness :
    ∃ si, exampleOpened.handle_kv_signal (exampleEnvDict exampleSignalDict)
        (examplePayloadObj "signal") = (some si, exampleOpened)
      ∧ si.signal_dbm = -40 ∧ si.signal_rssi = 17
      ∧ si.signal_type = kis_l1_signal_type.kis_l1_signal_type_rssi := by
  obtain ⟨si, h, h1, _, h3, _, h5⟩ :=
    C19_signal_fields_are_independent (exampleEnvDict exampleSignalDict) exampleOpened
      (examplePayloadObj "signal") exampleSignalDict rfl
      (by
        intro o ho
        have hf : MsgpackStrMap.find exampleSignalDict (bytes "signal_dbm") =
            some (MsgpackObject.atom (MsgpackAtom.int (-40))) := by decide
        rw [hf] at ho; cases ho; decide)
      (by
        intro o ho
        have hf : MsgpackStrMap.find exampleSignalDict (bytes "noise_dbm") = none := by decide
        rw [hf] at ho; cases ho)
      (by
        intro o ho
        have hf : MsgpackStrMap.find exampleSignalDict (bytes "signal_rssi") =
            some (MsgpackObject.atom (MsgpackAtom.uint 17)) := by decide
        rw [hf] at ho; cases ho; decide)
      (by
        intro o ho
        have hf : MsgpackStrMap.find exampleSignalDict (bytes "noise_rssi") = none := by decide
        rw [hf] at ho; cases ho)
      (by
        intro o ho
        have hf : MsgpackStrMap.find exampleSignalDict (bytes "freq_khz") = none := by decide
        rw [hf] at ho; cases ho)
      (by
        intro o ho
        have hf : MsgpackStrMap.find exampleSignalDict (bytes "channel") = none := by decide
        rw [hf] at ho; cases ho)
      (by
        intro o ho
        have hf : MsgpackStrMap.find exampleSignalDict (bytes "datarate") = none := by decide
        rw [hf] at ho; cases ho)
  refine ⟨si, h, ?_, ?_, ?_⟩
  · rw [h1]; decide
  · rw [h3]; decide
  · rw [h5]; decide

/-- C20 (the code departs from it): a `gps` payload with `precision` 2.5 and
`fix` 3. The decoder assigns the value of `fix` to `gpsinfo->precision`: the
record has precision 3 (the integer 3 converted to `double`) instead of 2.5,
and its `fix` keeps the value the constructor left (0 here). -/
theorem C20_fix_overwrites_precision :
    MsgpackStrMap.find exampleGpsDict (bytes "precision") =
      some (MsgpackObject.atom (MsgpackAtom.float 4612811918334230528))
    ∧ MsgpackStrMap.find exampleGpsDict (bytes "fix") =
      some (MsgpackObject.atom (MsgpackAtom.uint 3))
    ∧ (exampleOpened.handle_kv_gps (exampleEnvDict exampleGpsDict) (examplePayloadObj "gps")).1 =
      some { kis_gps_packinfo.empty with precision := CDouble.ofInt 3 }
    ∧ ((exampleOpened.handle_kv_gps (exampleEnvDict exampleGpsDict)
        (examplePayloadObj "gps")).1.map (fun g => g.fix)) = some 0
    ∧ ((exampleOpened.handle_kv_gps (exampleEnvDict exampleGpsDict)
        (examplePayloadObj "gps")).1.map (fun g => g.precision)) = some (CDouble.ofInt 3) := by
  refine ⟨by decide, by decide, by decide!, by decide!, by decide!⟩

/-! ## Claims on the open response, the running flag and short frames -/

/-- C21 (the code departs from it): callback 7 waits on the opened source. A
valid `OPENRESP` frame carries the records `message`, `channels` (listing "1",
"6", "11") and `success` (the byte 1). The decoder assigns `data_offt` where
it should advance (the defect of C5): its third turn reads `channels` again
and never reads `success`. The handler stores the channel list, finds no
`success` value, counts an IPC error and calls no callback. The same frame
without the `message` record has two records, both are read, and callback 7
is called with its aux and success = true. -/
theorem C21_success_record_is_lost :
    exampleOpened.open_callback = some 7
    ∧ BufferAvailable.decode exampleEnvOpenResp.sig exampleOpenRespFull exampleEnvOpenResp.past
      = Decoded.frame 95 (bytes "OPENRESP")
          [(bytes "channels", { key := bytes "channels", size := 1, object := [162] }),
           (bytes "message", { key := bytes "message", size := 1, object := [161] })]
    ∧ (exampleOpened.receive exampleEnvOpenResp exampleOpenRespFull).read_buffer = []
    ∧ (exampleOpened.receive exampleEnvOpenResp exampleOpenRespFull).source_channels_vec
      = [bytes "1", bytes "6", bytes "11"]
    ∧ (exampleOpened.receive exampleEnvOpenResp exampleOpenRespFull).trace
      = exampleOpened.trace ++ [Event.msg (bytes "ready") 2]
    ∧ open_completions 7 (exampleOpened.receive exampleEnvOpenResp exampleOpenRespFull).trace = 0
    ∧ (exampleOpened.receive exampleEnvOpenResp exampleOpenRespFull).ipc_errors
      = exampleOpened.ipc_errors + 1
    ∧ (exampleOpened.receive exampleEnvOpenResp exampleOpenRespChannels).trace
      = exampleOpened.trace ++ [Event.open_callback 7 (some 1) true] := by
  refine ⟨by decide!, by decide!, by decide!, by decide!, by decide!, by decide!, by decide!,
    by decide!⟩

/-- C22 (the code departs from it): a new source is not running, has PID 0 and
no transport, and after `probe_source` with a launch that succeeds it is
running with PID 4242 and an open transport. When the child then answers with
a `PROBERESP` (`success` = 1 or 0), `handle_packet_probe_resp` closes the IPC
and leaves the running flag and the PID alone: the source counts as running
with PID 4242 while its transport is closed. The other ways of shutting the
transport clear both: an `ERROR` frame and `BufferError` set PID 0,
`close_source` sets PID -1. -/
theorem C22_probe_response_leaves_running_set :
    (KisDataSource.new (bytes "kismet_cap")).source_running = false
    ∧ (KisDataSource.new (bytes "kismet_cap")).child_pid = 0
    ∧ (KisDataSource.new (bytes "kismet_cap")).transport_open = false
    ∧ exampleProbed.source_running = true
    ∧ exampleProbed.child_pid = 4242
    ∧ exampleProbed.transport_open = true
    ∧ (exampleProbed.receive exampleEnv (exampleProbeResp 1)).source_running = true
    ∧ (exampleProbed.receive exampleEnv (exampleProbeResp 1)).child_pid = 4242
    ∧ (exampleProbed.receive exampleEnv (exampleProbeResp 1)).source_ipc =
        some { pid := 4242, closed := true, killed := false }
    ∧ (exampleProbed.receive exampleEnv (exampleProbeResp 1)).transport_open = false
    ∧ (exampleProbed.receive exampleEnv (exampleProbeResp 0)).source_running = true
    ∧ (exampleProbed.receive exampleEnv (exampleProbeResp 0)).child_pid = 4242
    ∧ (exampleProbed.receive exampleEnv (exampleProbeResp 0)).transport_open = false
    ∧ (exampleProbed.receive exampleEnv exampleErrorFrame).source_running = false
    ∧ (exampleProbed.receive exampleEnv exampleErrorFrame).child_pid = 0
    ∧ (exampleProbed.receive exampleEnv exampleErrorFrame).transport_open = false
    ∧ (exampleProbed.BufferError []).source_running = false
    ∧ (exampleProbed.BufferError []).child_pid = 0
    ∧ (exampleProbed.BufferError []).transport_open = false
    ∧ exampleProbed.close_source.source_running = false
    ∧ exampleProbed.close_source.child_pid = -1
    ∧ exampleProbed.close_source.transport_open = false := by
  refine ⟨by decide!, by decide!, by decide!, by decide!, by decide!, by decide!, by decide!,
    by decide!, by decide!, by decide!, by decide!, by decide!, by decide!, by decide!,
    by decide!, by decide!, by decide!, by decide!, by decide!, by decide!, by decide!,
    by decide!⟩

/-- C24 (the code departs from it): the read buffer of the opened source holds
a 32-byte header that declares the total size 0 and carries 1, the Adler-32 of
no bytes, in its checksum field. `BufferAvailable` tests the size against the
number of buffered bytes only: the header is decoded as a frame of size 0 and
type `ERROR`, the `ERROR` handler runs (`soft_kill`, the source stops
running), and no byte leaves the read buffer. A second call finds the same 32
bytes and dispatches the same frame again. -/
theorem C24_empty_frame_is_accepted :
    exampleEmptyFrame.length = 32
    ∧ readU32 (peekAt exampleEmptyFrame exampleEnv.past) 8 = 0
    ∧ readU32 (peekAt exampleEmptyFrame exampleEnv.past) 4 = 1
    ∧ Adler32Checksum [] = 1
    ∧ BufferAvailable.decode exampleEnv.sig exampleEmptyFrame exampleEnv.past
        = Decoded.frame 0 (bytes "ERROR") []
    ∧ (exampleOpened.receive exampleEnv exampleEmptyFrame).read_buffer = exampleEmptyFrame
    ∧ (exampleOpened.receive exampleEnv exampleEmptyFrame).trace
        = exampleOpened.trace ++ [Event.soft_kill]
    ∧ (exampleOpened.receive exampleEnv exampleEmptyFrame).source_running = false
    ∧ ((exampleOpened.receive exampleEnv exampleEmptyFrame).BufferAvailable exampleEnv
        32).read_buffer = exampleEmptyFrame
    ∧ ((exampleOpened.receive exampleEnv exampleEmptyFrame).BufferAvailable exampleEnv
        32).trace = exampleOpened.trace ++ [Event.soft_kill, Event.soft_kill] := by
  refine ⟨by decide!, by decide!, by decide!, by decide!, by decide!, by decide!, by decide!,
    by decide!, by decide!, by decide!⟩

/-- C25 (the code departs from it): callback 7 was registered by `open_source`
together with the aux 1. A second `open_source` with callback 8 and aux 2
fails callback 7 out with the aux 2 of the new call; the aux 1 is never handed
to it. `probe_source` fails an installed probe callback out with the stored
`probe_aux` (here 10, not the 20 of the new call). -/
theorem C25_displaced_callback_gets_new_aux :
    exampleOpened.open_callback = some 7
    ∧ exampleOpened.open_aux = some 1
    ∧ (exampleOpened.open_source exampleEnv (bytes "wlan1") (some 8) (some 2)).2.trace =
        exampleOpened.trace ++
          [Event.open_callback 7 (some 2) false, Event.msg_info, Event.soft_kill,
           Event.launch_kis_binary (bytes "kismet_cap")]
    ∧ Event.open_callback 7 (some 1) false ∉
        (exampleOpened.open_source exampleEnv (bytes "wlan1") (some 8) (some 2)).2.trace
    ∧ (({ exampleProbed with probe_callback := some 1, probe_aux := some 10 } :
          KisDataSource).probe_source exampleEnv (bytes "wlan0") (some 2) (some 20)).2.trace =
        exampleProbed.trace ++
          [Event.probe_callback 1 (some 10) false, Event.msg_info, Event.soft_kill,
           Event.launch_kis_binary (bytes "kismet_cap")] := by
  refine ⟨by decide!, by decide!, by decide!, by decide!, by decide!⟩

/-- C26 (the code departs from it): the object built from (key, bytes, len) has
the first 16 characters of the key and the first `len` bytes, and its `size`
is the value `junk` the member held before, whatever `len` is: the constructor
has no assignment to `size`. The encoder measures the record as 20 + `junk`.
With `junk` = 0, the object built from ("DEFINITION", "wlan0", 5) has size 0
and is measured as 20 bytes, not 25. -/
theorem C26_constructor_leaves_size_unset (junk : Nat) (heap : Nat → Nat)
    (in_key in_object : List Nat) (in_len : Nat) :
    (KisDataSource_CapKeyedObject.ofBytes junk in_key in_object in_len).key = in_key.take 16
    ∧ (KisDataSource_CapKeyedObject.ofBytes junk in_key in_object in_len).object
        = in_object.take in_len
    ∧ (KisDataSource_CapKeyedObject.ofBytes junk in_key in_object in_len).size = junk
    ∧ (write_ipc_packet.measure heap
        [(in_key, KisDataSource_CapKeyedObject.ofBytes junk in_key in_object in_len)] [] 0).2
        = 20 + junk
    ∧ (KisDataSource_CapKeyedObject.ofBytes 0 (bytes "DEFINITION") (bytes "wlan0") 5).size = 0
    ∧ (write_ipc_packet.measure heap [(bytes "DEFINITION",
        KisDataSource_CapKeyedObject.ofBytes 0 (bytes "DEFINITION") (bytes "wlan0") 5)] [] 0).2
        = 20 := by
  refine ⟨rfl, rfl, rfl, ?_, rfl, ?_⟩
  · simp [write_ipc_packet.measure, KisDataSource_CapKeyedObject.ofBytes,
      sizeof_simple_cap_proto_kv_h_t]
  · simp [write_ipc_packet.measure, KisDataSource_CapKeyedObject.ofBytes,
      sizeof_simple_cap_proto_kv_h_t]

/-! ## The menu: ids and the selection -/

theorem vec_at_ofNat {α : Type} (v : List α) (i : Nat) : vec_at v (i : Int) = v[i]? := by
  unfold vec_at
  simp

theorem Kis_Menu.AddMenuItem_valid (m : Kis_Menu) (in_text : List Nat) (menuid : Nat)
    (extra : Int) (mn : Kis_Menu._menu)
    (hfit : m.menubar.length ≤ 21474836)
    (hm : m.menubar[menuid]? = some mn) (h98 : mn.items.length ≤ 98) :
    ∃ mn1 : Kis_Menu._menu, m.AddMenuItem in_text menuid extra
      = some ((menuid : Int) * 100 + mn.items.length + 1,
          { m with menubar := m.menubar.set menuid mn1 })
      ∧ mn1.items = mn.items ++ [{ parentmenu := menuid, text := in_text, extrachar := extra
                                   id := mn.items.length }] := by
  have hlt : menuid < m.menubar.length := by
    rcases Nat.lt_or_ge menuid m.menubar.length with h | h
    · exact h
    · rw [List.getElem?_eq_none h] at hm; cases hm
  have hc1 : ¬ ((menuid : Int) < 0 ∨ (menuid : Int) > c_int (c_int m.menubar.length - 1)) := by
    unfold c_int; omega
  have hid : c_int (mn.items.length : Int) = mn.items.length := by
    unfold c_int; omega
  have hret : c_int (c_int (c_int ((menuid : Int) * 100) + (mn.items.length : Int)) + 1)
      = (menuid : Int) * 100 + mn.items.length + 1 := by
    unfold c_int; omega
  unfold Kis_Menu.AddMenuItem
  rw [if_neg hc1]
  simp only [vec_at_ofNat, hm, Option.bind_eq_bind, Option.some_bind, hid, hret,
      Int.toNat_ofNat]
  refine ⟨_, rfl, ?_⟩
  split_ifs <;> rfl

theorem Kis_Menu.Activate_added (m : Kis_Menu) (menuid : Nat) (mn mn1 : Kis_Menu._menu)
    (hfit : m.menubar.length ≤ 21474836)
    (hlt : menuid < m.menubar.length) (h98 : mn.items.length ≤ 98)
    (hlen1 : mn1.items.length = mn.items.length + 1) :
    Kis_Menu.Activate { m with menubar := m.menubar.set menuid mn1 }
        ((menuid : Int) * 100 + mn.items.length + 1)
      = some { cur_menu := menuid, cur_item := mn.items.length,
               menubar := m.menubar.set menuid mn1 } := by
  have hc1 : ¬ ((menuid : Int) < 0 ∨ (menuid : Int) > c_int (c_int m.menubar.length - 1)) := by
    unfold c_int; omega
  have hget : (m.menubar.set menuid mn1)[menuid]? = some mn1 := by
    simp [List.getElem?_set, hlt]
  have htd : Int.tdiv ((menuid : Int) * 100 + mn.items.length + 1) 100 = menuid := by
    rw [Int.tdiv_eq_ediv (by omega) (by omega)]; omega
  have htm : Int.tmod ((menuid : Int) * 100 + mn.items.length + 1) 100
      = mn.items.length + 1 := by
    rw [Int.tmod_eq_emod (by omega) (by omega)]; omega
  have hitem : c_int ((mn.items.length : Int) + 1 - 1) = mn.items.length := by
    unfold c_int; omega
  have hc2 : ¬ ((mn.items.length : Int) < 0
      ∨ (mn.items.length : Int) > c_int (c_int mn1.items.length - 1)) := by
    rw [hlen1]; unfold c_int; push_cast; omega
  unfold Kis_Menu.Activate
  simp only [htd, htm, List.length_set]
  rw [if_neg hc1]
  simp only [vec_at_ofNat, hget, Option.bind_eq_bind, Option.some_bind]
  rw [hitem, if_neg hc2]

/-- C27: on a menu bar whose ids fit an `int` (at most 21474836 menus), for a
menu id `menuid` that names an existing menu `mn` holding at most 98 items,
`AddMenuItem(text, menuid, extra)` puts the item at the index
`mn.items.size()` of that menu and returns `menuid * 100 + index + 1`, and
`Activate` of that result sets `cur_menu` to `menuid` and `cur_item` to the
index of the item just added, leaving the menu bar as it is. -/
theorem C27_activate_inverts_add_menu_item (m : Kis_Menu) (in_text : List Nat) (menuid : Nat)
    (extra : Int) (mn : Kis_Menu._menu)
    (hfit : m.menubar.length ≤ 21474836)
    (hm : m.menubar[menuid]? = some mn) (h98 : mn.items.length ≤ 98) :
    ∃ m1 m2 mn1,
      m.AddMenuItem in_text menuid extra
        = some ((menuid : Int) * 100 + mn.items.length + 1, m1)
      ∧ m1.menubar[menuid]? = some mn1
      ∧ mn1.items = mn.items ++ [{ parentmenu := menuid, text := in_text, extrachar := extra
                                   id := mn.items.length }]
      ∧ m1.Activate ((menuid : Int) * 100 + mn.items.length + 1) = some m2
      ∧ m2.cur_menu = menuid
      ∧ m2.cur_item = mn.items.length
      ∧ m2.menubar = m1.menubar := by
  have hlt : menuid < m.menubar.length := by
    rcases Nat.lt_or_ge menuid m.menubar.length with h | h
    · exact h
    · rw [List.getElem?_eq_none h] at hm; cases hm
  obtain ⟨mn1, hadd, hitems⟩ := Kis_Menu.AddMenuItem_valid m in_text menuid extra mn hfit hm h98
  have hlen1 : mn1.items.length = mn.items.length + 1 := by
    rw [hitems, List.length_append]; rfl
  have hact := Kis_Menu.Activate_added m menuid mn mn1 hfit hlt h98 hlen1
  have hget : (m.menubar.set menuid mn1)[menuid]? = some mn1 := by
    simp [List.getElem?_set, hlt]
  exact ⟨_, _, mn1, hadd, hget, hitems, hact, rfl, rfl, rfl⟩

/-- Witness of C27: a third item, "Quit", is added to the menu "File" of
`exampleMenu` and activated. -/
theorem C27_activate_inverts_add_menu_item_witness :
    exampleMenu.menubar.length ≤ 21474836
    ∧ exampleMenu.menubar[0]? = some exampleFileMenu
    ∧ exampleFileMenu.items.length ≤ 98
    ∧ ∃ m1 m2 mn1,
      exampleMenu.AddMenuItem (bytes "Quit") ((0 : Nat) : Int) 113
        = some (((0 : Nat) : Int) * 100 + (exampleFileMenu.items.length : Int) + 1, m1)
      ∧ m1.menubar[0]? = some mn1
      ∧ mn1.items = exampleFileMenu.items
          ++ [{ parentmenu := ((0 : Nat) : Int), text := bytes "Quit", extrachar := 113
                id := (exampleFileMenu.items.length : Int) }]
      ∧ m1.Activate (((0 : Nat) : Int) * 100 + (exampleFileMenu.items.length : Int) + 1)
          = some m2
      ∧ m2.cur_menu = ((0 : Nat) : Int)
      ∧ m2.cur_item = (exampleFileMenu.items.length : Int)
      ∧ m2.menubar = m1.menubar :=
  ⟨by decide, rfl, by decide,
    C27_activate_inverts_add_menu_item exampleMenu (bytes "Quit") 0 113 exampleFileMenu
      (by decide) rfl (by decide)⟩

/-- C28 (the code departs from it): the constructor selects menu 0 and item 0
of an empty menu bar, so a new `Kis_Menu` has no valid selection, and
`KeyPress(KEY_DOWN)` on it indexes `menubar[0]` outside the vector. Started
from a valid selection, a key press breaks it as well: with the menus "File"
(three items) and "View" (one item) and the third item of "File" activated,
`KEY_RIGHT` moves to "View" and keeps `cur_item` = 2, which is no item of
"View"; Enter then returns the id 103 of an item that does not exist, and
`KEY_UP` indexes `items[1]` outside the vector. -/
theorem C28_selection_not_kept_valid :
    Kis_Menu.new.cur_menu = 0
    ∧ Kis_Menu.new.cur_item = 0
    ∧ Kis_Menu.new.menubar = []
    ∧ Kis_Menu.new.valid_selection = false
    ∧ Kis_Menu.new.KeyPress KEY_DOWN = none
    ∧ Kis_Menu.new.Deactivate.valid_selection = true
    ∧ (Kis_Menu.new.calls (Kis_Menu.Call.Deactivate :: exampleMenuCalls
          ++ [Kis_Menu.Call.Activate 3])).map
        (fun m => (m.cur_menu, m.cur_item, m.valid_selection)) = some (0, 2, true)
    ∧ (Kis_Menu.new.calls (Kis_Menu.Call.Deactivate :: exampleMenuCalls
          ++ [Kis_Menu.Call.Activate 3, Kis_Menu.Call.KeyPress KEY_RIGHT])).map
        (fun m => (m.cur_menu, m.cur_item, m.valid_selection)) = some (1, 2, false)
    ∧ (Kis_Menu.new.calls (Kis_Menu.Call.Deactivate :: exampleMenuCalls
          ++ [Kis_Menu.Call.Activate 3, Kis_Menu.Call.KeyPress KEY_RIGHT])).bind
        (fun m => (m.KeyPress 10).map Prod.fst) = some 103
    ∧ Kis_Menu.new.calls (Kis_Menu.Call.Deactivate :: exampleMenuCalls
          ++ [Kis_Menu.Call.Activate 3, Kis_Menu.Call.KeyPress KEY_RIGHT,
              Kis_Menu.Call.KeyPress KEY_UP]) = none := by
  refine ⟨rfl, rfl, rfl, by decide!, by decide!, by decide!, by decide!, by decide!,
    by decide!, by decide!⟩

/-! ## The probe race -/

namespace DST_DataSourceProbe

theorem step_of_resolved (r : DST_DataSourceProbe) (x : ProbeResult) (h : r.result = some x)
    (e : ProbeEvent) : r.step e = r := by
  cases e with
  | completion p b => simp [step, probe_handler, h]
  | clock now => simp [step, on_deadline, h]

theorem run_of_resolved (r : DST_DataSourceProbe) (x : ProbeResult) (h : r.result = some x)
    (more : List ProbeEvent) : r.run more = r := by
  induction more with
  | nil => rfl
  | cons e es ih =>
    show (r.step e).run es = r
    rw [step_of_resolved r x h e]
    exact ih

theorem run_append (r : DST_DataSourceProbe) (a b : List ProbeEvent) :
    r.run (a ++ b) = (r.run a).run b := by
  simp [run, List.foldl_append]

theorem run_snoc (r : DST_DataSourceProbe) (a : List ProbeEvent) (e : ProbeEvent) :
    r.run (a ++ [e]) = (r.run a).step e := by
  simp [run, List.foldl_append]

theorem inv_run (in_time : Nat) (in_definition protos : List Nat) (deadline : Option Nat)
    (evs : List ProbeEvent) :
    Inv in_time in_definition protos deadline evs
      ((new in_time in_definition protos deadline).run evs) := by
  induction evs using List.reverseRecOn with
  | nil =>
    refine ⟨rfl, ?_, ?_, ?_⟩
    · intro _
      refine ⟨rfl, rfl, ?_⟩
      intro q
      simp [run, new]
    · intro w h
      simp [run, new] at h
    · intro h
      simp [run, new] at h
  | append_singleton evs e ih =>
    rw [run_snoc]
    obtain ⟨hd, hnone, hwin, hndm⟩ := ih
    generalize hr : (new in_time in_definition protos deadline).run evs = r at *
    cases hres : r.result with
    | some x =>
      rw [step_of_resolved r x hres e]
      refine ⟨hd, ?_, ?_, ?_⟩
      · intro h
        rw [hres] at h
        cases h
      · intro w h
        obtain ⟨h1, h2, h3⟩ := hwin w h
        refine ⟨h1, List.mem_append_left _ h2, ?_⟩
        intro q hq hne
        rcases h3 q hq hne with h4 | h4
        · exact Or.inl (List.mem_append_left _ h4)
        · exact Or.inr h4
      · intro h
        obtain ⟨pre, e0, post, h1, h2, h3⟩ := hndm h
        exact ⟨pre, e0, post ++ [e], by rw [h1]; simp, h2, h3⟩
    | none =>
      obtain ⟨hp, hc, hv⟩ := hnone hres
      cases e with
      | completion p b =>
        cases b with
        | true =>
          have hs : r.step (ProbeEvent.completion p true) =
              { r with protosrc := some p, protosrc_vec := []
                       cancelled := r.cancelled ++ r.protosrc_vec.filter (fun q => q ≠ p)
                       result := some (ProbeResult.winner p) } := by
            simp [step, probe_handler, hres, hp, set_proto, cancel]
          rw [hs]
          refine ⟨hd, ?_, ?_, ?_⟩
          · intro h
            cases h
          · intro w h
            have hw : p = w := by
              simpa using h
            subst hw
            refine ⟨rfl, by simp, ?_⟩
            intro q hq hne
            by_cases hf : ProbeEvent.completion q false ∈ evs
            · exact Or.inl (List.mem_append_left _ hf)
            · right
              have hqv : q ∈ r.protosrc_vec := (hv q).2 ⟨hq, hf⟩
              simp [hc, hqv, hne]
          · intro h
            simp at h
        | false =>
          by_cases hleft : r.protosrc_vec.filter (fun q => q ≠ p) = []
          · have hs : r.step (ProbeEvent.completion p false) =
                { r with protosrc_vec := []
                         result := some ProbeResult.NoDriverMatched } := by
              simp only [step, probe_handler, hres, Option.isSome_none, Bool.false_eq_true,
                if_false, remove_failed_proto, hleft, List.length_nil, hp, and_self, if_true]
            rw [hs]
            refine ⟨hd, ?_, ?_, ?_⟩
            · intro h
              cases h
            · intro w h
              simp at h
            · intro _
              refine ⟨evs, ProbeEvent.completion p false, [], rfl, ?_, ?_⟩
              · rw [hr]
                exact hres
              · left
                refine ⟨p, rfl, ?_⟩
                intro q hq
                by_cases hf : ProbeEvent.completion q false ∈ evs
                · exact Or.inr hf
                · left
                  by_contra hne
                  have hqv : q ∈ r.protosrc_vec := (hv q).2 ⟨hq, hf⟩
                  have : q ∈ r.protosrc_vec.filter (fun q => q ≠ p) := by
                    simp [hqv, hne]
                  rw [hleft] at this
                  cases this
          · have hs : r.step (ProbeEvent.completion p false) =
                { r with protosrc_vec := r.protosrc_vec.filter (fun q => q ≠ p) } := by
              have hlen : (r.protosrc_vec.filter (fun q => q ≠ p)).length ≠ 0 := by
                rwa [Ne, List.length_eq_zero]
              simp only [step, probe_handler, hres, Option.isSome_none, Bool.false_eq_true,
                if_false, remove_failed_proto, hlen, false_and]
            rw [hs]
            refine ⟨hd, ?_, ?_, ?_⟩
            · intro _
              refine ⟨hp, hc, ?_⟩
              intro q
              simp only [List.mem_filter, hv q, List.mem_append, List.mem_singleton,
                ProbeEvent.completion.injEq, and_true, decide_eq_true_eq, not_or]
              tauto
            · intro w h
              rw [hres] at h
              cases h
            · intro h
              rw [hres] at h
              cases h
      | clock now =>
        cases hdl : r.deadline with
        | none =>
          have hs : r.step (ProbeEvent.clock now) = r := by
            simp [step, on_deadline, hres, hdl]
          rw [hs]
          refine ⟨hd, ?_, ?_, ?_⟩
          · intro _
            refine ⟨hp, hc, ?_⟩
            intro q
            simp [hv q]
          · intro w h
            rw [hres] at h
            cases h
          · intro h
            rw [hres] at h
            cases h
        | some d =>
          by_cases hle : d ≤ now
          · have hs : r.step (ProbeEvent.clock now) =
                { r with cancelled := r.cancelled ++ r.protosrc_vec, protosrc_vec := []
                         result := some ProbeResult.NoDriverMatched } := by
              simp [step, on_deadline, hres, hdl, hle, cancel]
            rw [hs]
            refine ⟨hd, ?_, ?_, ?_⟩
            · intro h
              cases h
            · intro w h
              simp at h
            · intro _
              refine ⟨evs, ProbeEvent.clock now, [], rfl, ?_, ?_⟩
              · rw [hr]
                exact hres
              · right
                exact ⟨now, d, rfl, by rw [← hd, hdl], hle⟩
          · have hs : r.step (ProbeEvent.clock now) = r := by
              simp [step, on_deadline, hres, hdl, hle]
            rw [hs]
            refine ⟨hd, ?_, ?_, ?_⟩
            · intro _
              refine ⟨hp, hc, ?_⟩
              intro q
              simp [hv q]
            · intro w h
              rw [hres] at h
              cases h
            · intro h
              rw [hres] at h
              cases h

theorem step_exhausts (in_time : Nat) (in_definition protos : List Nat) (deadline : Option Nat)
    (pre : List ProbeEvent) (e : ProbeEvent)
    (hnone : ((new in_time in_definition protos deadline).run pre).result = none)
    (hex : ProbeEvent.exhausts protos deadline pre e) :
    (((new in_time in_definition protos deadline).run pre).step e).result
      = some ProbeResult.NoDriverMatched := by
  obtain ⟨hd, hn, -, -⟩ := inv_run in_time in_definition protos deadline pre
  generalize (new in_time in_definition protos deadline).run pre = r at *
  obtain ⟨hp, hc, hv⟩ := hn hnone
  rcases hex with ⟨p, rfl, hall⟩ | ⟨now, d, rfl, hdl, hle⟩
  · have hleft : r.protosrc_vec.filter (fun q => q ≠ p) = [] := by
      rw [List.eq_nil_iff_forall_not_mem]
      intro q hq
      simp only [List.mem_filter, decide_eq_true_eq] at hq
      obtain ⟨hq1, hq2⟩ := hq
      obtain ⟨hq3, hq4⟩ := (hv q).1 hq1
      rcases hall q hq3 with h | h
      · exact hq2 h
      · exact hq4 h
    simp only [step, probe_handler, hnone, Option.isSome_none, Bool.false_eq_true,
      if_false, remove_failed_proto, hleft, List.length_nil, hp, and_self, if_true]
  · simp [step, on_deadline, hnone, hd, hdl, hle, cancel]

end DST_DataSourceProbe

/-- C23, counterexample: a race over the prototypes 1 and 2 with the deadline
10 sees the clock reach 10 before any prototype has reported. It completes
with `NoDriverMatched` and cancels both prototypes, although neither has
reported failure. -/
theorem C23_counterexample :
    (exampleRace.run [ProbeEvent.clock 10]).result = some ProbeResult.NoDriverMatched
    ∧ (exampleRace.run [ProbeEvent.clock 10]).cancelled = [1, 2]
    ∧ ProbeEvent.completion 1 false ∉ [ProbeEvent.clock 10]
    ∧ ProbeEvent.completion 2 false ∉ [ProbeEvent.clock 10] := by
  refine ⟨by decide, by decide, by decide, by decide⟩

/-- C23, as amended: a race over `protos` after the events `evs`, in any
order. Once the race has completed, every later event leaves it as it is, so
at most one completion is ever accepted as the winner. When it completed with
the winner `w`, `w` reported success and every other prototype of the race
has reported failure or was cancelled by the race. It completed with
`NoDriverMatched` exactly when some event found it unresolved and exhausted
it: the failure of the last prototype that had not yet reported failure, or
the clock at or past the deadline; with no deadline, exactly when every
prototype has reported failure while the race was unresolved. -/
theorem C23_probe_race_outcome (in_time : Nat) (in_definition protos : List Nat)
    (deadline : Option Nat) (evs : List ProbeEvent) :
    (∀ x, ((DST_DataSourceProbe.new in_time in_definition protos deadline).run evs).result
        = some x →
      ∀ more, (DST_DataSourceProbe.new in_time in_definition protos deadline).run (evs ++ more)
        = (DST_DataSourceProbe.new in_time in_definition protos deadline).run evs)
    ∧ (∀ w, ((DST_DataSourceProbe.new in_time in_definition protos deadline).run evs).result
        = some (ProbeResult.winner w) →
      ((DST_DataSourceProbe.new in_time in_definition protos deadline).run evs).protosrc = some w
      ∧ ProbeEvent.completion w true ∈ evs
      ∧ ∀ q ∈ protos, q ≠ w → ProbeEvent.completion q false ∈ evs
          ∨ q ∈ ((DST_DataSourceProbe.new in_time in_definition protos deadline).run
              evs).cancelled)
    ∧ (((DST_DataSourceProbe.new in_time in_definition protos deadline).run evs).result
        = some ProbeResult.NoDriverMatched ↔
      ∃ pre e post, evs = pre ++ e :: post
        ∧ ((DST_DataSourceProbe.new in_time in_definition protos deadline).run pre).result = none
        ∧ ProbeEvent.exhausts protos deadline pre e)
    ∧ (deadline = none →
      (((DST_DataSourceProbe.new in_time in_definition protos deadline).run evs).result
        = some ProbeResult.NoDriverMatched ↔
      ∃ pre p post, evs = pre ++ ProbeEvent.completion p false :: post
        ∧ ((DST_DataSourceProbe.new in_time in_definition protos deadline).run pre).result = none
        ∧ ∀ q ∈ protos, q = p ∨ ProbeEvent.completion q false ∈ pre)) := by
  have hinv := DST_DataSourceProbe.inv_run in_time in_definition protos deadline evs
  have hiff : ((DST_DataSourceProbe.new in_time in_definition protos deadline).run evs).result
        = some ProbeResult.NoDriverMatched ↔
      ∃ pre e post, evs = pre ++ e :: post
        ∧ ((DST_DataSourceProbe.new in_time in_definition protos deadline).run pre).result = none
        ∧ ProbeEvent.exhausts protos deadline pre e := by
    constructor
    · exact hinv.2.2.2
    · rintro ⟨pre, e, post, rfl, hnone, hex⟩
      have hstep := DST_DataSourceProbe.step_exhausts in_time in_definition protos deadline
        pre e hnone hex
      rw [DST_DataSourceProbe.run_append]
      show ((((DST_DataSourceProbe.new in_time in_definition protos deadline).run pre).step
        e).run post).result = _
      rw [DST_DataSourceProbe.run_of_resolved _ _ hstep post]
      exact hstep
  refine ⟨?_, hinv.2.2.1, hiff, ?_⟩
  · intro x hx more
    rw [DST_DataSourceProbe.run_append]
    exact DST_DataSourceProbe.run_of_resolved _ x hx more
  · intro hdl
    rw [hiff]
    constructor
    · rintro ⟨pre, e, post, h1, h2, h3⟩
      rcases h3 with ⟨p, rfl, hall⟩ | ⟨now, d, -, hd, -⟩
      · exact ⟨pre, p, post, h1, h2, hall⟩
      · rw [hdl] at hd
        cases hd
    · rintro ⟨pre, p, post, h1, h2, h3⟩
      exact ⟨pre, ProbeEvent.completion p false, post, h1, h2, Or.inl ⟨p, rfl, h3⟩⟩

/-- Witness of C23: prototype 1 reports failure, prototype 2 reports success
and wins, and the late success of prototype 1 changes nothing. -/
theorem C23_probe_race_outcome_witness :
    ((DST_DataSourceProbe.new 0 (bytes "eth0:type=auto") [1, 2] none).run
        [ProbeEvent.completion 1 false, ProbeEvent.completion 2 true]).result
      = some (ProbeResult.winner 2)
    ∧ (DST_DataSourceProbe.new 0 (bytes "eth0:type=auto") [1, 2] none).run
        ([ProbeEvent.completion 1 false, ProbeEvent.completion 2 true]
          ++ [ProbeEvent.completion 1 true])
      = (DST_DataSourceProbe.new 0 (bytes "eth0:type=auto") [1, 2] none).run
        [ProbeEvent.completion 1 false, ProbeEvent.completion 2 true] :=
  ⟨by decide,
    (C23_probe_race_outcome 0 (bytes "eth0:type=auto") [1, 2] none
      [ProbeEvent.completion 1 false, ProbeEvent.completion 2 true]).1
      (ProbeResult.winner 2) (by decide) [ProbeEvent.completion 1 true]⟩

end Kismet
